import Mathlib

/-!
AvionMesh hub: device registry, bridge connection state machine, deferred actions

A shallow embedding of `components/avionmesh` (`device_db.cpp`, `avionmesh_hub.cpp`,
`avionmesh_web.cpp`).

Conventions of the embedding
* `uint8_t`, `uint16_t`, `uint32_t` values are natural numbers; where the source
  arithmetic can wrap, the reduction `% 2 ^ w` is written out.
* `std::string` is a `String` whose characters stand for the bytes of the source string.
* `std::vector<T>` is a `List T`; `push_back` appends at the end.
* The NVS namespace `"avionmesh"` is a record of three optional values; the model covers
  the runs in which the namespace opens (`nvs_open` returns `ESP_OK`).
-/

namespace avionmesh

/-! ## device_db.h -/

/-- The `struct DeviceEntry`. -/
structure DeviceEntry where
  avion_id : Nat
  product_type : Nat
  name : String
  groups : List Nat
  mqtt_exposed : Bool := false
deriving DecidableEq, Repr

/-- The `struct GroupEntry`. -/
structure GroupEntry where
  group_id : Nat
  name : String
  member_ids : List Nat
  mqtt_exposed : Bool := false
deriving DecidableEq, Repr

/-- The three keys of the NVS namespace `"avionmesh"`; `none` is an absent key. -/
structure Nvs where
  passphrase : Option String := none
  devices : Option (List Nat) := none
  groups : Option (List Nat) := none
deriving DecidableEq, Repr

/-- The `class DeviceDB`: the three protected members, and the flash namespace it persists to. -/
structure DeviceDB where
  devices_ : List DeviceEntry := []
  groups_ : List GroupEntry := []
  passphrase_ : String := ""
  nvs : Nvs := {}
deriving DecidableEq, Repr

/-! ## device_db.cpp -/

/-- Two bytes pushed for a `uint16_t` value: `v & 0xFF`, then `v >> 8`. -/
def put_u16 (v : Nat) : List Nat :=
  [(v % 65536) % 256, (v % 65536) / 256]

/-- The bytes of a `std::string`. -/
def string_bytes (s : String) : List Nat :=
  s.toList.map (fun c => c.toNat % 256)

/-- Read `buf[pos] | (buf[pos + 1] << 8)`; a read past the end of the buffer, which the
source leaves undefined, yields 0 in the model. -/
def get_u16 (buf : List Nat) (pos : Nat) : Nat :=
  (buf.getD pos 0 + 256 * buf.getD (pos + 1) 0) % 65536

/-- The device blob written by `DeviceDB::save`. -/
def serialize_devices (devices : List DeviceEntry) : List Nat :=
  put_u16 devices.length ++
    devices.flatMap (fun d =>
      put_u16 d.avion_id ++ [d.product_type % 256] ++ [d.name.length % 256] ++
        string_bytes d.name ++ put_u16 d.groups.length ++ d.groups.flatMap put_u16)

/-- The group blob written by `DeviceDB::save`. -/
def serialize_groups (groups : List GroupEntry) : List Nat :=
  put_u16 groups.length ++
    groups.flatMap (fun g =>
      put_u16 g.group_id ++ [g.name.length % 256] ++
        string_bytes g.name ++ put_u16 g.member_ids.length ++ g.member_ids.flatMap put_u16)

namespace DeviceDB

/-- Method `DeviceDB::save`: write-through of the passphrase and of both blobs. -/
def save (db : DeviceDB) : DeviceDB :=
  { db with
    nvs :=
      { passphrase := if db.passphrase_.isEmpty then none else some db.passphrase_
        devices := some (serialize_devices db.devices_)
        groups := some (serialize_groups db.groups_) } }

/-- The inner loop of `load`: `for (g = 0; g < gc && pos + 1 < blob_size; g++)`, reading
one 16-bit id per round. The first argument is the number of rounds left. -/
def load_ids (buf : List Nat) (blob_size : Nat) : Nat → Nat → List Nat → List Nat × Nat
  | 0, pos, acc => (acc, pos)
  | n + 1, pos, acc =>
    if pos + 1 < blob_size then
      load_ids buf blob_size n (pos + 2) (acc ++ [get_u16 buf pos])
    else (acc, pos)

/-- The device loop of `load`: `for (i = 0; i < count && pos < blob_size; i++)`. -/
def load_devices (buf : List Nat) (blob_size : Nat) :
    Nat → Nat → List DeviceEntry → List DeviceEntry
  | 0, _, acc => acc
  | n + 1, pos, acc =>
    if pos < blob_size then
      let avion_id := get_u16 buf pos
      let product_type := buf.getD (pos + 2) 0
      let name_len := buf.getD (pos + 3) 0 % 256
      let name := String.mk (((buf.drop (pos + 4)).take name_len).map Char.ofNat)
      let pos1 := pos + 4 + name_len
      let gc := get_u16 buf pos1
      let r := load_ids buf blob_size gc (pos1 + 2) []
      load_devices buf blob_size n r.2
        (acc ++ [{ avion_id := avion_id, product_type := product_type, name := name,
                   groups := r.1 }])
    else acc

/-- The group loop of `load`. -/
def load_groups (buf : List Nat) (blob_size : Nat) :
    Nat → Nat → List GroupEntry → List GroupEntry
  | 0, _, acc => acc
  | n + 1, pos, acc =>
    if pos < blob_size then
      let group_id := get_u16 buf pos
      let name_len := buf.getD (pos + 2) 0 % 256
      let name := String.mk (((buf.drop (pos + 3)).take name_len).map Char.ofNat)
      let pos1 := pos + 3 + name_len
      let mc := get_u16 buf pos1
      let r := load_ids buf blob_size mc (pos1 + 2) []
      load_groups buf blob_size n r.2
        (acc ++ [{ group_id := group_id, name := name, member_ids := r.1 }])
    else acc

/-- Method `DeviceDB::load`: entries found in flash are appended to the in-memory vectors. -/
def load (db : DeviceDB) : DeviceDB :=
  let db1 :=
    match db.nvs.passphrase with
    | some p => { db with passphrase_ := p }
    | none => db
  let db2 :=
    match db1.nvs.devices with
    | some buf =>
      if buf.length > 2 then
        { db1 with devices_ := load_devices buf buf.length (get_u16 buf 0) 2 db1.devices_ }
      else db1
    | none => db1
  match db2.nvs.groups with
  | some buf =>
    if buf.length > 2 then
      { db2 with groups_ := load_groups buf buf.length (get_u16 buf 0) 2 db2.groups_ }
    else db2
  | none => db2

/-- Method `DeviceDB::find_device`: the first entry with the id. -/
def find_device (db : DeviceDB) (avion_id : Nat) : Option DeviceEntry :=
  db.devices_.find? (fun d => d.avion_id == avion_id)

/-- Method `DeviceDB::find_group`: the first entry with the id. -/
def find_group (db : DeviceDB) (group_id : Nat) : Option GroupEntry :=
  db.groups_.find? (fun g => g.group_id == group_id)

/-- Method `DeviceDB::add_device`. -/
def add_device (db : DeviceDB) (avion_id product_type : Nat) (name : String) :
    Bool × DeviceDB :=
  if (db.find_device avion_id).isSome then (false, db)
  else
    (true, save { db with
      devices_ := db.devices_ ++
        [{ avion_id := avion_id, product_type := product_type, name := name, groups := [] }] })

/-- Method `DeviceDB::remove_device`: `std::remove_if` keeps the entries with another id; the
returned iterator is `end()` exactly when nothing was removed. -/
def remove_device (db : DeviceDB) (avion_id : Nat) : Bool × DeviceDB :=
  let kept := db.devices_.filter (fun d => !(d.avion_id == avion_id))
  if kept.length = db.devices_.length then (false, db)
  else
    (true, save { db with
      devices_ := kept
      groups_ := db.groups_.map (fun g =>
        { g with member_ids := g.member_ids.filter (fun m => !(m == avion_id)) }) })

/-- Method `DeviceDB::add_group`. -/
def add_group (db : DeviceDB) (group_id : Nat) (name : String) : Bool × DeviceDB :=
  if (db.find_group group_id).isSome then (false, db)
  else
    (true, save { db with
      groups_ := db.groups_ ++ [{ group_id := group_id, name := name, member_ids := [] }] })

/-- Method `DeviceDB::remove_group`. -/
def remove_group (db : DeviceDB) (group_id : Nat) : Bool × DeviceDB :=
  let kept := db.groups_.filter (fun g => !(g.group_id == group_id))
  if kept.length = db.groups_.length then (false, db)
  else
    (true, save { db with
      groups_ := kept
      devices_ := db.devices_.map (fun d =>
        { d with groups := d.groups.filter (fun x => !(x == group_id)) }) })

/-- Write through the pointer returned by `find_device`: the first entry with the id is
replaced by its image under `f`. -/
def modify_device (f : DeviceEntry → DeviceEntry) (avion_id : Nat) :
    List DeviceEntry → List DeviceEntry
  | [] => []
  | d :: ds =>
    if d.avion_id == avion_id then f d :: ds else d :: modify_device f avion_id ds

/-- Write through the pointer returned by `find_group`. -/
def modify_group (f : GroupEntry → GroupEntry) (group_id : Nat) :
    List GroupEntry → List GroupEntry
  | [] => []
  | g :: gs =>
    if g.group_id == group_id then f g :: gs else g :: modify_group f group_id gs

/-- Idiom `if (std::find(v.begin(), v.end(), x) == v.end()) v.push_back(x);`. -/
def push_back_unique (v : List Nat) (x : Nat) : List Nat :=
  if v.contains x then v else v ++ [x]

/-- Method `DeviceDB::add_device_to_group`. -/
def add_device_to_group (db : DeviceDB) (avion_id group_id : Nat) : Bool × DeviceDB :=
  if (db.find_device avion_id).isNone || (db.find_group group_id).isNone then (false, db)
  else
    (true, save { db with
      devices_ := modify_device
        (fun d => { d with groups := push_back_unique d.groups group_id }) avion_id db.devices_
      groups_ := modify_group
        (fun g => { g with member_ids := push_back_unique g.member_ids avion_id }) group_id
        db.groups_ })

/-- Method `DeviceDB::remove_device_from_group`. -/
def remove_device_from_group (db : DeviceDB) (avion_id group_id : Nat) : Bool × DeviceDB :=
  if (db.find_device avion_id).isNone || (db.find_group group_id).isNone then (false, db)
  else
    (true, save { db with
      devices_ := modify_device
        (fun d => { d with groups := d.groups.filter (fun x => !(x == group_id)) })
        avion_id db.devices_
      groups_ := modify_group
        (fun g => { g with member_ids := g.member_ids.filter (fun m => !(m == avion_id)) })
        group_id db.groups_ })

/-- Method `DeviceDB::clear`: erase the three keys, then empty the in-memory members. -/
def clear (_db : DeviceDB) : DeviceDB :=
  { devices_ := [], groups_ := [], passphrase_ := "", nvs := {} }

/-- Method `DeviceDB::set_passphrase`. -/
def set_passphrase (db : DeviceDB) (passphrase : String) : DeviceDB :=
  save { db with passphrase_ := passphrase }

end DeviceDB

/-- One call of a mutating registry operation. -/
inductive DbOp where
  | add_device (avion_id product_type : Nat) (name : String)
  | remove_device (avion_id : Nat)
  | add_group (group_id : Nat) (name : String)
  | remove_group (group_id : Nat)
  | add_device_to_group (avion_id group_id : Nat)
  | remove_device_from_group (avion_id group_id : Nat)
deriving DecidableEq, Repr

/-- The registry after one operation (the returned flag is dropped). -/
def DbOp.apply (db : DeviceDB) : DbOp → DeviceDB
  | .add_device a p n => (db.add_device a p n).2
  | .remove_device a => (db.remove_device a).2
  | .add_group g n => (db.add_group g n).2
  | .remove_group g => (db.remove_group g).2
  | .add_device_to_group a g => (db.add_device_to_group a g).2
  | .remove_device_from_group a g => (db.remove_device_from_group a g).2

/-- The registry reached from the empty registry by a sequence of operations. -/
def run_ops (ops : List DbOp) : DeviceDB :=
  ops.foldl DbOp.apply {}

/-- Referential integrity of the registry: ids are unique, and every membership recorded
on one side names an entry of the registry that records it on the other side. -/
structure DeviceDB.Consistent (db : DeviceDB) : Prop where
  dev_nodup : (db.devices_.map (fun d => d.avion_id)).Nodup
  grp_nodup : (db.groups_.map (fun g => g.group_id)).Nodup
  dev_to_grp : ∀ d ∈ db.devices_, ∀ gid ∈ d.groups,
    ∃ g ∈ db.groups_, g.group_id = gid ∧ d.avion_id ∈ g.member_ids
  grp_to_dev : ∀ g ∈ db.groups_, ∀ m ∈ g.member_ids,
    ∃ d ∈ db.devices_, d.avion_id = m ∧ g.group_id ∈ d.groups

/-! ## avionmesh_hub.h -/

/-- The kinds of `DeferredAction` (`enum Type`). -/
inductive ActionType where
  | Control
  | AddDiscovered
  | UnclaimDevice
  | CreateGroup
  | DeleteGroup
  | AddToGroup
  | RemoveFromGroup
  | Import
deriving DecidableEq, Repr

/-- The `struct DeferredAction`, with the default member initialisers of the header. -/
structure DeferredAction where
  type : ActionType
  id1 : Nat := 0
  id2 : Nat := 0
  product_type : Nat := 0
  brightness : Int := -1
  color_temp : Int := -1
  name : String := ""
  body : String := ""
deriving DecidableEq, Repr

/-- The `struct DeviceState`. -/
structure DeviceState where
  brightness : Nat := 0
  color_temp : Nat := 0
  brightness_known : Bool := false
  color_temp_known : Bool := false
deriving DecidableEq, Repr

/-- The `struct DiscoveredDevice`. -/
structure DiscoveredDevice where
  device_id : Nat
  fw_major : Nat
  fw_minor : Nat
  fw_patch : Nat
  flags : Nat
  vendor_id : Nat
  csr_product_id : Nat
deriving DecidableEq, Repr

/-- The `enum class BleState`. -/
inductive BleState where
  | Idle
  | Scanning
  | Connecting
  | Discovering
  | Ready
  | Disconnected
deriving DecidableEq, Repr

/-- A mesh command built by one of the `cmd_*` functions of the avionmesh library. -/
inductive Command where
  | brightness (id value : Nat)
  | color_temp (id kelvin : Nat)
  | ping (id : Nat)
  | insert_group (avion_id group_id : Nat)
  | delete_group (avion_id group_id : Nat)
  | set_date (year month day : Nat)
  | set_time (hour minute second : Nat)
  | read_all_dimming
  | read_all_color
deriving DecidableEq, Repr

/-- A call the hub makes into one of its collaborators: the BLE stack, the csrmesh
library, the MQTT client and discovery publisher, the web handler, the scheduler. -/
inductive Effect where
  | gap_set_scan_params
  | gap_start_scanning (seconds : Nat)
  | gattc_app_register
  | gattc_open (gattc_if : Nat) (bda : List Nat)
  | gattc_search_service (gattc_if conn_id : Nat)
  | gattc_register_for_notify (gattc_if : Nat) (bda : List Nat) (handle : Nat)
  | gattc_write_char_descr (gattc_if conn_id handle : Nat)
  | gattc_close (gattc_if conn_id : Nat)
  | feed_notify (low : Bool) (value : List Nat) (now : Nat)
  | csrmesh_init (passphrase : String)
  | csrmesh_poll (now : Nat)
  | protocol_init (uuid_hash device_id : Nat)
  | protocol_cleanup
  | associate_start (uuid_hash device_id : Nat)
  | associate_cancel
  | disassociate (avion_id : Nat)
  | discover_start
  | send_cmd (cmd : Command)
  | send_response (payload : String)
  | send_event (event data : String)
  | reset_sync
  | sse_loop
  | publish_light (avion_id : Nat) (name : String) (has_brightness has_color_temp : Bool)
      (product_name : String)
  | remove_light (avion_id : Nat)
  | publish_on_off_state (avion_id : Nat) (is_on : Bool)
  | publish_brightness_state (avion_id brightness : Nat)
  | publish_color_temp_state (avion_id kelvin : Nat)
  | subscribe_management
  | subscribe_switch (id : Nat)
  | subscribe_brightness (id : Nat)
  | subscribe_color_temp (id : Nat)
  | set_timeout (name : String) (ms : Nat)
  | set_interval (name : String) (ms : Nat)
  | subscribe_ha_status
  | gattc_write_char (gattc_if conn_id handle : Nat) (data : List Nat) (response : Bool)
deriving DecidableEq, Repr

/-- One entry of the `devices` array of an import document, after the conversions of the
JSON reader (`dev["device_id"] | 0u` and so on). -/
structure ImportDevice where
  device_id : Nat
  name : String
  product_type : Nat
deriving DecidableEq, Repr

/-- One entry of the `groups` array of an import document. -/
structure ImportGroup where
  group_id : Nat
  name : String
  members : List Nat
deriving DecidableEq, Repr

/-- The root object of an import document as the Import action reads it. -/
structure ImportRoot where
  reset : Bool
  passphrase : Option String
  devices : List ImportDevice
  groups : List ImportGroup
deriving DecidableEq, Repr

/-- What the collaborators answer during one handler call: results of library calls and
the globals of the host framework. -/
structure Env where
  /-- Whether `csrmesh::init` returns `Error::Ok` for a passphrase. -/
  csrmesh_init_ok : String → Bool
  /-- Whether `csrmesh::protocol::init` returns `Error::Ok`. -/
  protocol_init_ok : Nat → Nat → Bool
  /-- Whether `csrmesh::associate_start` returns `Error::Ok`. -/
  associate_start_ok : Nat → Nat → Bool
  /-- Result of `csrmesh::protocol::is_complete(proto_ctx_)`. -/
  protocol_is_complete : Bool
  /-- Result of `csrmesh::protocol::is_error(proto_ctx_)`. -/
  protocol_is_error : Bool
  /-- Content of `proto_ctx_.error` (`none` for a null pointer). -/
  protocol_error : Option String
  /-- Function `has_dimming` of the avionmesh library. -/
  has_dimming : Nat → Bool
  /-- Function `has_color_temp` of the avionmesh library. -/
  has_color_temp : Nat → Bool
  /-- Function `product_name` of the avionmesh library. -/
  product_name : Nat → String
  /-- Reader `esphome::json::parse_json` on an import body; `none` when it does not
  call the handler. -/
  parse_import : String → Option ImportRoot
  /-- Whether `esphome::mqtt::global_mqtt_client` is non-null. -/
  mqtt_client : Bool
  /-- Result of `mqtt->is_connected()`. -/
  mqtt_connected : Bool
  /-- Whether `global_web_server_base` is non-null. -/
  web_server_base : Bool
  /-- Result of `global_ble->is_active()`. -/
  ble_active : Bool

/-- Constant `SCAN_WINDOW_MS`. -/
def SCAN_WINDOW_MS : Nat := 5000

/-- Constant `RECONNECT_DELAY_MS`. -/
def RECONNECT_DELAY_MS : Nat := 3000

/-- Constant `ASSOCIATION_TIMEOUT_MS`. -/
def ASSOCIATION_TIMEOUT_MS : Nat := 30000

/-- Constant `MIN_DEVICE_ID`. -/
def MIN_DEVICE_ID : Nat := 32896

/-- Constant `MAX_DEVICE_ID`. -/
def MAX_DEVICE_ID : Nat := 65407

/-- Constant `MIN_GROUP_ID`. -/
def MIN_GROUP_ID : Nat := 256

/-- Constant `MAX_GROUP_ID`. -/
def MAX_GROUP_ID : Nat := 24575

/-- Constant `CSRMESH_SERVICE_UUID16`. -/
def CSRMESH_SERVICE_UUID16 : Nat := 0xFEF1

/-- The members of `class AvionMeshHub`. `web_handler_` records whether the pointer is
non-null; `mesh_ctx_` and `proto_ctx_` belong to the csrmesh library and are seen through
`Env`; `out_` is not a member: it lists the collaborator calls made so far, oldest first. -/
structure AvionMeshHub where
  passphrase_ : String := ""
  mesh_initialized_ : Bool := false
  crypto_initialized_ : Bool := false
  ble_state_ : BleState := BleState.Idle
  bridge_bda_ : List Nat := [0, 0, 0, 0, 0, 0]
  best_rssi_ : Int := -999
  scan_start_ms_ : Nat := 0
  reconnect_at_ms_ : Nat := 0
  gattc_if_ : Nat := 0
  conn_id_ : Nat := 0
  char_low_handle_ : Nat := 0
  char_high_handle_ : Nat := 0
  gattc_registered_ : Bool := false
  app_id_ : Nat := 0
  associating_ : Bool := false
  association_start_ms_ : Nat := 0
  db_ : DeviceDB := {}
  mgmt_subscribed_ : Bool := false
  mqtt_subscribed_ : Bool := false
  initial_read_done_ : Bool := false
  time_synced_ : Bool := false
  discovering_mesh_ : Bool := false
  discovered_devices_ : List DiscoveredDevice := []
  examining_ : Bool := false
  examine_target_ : Nat := 0
  web_handler_ : Bool := false
  web_registered_ : Bool := false
  pending_discover_mesh_ : Bool := false
  pending_scan_unassoc_ : Bool := false
  pending_examine_ : Bool := false
  pending_examine_id_ : Nat := 0
  pending_claim_auto_ : Bool := false
  pending_claim_uuid_hash_ : Nat := 0
  pending_claim_name_ : String := ""
  pending_claim_product_type_ : Nat := 0
  pending_actions_ : List DeferredAction := []
  scanning_unassociated_ : Bool := false
  scan_uuid_hashes_ : List Nat := []
  device_states_ : List (Nat × DeviceState) := []
  last_brightness_ms_ : List (Nat × Nat) := []
  rx_count_ : Nat := 0
  out_ : List Effect := []

/-- Numeric value of a `BleState` (`static_cast<uint8_t>`). -/
def BleState.toNat : BleState → Nat
  | .Idle => 0
  | .Scanning => 1
  | .Connecting => 2
  | .Discovering => 3
  | .Ready => 4
  | .Disconnected => 5

/-- Result of `snprintf(buf, size, ...)` for the formatted text `s`: at most `size - 1`
characters are kept. -/
def snprintf (size : Nat) (s : String) : String :=
  s.take (size - 1)

/-- Text of a JSON object with the given members. -/
def json_obj (members : String) : String :=
  "\x7b" ++ members ++ "\x7d"

/-- Text `true` or `false`. -/
def bool_text (b : Bool) : String :=
  if b then "true" else "false"

/-- Lookup `device_states_.find(id)`. -/
def states_find (m : List (Nat × DeviceState)) (id : Nat) : Option DeviceState :=
  (m.find? (fun p => p.1 == id)).map (fun p => p.2)

/-- Value of `device_states_[id]`: the stored state, or a default-constructed one. -/
def states_index (m : List (Nat × DeviceState)) (id : Nat) : DeviceState :=
  (states_find m id).getD {}

/-- Store through the reference `device_states_[id]`. -/
def states_set (m : List (Nat × DeviceState)) (id : Nat) (v : DeviceState) :
    List (Nat × DeviceState) :=
  if m.any (fun p => p.1 == id) then m.map (fun p => if p.1 == id then (id, v) else p)
  else m ++ [(id, v)]

/-! ## Advertisement records (`esphome::esp32_ble::BLEScanResult`) -/

/-- The values of `search_evt` the handler distinguishes. -/
inductive SearchEvt where
  | INQ_RES_EVT
  | INQ_CMPL_EVT
  | other
deriving DecidableEq, Repr

/-- The fields of `BLEScanResult` read by the hub. -/
structure BLEScanResult where
  search_evt : SearchEvt
  bda : List Nat
  rssi : Int
  ble_adv : List Nat
  adv_data_len : Nat
  scan_rsp_len : Nat
deriving DecidableEq, Repr

/-- Read `adv[k]` as a `uint8_t`; a read past the end of the list yields 0. -/
def byte_at (adv : List Nat) (k : Nat) : Nat :=
  adv.getD k 0 % 256

/-- The loop `for (uint8_t i = 0; i + 1 < data_len; i += 2)` over the 16-bit UUIDs of
one AD field whose data starts at index `base`: true when one equals 0xFEF1. The first
argument bounds the number of rounds. -/
def uuid16_loop (adv : List Nat) (base data_len : Nat) : Nat → Nat → Bool
  | 0, _ => false
  | fuel + 1, i =>
    if i + 1 < data_len then
      if (byte_at adv (base + i) + 256 * byte_at adv (base + i + 1)) % 65536
          == CSRMESH_SERVICE_UUID16 then true
      else uuid16_loop adv base data_len fuel ((i + 2) % 256)
    else false

/-- The loop `while (offset < adv_len)` over the AD structures: true when the handler
reaches the statement that compares RSSI values. The first argument bounds the number of
rounds. -/
def adv_loop (adv : List Nat) (adv_len : Nat) : Nat → Nat → Bool
  | 0, _ => false
  | fuel + 1, offset =>
    if offset < adv_len then
      let field_len := byte_at adv offset
      if field_len == 0 || offset + field_len ≥ adv_len then false
      else
        let field_type := byte_at adv (offset + 1)
        let data_len := (field_len - 1) % 256
        if (field_type == 0x02 || field_type == 0x03) && decide (data_len ≥ 2)
            && uuid16_loop adv (offset + 2) data_len data_len 0 then true
        else adv_loop adv adv_len fuel (offset + field_len + 1)
    else false

/-- Whether the record carries the bridge service UUID, as the parsing loop of
`gap_scan_event_handler` finds it; `adv_len` is the `uint8_t` sum of both lengths. -/
def carries_bridge_uuid (r : BLEScanResult) : Bool :=
  let adv_len := (r.adv_data_len + r.scan_rsp_len) % 256
  adv_loop r.ble_adv adv_len adv_len 0

/-- The GAP events the hub distinguishes. -/
inductive GapEvent where
  | SCAN_PARAM_SET_COMPLETE_EVT (success : Bool)
  | other
deriving DecidableEq, Repr

/-- The GATT client events the hub distinguishes, with the parameters it reads. For
`SEARCH_CMPL_EVT` the two values are the handles `esp_ble_gattc_get_char_by_uuid` finds
for the LOW and HIGH characteristic (`none` when the call fails or counts 0); for
`REG_FOR_NOTIFY_EVT` the last value is the descriptor handle the CCCD lookup finds. -/
inductive GattcEvent where
  | REG_EVT (ok : Bool) (app_id : Nat)
  | OPEN_EVT (ok : Bool) (conn_id : Nat)
  | SEARCH_CMPL_EVT (low high : Option Nat)
  | REG_FOR_NOTIFY_EVT (ok : Bool) (handle : Nat) (descr : Option Nat)
  | NOTIFY_EVT (handle : Nat) (value : List Nat)
  | DISCONNECT_EVT (reason : Nat)
  | other
deriving DecidableEq, Repr

namespace AvionMeshHub

/-- Record a collaborator call. -/
def emit (s : AvionMeshHub) (e : Effect) : AvionMeshHub :=
  { s with out_ := s.out_ ++ [e] }

/-- Record a sequence of collaborator calls. -/
def emits (s : AvionMeshHub) (calls : List Effect) : AvionMeshHub :=
  { s with out_ := s.out_ ++ calls }

/-- Method `update_mesh_initialized`. -/
def update_mesh_initialized (s : AvionMeshHub) : AvionMeshHub :=
  let was_initialized := s.mesh_initialized_
  let s1 := { s with
    mesh_initialized_ := s.crypto_initialized_ && (s.ble_state_ == BleState.Ready) }
  if s1.mesh_initialized_ != was_initialized && s1.web_handler_ then
    s1.emit (.send_event "meta" (snprintf 128 (json_obj
      ("\"ble_state\":" ++ toString s1.ble_state_.toNat ++
       ",\"mesh_initialized\":" ++ bool_text s1.mesh_initialized_ ++
       ",\"rx_count\":" ++ toString s1.rx_count_))))
  else s1

/-- Method `on_disconnected`; `now` is the value of `esphome::millis()`. -/
def on_disconnected (s : AvionMeshHub) (now : Nat) : AvionMeshHub :=
  let s1 := { s with
    char_low_handle_ := 0
    char_high_handle_ := 0
    mqtt_subscribed_ := false
    initial_read_done_ := false
    time_synced_ := false }
  let s2 :=
    if s1.associating_ then ({ s1 with associating_ := false }).emit .associate_cancel
    else s1
  let s3 := { s2 with
    ble_state_ := BleState.Disconnected
    reconnect_at_ms_ := (now + RECONNECT_DELAY_MS) % 2 ^ 32 }
  update_mesh_initialized s3

/-- Method `gap_event_handler`. -/
def gap_event_handler (s : AvionMeshHub) (now : Nat) : GapEvent → AvionMeshHub
  | .SCAN_PARAM_SET_COMPLETE_EVT success =>
    if success then s.emit (.gap_start_scanning (SCAN_WINDOW_MS / 1000))
    else { s with
      ble_state_ := BleState.Disconnected
      reconnect_at_ms_ := (now + RECONNECT_DELAY_MS) % 2 ^ 32 }
  | .other => s

/-- Method `start_scan`. -/
def start_scan (s : AvionMeshHub) (now : Nat) : AvionMeshHub :=
  ({ s with
    ble_state_ := BleState.Scanning
    best_rssi_ := -999
    bridge_bda_ := [0, 0, 0, 0, 0, 0]
    scan_start_ms_ := now }).emit .gap_set_scan_params

/-- Method `connect_to_best`. -/
def connect_to_best (s : AvionMeshHub) (now : Nat) : AvionMeshHub :=
  if s.best_rssi_ == -999 then
    { s with
      ble_state_ := BleState.Disconnected
      reconnect_at_ms_ := (now + RECONNECT_DELAY_MS) % 2 ^ 32 }
  else
    ({ s with ble_state_ := BleState.Connecting }).emit (.gattc_open s.gattc_if_ s.bridge_bda_)

/-- Method `stop_scan_and_connect`. -/
def stop_scan_and_connect (s : AvionMeshHub) (now : Nat) : AvionMeshHub :=
  if s.ble_state_ != BleState.Scanning then s else connect_to_best s now

/-- Method `gap_scan_event_handler`. -/
def gap_scan_event_handler (s : AvionMeshHub) (now : Nat) (result : BLEScanResult) :
    AvionMeshHub :=
  if result.search_evt == SearchEvt.INQ_CMPL_EVT then stop_scan_and_connect s now
  else if result.search_evt != SearchEvt.INQ_RES_EVT then s
  else if s.ble_state_ != BleState.Scanning then s
  else if carries_bridge_uuid result then
    if result.rssi > s.best_rssi_ then
      { s with best_rssi_ := result.rssi, bridge_bda_ := result.bda }
    else s
  else s

/-- Method `on_connected`. -/
def on_connected (s : AvionMeshHub) (gattc_if conn_id : Nat) : AvionMeshHub :=
  ({ s with
    conn_id_ := conn_id
    gattc_if_ := gattc_if
    ble_state_ := BleState.Discovering }).emit (.gattc_search_service gattc_if conn_id)

/-- Method `on_service_discovery_complete`; `low` and `high` are the handles the two
characteristic lookups find. -/
def on_service_discovery_complete (s : AvionMeshHub) (now : Nat) (low high : Option Nat) :
    AvionMeshHub :=
  let s1 := match low with
    | some h => { s with char_low_handle_ := h }
    | none => s
  let s2 := match high with
    | some h => { s1 with char_high_handle_ := h }
    | none => s1
  if s2.char_low_handle_ != 0 && s2.char_high_handle_ != 0 then
    let s3 := s2.emit (.gattc_register_for_notify s2.gattc_if_ s2.bridge_bda_ s2.char_low_handle_)
    let s4 := s3.emit (.gattc_register_for_notify s3.gattc_if_ s3.bridge_bda_ s3.char_high_handle_)
    { s4 with ble_state_ := BleState.Ready, mesh_initialized_ := true }
  else
    on_disconnected (s2.emit (.gattc_close s2.gattc_if_ s2.conn_id_)) now

/-- Method `gattc_event_handler`. -/
def gattc_event_handler (s : AvionMeshHub) (now : Nat) (gattc_if : Nat) :
    GattcEvent → AvionMeshHub
  | .REG_EVT ok app_id =>
    if ok then
      start_scan { s with gattc_if_ := gattc_if, gattc_registered_ := true, app_id_ := app_id } now
    else s
  | .OPEN_EVT ok conn_id =>
    if ok then on_connected s gattc_if conn_id else on_disconnected s now
  | .SEARCH_CMPL_EVT low high => on_service_discovery_complete s now low high
  | .REG_FOR_NOTIFY_EVT ok _handle descr =>
    if !ok then s
    else match descr with
      | none => s
      | some d => s.emit (.gattc_write_char_descr gattc_if s.conn_id_ d)
  | .NOTIFY_EVT handle value =>
    if !s.mesh_initialized_ || s.ble_state_ != BleState.Ready then s
    else if handle == s.char_low_handle_ then s.emit (.feed_notify true value now)
    else if handle == s.char_high_handle_ then s.emit (.feed_notify false value now)
    else s
  | .DISCONNECT_EVT _ => on_disconnected s now
  | .other => s

/-- Method `init_crypto`. -/
def init_crypto (env : Env) (s : AvionMeshHub) : Bool × AvionMeshHub :=
  if s.db_.passphrase_.isEmpty then (false, s)
  else
    let s1 := s.emit (.csrmesh_init s.db_.passphrase_)
    if !env.csrmesh_init_ok s.db_.passphrase_ then (false, s1)
    else (true, update_mesh_initialized { s1 with crypto_initialized_ := true })

/-- The MQTT subscriptions made for a light: switch topic, then brightness and colour
temperature topics when the capability is present. -/
def subscribe_light (id : Nat) (has_dim has_ct : Bool) : List Effect :=
  [Effect.subscribe_switch id] ++
    (if has_dim then [Effect.subscribe_brightness id] else []) ++
    (if has_ct then [Effect.subscribe_color_temp id] else [])

/-- Method `handle_claim_device`. -/
def handle_claim_device (env : Env) (s : AvionMeshHub) (now : Nat)
    (uuid_hash device_id : Nat) (name : String) (product_type : Nat) : AvionMeshHub :=
  if s.associating_ then
    s.emit (.send_response
      "\x7b\"action\":\"claim_device\",\"status\":\"error\",\"message\":\"busy\"\x7d")
  else
    let s1 := s.emit (.protocol_init uuid_hash device_id)
    if !env.protocol_init_ok uuid_hash device_id then
      s1.emit (.send_response
        "\x7b\"action\":\"claim_device\",\"status\":\"error\",\"message\":\"proto_init\"\x7d")
    else
      let s2 := s1.emit (.associate_start uuid_hash device_id)
      if !env.associate_start_ok uuid_hash device_id then
        (s2.emit .protocol_cleanup).emit (.send_response
          "\x7b\"action\":\"claim_device\",\"status\":\"error\",\"message\":\"start_failed\"\x7d")
      else
        let s3 := { s2 with associating_ := true, association_start_ms_ := now }
        let has_dim := env.has_dimming product_type
        let has_ct := env.has_color_temp product_type
        let s4 := { s3 with db_ := (s3.db_.add_device device_id product_type name).2 }
        let s5 := s4.emit
          (.publish_light device_id name has_dim has_ct (env.product_name product_type))
        if env.mqtt_client then s5.emits (subscribe_light device_id has_dim has_ct) else s5

end AvionMeshHub

/-! ## avionmesh_hub.cpp: deferred actions and the main loop -/

/-- Difference `a - b` of two `uint32_t` values. -/
def sub_u32 (a b : Nat) : Nat :=
  (a % 2 ^ 32 + 2 ^ 32 - b % 2 ^ 32) % 2 ^ 32

/-- Text of a JSON array of numbers, as the loops over `member_ids` build it. -/
def json_id_list (ids : List Nat) : String :=
  ",".intercalate (ids.map toString)

namespace AvionMeshHub

/-- The calls made by `publish_device_state`, which changes no member of the hub. -/
def publish_device_state_calls (env : Env) (s : AvionMeshHub) (avion_id : Nat) : List Effect :=
  match states_find s.device_states_ avion_id with
  | none => []
  | some state =>
    if !state.brightness_known then []
    else
      match s.db_.find_device avion_id with
      | none => []
      | some dev =>
        [Effect.publish_on_off_state avion_id (decide (state.brightness > 0)),
         Effect.publish_brightness_state avion_id state.brightness] ++
        (if state.color_temp_known && env.has_color_temp dev.product_type then
          [Effect.publish_color_temp_state avion_id state.color_temp]
         else []) ++
        (if s.web_handler_ then
          if state.color_temp_known then
            [Effect.send_event "state" (snprintf 128 (json_obj
              ("\"avion_id\":" ++ toString avion_id ++
               ",\"brightness\":" ++ toString state.brightness ++
               ",\"color_temp\":" ++ toString state.color_temp)))]
          else
            [Effect.send_event "state" (snprintf 128 (json_obj
              ("\"avion_id\":" ++ toString avion_id ++
               ",\"brightness\":" ++ toString state.brightness)))]
         else [])

/-- Method `publish_device_state`. -/
def publish_device_state (env : Env) (s : AvionMeshHub) (avion_id : Nat) : AvionMeshHub :=
  s.emits (publish_device_state_calls env s avion_id)

/-- Method `handle_add_discovered`. -/
def handle_add_discovered (env : Env) (s : AvionMeshHub) (device_id : Nat) (name : String)
    (product_type : Nat) : AvionMeshHub :=
  if (s.db_.find_device device_id).isSome then
    s.emit (.send_response (snprintf 128 (json_obj
      ("\"action\":\"add_discovered\",\"device_id\":" ++ toString device_id ++
       ",\"status\":\"error\",\"message\":\"already_exists\""))))
  else
    let has_dim := env.has_dimming product_type
    let has_ct := env.has_color_temp product_type
    let s1 := { s with db_ := (s.db_.add_device device_id product_type name).2 }
    let s2 := s1.emit
      (.publish_light device_id name has_dim has_ct (env.product_name product_type))
    let s3 :=
      if env.mqtt_client then s2.emits (subscribe_light device_id has_dim has_ct) else s2
    s3.emit (.send_response (snprintf 128 (json_obj
      ("\"action\":\"add_discovered\",\"device_id\":" ++ toString device_id ++
       ",\"status\":\"ok\""))))

/-- Method `handle_unclaim_device`. -/
def handle_unclaim_device (s : AvionMeshHub) (avion_id : Nat) : AvionMeshHub :=
  let s1 :=
    if s.associating_ then ({ s with associating_ := false }).emit .associate_cancel else s
  let s2 := s1.emit (.disassociate avion_id)
  let s3 := { s2 with db_ := (s2.db_.remove_device avion_id).2 }
  let s4 := s3.emit (.remove_light avion_id)
  s4.emit (.send_response (snprintf 128 (json_obj
    ("\"action\":\"unclaim_device\",\"avion_id\":" ++ toString avion_id ++
     ",\"status\":\"ok\""))))

/-- The loop of `next_group_id` from `id` on; the first argument is the number of ids
left up to `MAX_GROUP_ID`. -/
def next_group_id_loop (db : DeviceDB) : Nat → Nat → Nat
  | 0, _ => 0
  | n + 1, id => if (db.find_group id).isNone then id else next_group_id_loop db n (id + 1)

/-- Method `next_group_id`. -/
def next_group_id (s : AvionMeshHub) : Nat :=
  next_group_id_loop s.db_ (MAX_GROUP_ID + 1 - MIN_GROUP_ID) MIN_GROUP_ID

/-- Method `handle_create_group`. -/
def handle_create_group (env : Env) (s : AvionMeshHub) (group_id : Nat) (name : String) :
    AvionMeshHub :=
  let s1 := { s with db_ := (s.db_.add_group group_id name).2 }
  let s2 := s1.emit (.publish_light group_id name true true "")
  let s3 := if env.mqtt_client then s2.emits (subscribe_light group_id true true) else s2
  s3.emit (.send_response (snprintf 128 (json_obj
    ("\"action\":\"create_group\",\"group_id\":" ++ toString group_id ++
     ",\"status\":\"ok\""))))

/-- Method `handle_delete_group`. -/
def handle_delete_group (s : AvionMeshHub) (group_id : Nat) : AvionMeshHub :=
  let s1 := { s with db_ := (s.db_.remove_group group_id).2 }
  let s2 := s1.emit (.remove_light group_id)
  s2.emit (.send_response (snprintf 128 (json_obj
    ("\"action\":\"delete_group\",\"group_id\":" ++ toString group_id ++
     ",\"status\":\"ok\""))))

/-- Method `handle_add_to_group`. -/
def handle_add_to_group (s : AvionMeshHub) (avion_id group_id : Nat) : AvionMeshHub :=
  let s1 := s.emit (.send_cmd (.insert_group avion_id group_id))
  let s2 := { s1 with db_ := (s1.db_.add_device_to_group avion_id group_id).2 }
  s2.emit (.send_response (snprintf 128 (json_obj
    ("\"action\":\"add_to_group\",\"avion_id\":" ++ toString avion_id ++
     ",\"group_id\":" ++ toString group_id ++ ",\"status\":\"ok\""))))

/-- Method `handle_remove_from_group`. -/
def handle_remove_from_group (s : AvionMeshHub) (avion_id group_id : Nat) : AvionMeshHub :=
  let s1 := s.emit (.send_cmd (.delete_group avion_id group_id))
  let s2 := { s1 with db_ := (s1.db_.remove_device_from_group avion_id group_id).2 }
  s2.emit (.send_response (snprintf 128 (json_obj
    ("\"action\":\"remove_from_group\",\"avion_id\":" ++ toString avion_id ++
     ",\"group_id\":" ++ toString group_id ++ ",\"status\":\"ok\""))))

/-- Method `publish_all_discovery`: one `publish_light` per device, then one per group. -/
def publish_all_discovery (env : Env) (s : AvionMeshHub) : AvionMeshHub :=
  s.emits
    (s.db_.devices_.map (fun dev =>
      Effect.publish_light dev.avion_id dev.name (env.has_dimming dev.product_type)
        (env.has_color_temp dev.product_type) (env.product_name dev.product_type)) ++
     s.db_.groups_.map (fun grp => Effect.publish_light grp.group_id grp.name true true ""))

/-- Method `subscribe_all_commands`. -/
def subscribe_all_commands (env : Env) (s : AvionMeshHub) : AvionMeshHub :=
  if !env.mqtt_client then s
  else
    { s.emits
        (s.db_.devices_.flatMap (fun dev =>
          subscribe_light dev.avion_id (env.has_dimming dev.product_type)
            (env.has_color_temp dev.product_type)) ++
         s.db_.groups_.flatMap (fun grp => subscribe_light grp.group_id true true)) with
      mqtt_subscribed_ := true }

/-- The text of the `group_updated` event for a group. -/
def group_json (grp : GroupEntry) : String :=
  json_obj ("\"group_id\":" ++ toString grp.group_id ++ ",\"name\":\"" ++ grp.name ++
    "\",\"members\":[" ++ json_id_list grp.member_ids ++ "]")

/-- The block `if (act.brightness >= 0)` of the Control case. -/
def control_brightness (env : Env) (s : AvionMeshHub) (id1 : Nat) (brightness : Int) :
    AvionMeshHub :=
  if brightness ≥ 0 then
    let b := brightness.toNat % 256
    let sa := s.emit (.send_cmd (.brightness id1 b))
    let state := states_index sa.device_states_ id1
    let sb := { sa with
      device_states_ := states_set sa.device_states_ id1
        { state with brightness := b, brightness_known := true } }
    publish_device_state env sb id1
  else s

/-- The block `if (act.color_temp > 0)` of the Control case. -/
def control_color_temp (env : Env) (s : AvionMeshHub) (id1 : Nat) (color_temp : Int) :
    AvionMeshHub :=
  if color_temp > 0 then
    let c := color_temp.toNat % 65536
    let sa := s.emit (.send_cmd (.color_temp id1 c))
    let state := states_index sa.device_states_ id1
    let sb := { sa with
      device_states_ := states_set sa.device_states_ id1
        { state with color_temp := c, color_temp_known := true } }
    publish_device_state env sb id1
  else s

/-- The case `DeferredAction::Control` of `process_deferred_actions`. -/
def apply_control (env : Env) (s : AvionMeshHub) (act : DeferredAction) : AvionMeshHub :=
  control_color_temp env (control_brightness env s act.id1 act.brightness) act.id1
    act.color_temp

/-- The loop over `root["devices"]` of the Import case; the state is paired with the
counter `added_devices`. -/
def import_devices (env : Env) :
    AvionMeshHub × Nat → List ImportDevice → AvionMeshHub × Nat
  | acc, [] => acc
  | (s, added), dev :: rest =>
    if dev.device_id == 0 then import_devices env (s, added) rest
    else if (s.db_.find_device dev.device_id).isSome then import_devices env (s, added) rest
    else
      let has_dim := env.has_dimming dev.product_type
      let has_ct := env.has_color_temp dev.product_type
      let s1 := { s with db_ := (s.db_.add_device dev.device_id dev.product_type dev.name).2 }
      let s2 := s1.emit (.publish_light dev.device_id dev.name has_dim has_ct
        (env.product_name dev.product_type))
      import_devices env (s2, added + 1) rest

/-- The loop over `grp["members"]` of the Import case. -/
def import_members (group_id : Nat) : AvionMeshHub → List Nat → AvionMeshHub
  | s, [] => s
  | s, member_id :: rest =>
    if member_id > 0 then
      let s1 := { s with db_ := (s.db_.add_device_to_group member_id group_id).2 }
      import_members group_id (s1.emit (.send_cmd (.insert_group member_id group_id))) rest
    else import_members group_id s rest

/-- The loop over `root["groups"]` of the Import case; the state is paired with the
counter `added_groups`. -/
def import_groups :
    AvionMeshHub × Nat → List ImportGroup → AvionMeshHub × Nat
  | acc, [] => acc
  | (s, added), grp :: rest =>
    if grp.group_id == 0 then import_groups (s, added) rest
    else
      let r :=
        if (s.db_.find_group grp.group_id).isNone then
          let s1 := { s with db_ := (s.db_.add_group grp.group_id grp.name).2 }
          (s1.emit (.publish_light grp.group_id grp.name true true ""), added + 1)
        else (s, added)
      import_groups (import_members grp.group_id r.1 grp.members, r.2) rest

/-- The block `if (root["reset"] | false)` of the Import case. -/
def import_reset (s : AvionMeshHub) (reset : Bool) : AvionMeshHub :=
  if reset then
    let a := s.emits
      (s.db_.devices_.map (fun dev => Effect.remove_light dev.avion_id) ++
       s.db_.groups_.map (fun grp => Effect.remove_light grp.group_id))
    { a with db_ := a.db_.clear.load, device_states_ := [] }
  else s

/-- The block `if (root["passphrase"].is<const char *>())` of the Import case; the flag is
false when `init_crypto` fails and the handler returns early. -/
def import_passphrase (env : Env) (s : AvionMeshHub) : Option String → Bool × AvionMeshHub
  | some passphrase =>
    init_crypto env { s with
      db_ := s.db_.set_passphrase passphrase
      crypto_initialized_ := false
      mesh_initialized_ := false }
  | none => (true, s)

/-- The handler passed to `parse_json` in the Import case: the state afterwards and the
two counters. -/
def import_root (env : Env) (s : AvionMeshHub) (root : ImportRoot) :
    AvionMeshHub × Nat × Nat :=
  let r := import_passphrase env (import_reset s root.reset) root.passphrase
  if !r.1 then (r.2, 0, 0)
  else
    let d := import_devices env (r.2, 0) root.devices
    let g := import_groups (d.1, 0) root.groups
    (g.1, d.2, g.2)

/-- The call `parse_json(act.body, handler)` of the Import case: the state afterwards and
the counters `added_devices` and `added_groups`. -/
def import_body (env : Env) (s : AvionMeshHub) (body : String) : AvionMeshHub × Nat × Nat :=
  match env.parse_import body with
  | some root => import_root env s root
  | none => (s, 0, 0)

/-- The case `DeferredAction::Import` of `process_deferred_actions`. -/
def apply_import (env : Env) (s : AvionMeshHub) (act : DeferredAction) : AvionMeshHub :=
  let r := import_body env s act.body
  let s1 := publish_all_discovery env r.1
  let s2 := subscribe_all_commands env s1
  if s2.web_handler_ then
    (s2.emit (.send_event "import_result" (snprintf 96 (json_obj
      ("\"added_devices\":" ++ toString r.2.1 ++
       ",\"added_groups\":" ++ toString r.2.2))))).emit .reset_sync
  else s2

/-- The body of the loop `for (auto &act : actions)` of `process_deferred_actions`. -/
def apply_action (env : Env) (s : AvionMeshHub) (act : DeferredAction) : AvionMeshHub :=
  match act.type with
  | .Control => apply_control env s act
  | .AddDiscovered =>
    let s1 := handle_add_discovered env s act.id1 act.name act.product_type
    if s1.web_handler_ then
      match s1.db_.find_device act.id1 with
      | some dev =>
        s1.emit (.send_event "device_added" (json_obj
          ("\"avion_id\":" ++ toString dev.avion_id ++ ",\"name\":\"" ++ dev.name ++
           "\",\"product_type\":" ++ toString dev.product_type ++
           ",\"product_name\":\"" ++ env.product_name dev.product_type ++
           "\",\"groups\":[]")))
      | none => s1
    else s1
  | .UnclaimDevice =>
    let s1 := handle_unclaim_device s act.id1
    if s1.web_handler_ then
      s1.emit (.send_event "device_removed" (snprintf 64 (json_obj
        ("\"avion_id\":" ++ toString act.id1))))
    else s1
  | .CreateGroup =>
    let group_id := next_group_id s
    if group_id != 0 then
      let s1 := handle_create_group env s group_id act.name
      if s1.web_handler_ then
        s1.emit (.send_event "group_added" (json_obj
          ("\"group_id\":" ++ toString group_id ++ ",\"name\":\"" ++ act.name ++
           "\",\"members\":[]")))
      else s1
    else s
  | .DeleteGroup =>
    let s1 := handle_delete_group s act.id1
    if s1.web_handler_ then
      s1.emit (.send_event "group_removed" (snprintf 64 (json_obj
        ("\"group_id\":" ++ toString act.id1))))
    else s1
  | .AddToGroup =>
    let s1 := handle_add_to_group s act.id1 act.id2
    if s1.web_handler_ then
      match s1.db_.find_group act.id2 with
      | some grp => s1.emit (.send_event "group_updated" (group_json grp))
      | none => s1
    else s1
  | .RemoveFromGroup =>
    let s1 := handle_remove_from_group s act.id1 act.id2
    if s1.web_handler_ then
      match s1.db_.find_group act.id2 with
      | some grp => s1.emit (.send_event "group_updated" (group_json grp))
      | none => s1
    else s1
  | .Import => apply_import env s act

/-- Method `process_deferred_actions`: the queue is swapped into a local vector, which is
then processed front to back. -/
def process_deferred_actions (env : Env) (s : AvionMeshHub) : AvionMeshHub :=
  if s.pending_actions_.isEmpty then s
  else
    let actions := s.pending_actions_
    actions.foldl (apply_action env) { s with pending_actions_ := [] }

/-- Method `handle_discover_mesh`; the completion callback is left to the scheduler. -/
def handle_discover_mesh (s : AvionMeshHub) : AvionMeshHub :=
  if s.discovering_mesh_ then
    s.emit (.send_response
      "\x7b\"action\":\"discover_mesh\",\"status\":\"error\",\"message\":\"busy\"\x7d")
  else
    let s1 := { s with discovering_mesh_ := true, discovered_devices_ := [] }
    (s1.emit (.send_cmd (.ping 0))).emit (.set_timeout "discover_stop" 5000)

/-- Method `handle_scan_unassociated`; the completion callback is left to the scheduler. -/
def handle_scan_unassociated (s : AvionMeshHub) : AvionMeshHub :=
  let s1 := { s with scanning_unassociated_ := true, scan_uuid_hashes_ := [] }
  (s1.emit .discover_start).emit (.set_timeout "scan_stop" 5000)

/-- Method `handle_examine_device`; the timeout callback is left to the scheduler. -/
def handle_examine_device (s : AvionMeshHub) (avion_id : Nat) : AvionMeshHub :=
  if s.examining_ then
    s.emit (.send_response
      "\x7b\"action\":\"examine_device\",\"status\":\"error\",\"message\":\"busy\"\x7d")
  else
    let s1 := { s with examining_ := true, examine_target_ := avion_id }
    (s1.emit (.send_cmd (.ping avion_id))).emit (.set_timeout "examine_timeout" 5000)

/-- Method `handle_claim_device_auto`; the callback that picks the id and claims is left
to the scheduler. -/
def handle_claim_device_auto (s : AvionMeshHub) : AvionMeshHub :=
  let s1 := { s with discovering_mesh_ := true, discovered_devices_ := [] }
  (s1.emit (.send_cmd (.ping 0))).emit (.set_timeout "auto_claim_scan" 5000)

/-- The block of `loop` that runs the requests flagged by the web handler. -/
def loop_pending_requests (s : AvionMeshHub) : AvionMeshHub :=
  let s1 :=
    if s.pending_discover_mesh_ then
      handle_discover_mesh { s with pending_discover_mesh_ := false }
    else s
  let s2 :=
    if s1.pending_scan_unassoc_ then
      handle_scan_unassociated { s1 with pending_scan_unassoc_ := false }
    else s1
  let s3 :=
    if s2.pending_examine_ then
      handle_examine_device { s2 with pending_examine_ := false } s2.pending_examine_id_
    else s2
  if s3.pending_claim_auto_ then
    handle_claim_device_auto { s3 with pending_claim_auto_ := false }
  else s3

/-- The block of `loop` that registers the web handler once the web server exists. -/
def loop_register_web (env : Env) (s : AvionMeshHub) : AvionMeshHub :=
  if !s.web_registered_ then
    if env.web_server_base then { s with web_handler_ := true, web_registered_ := true }
    else s
  else s

/-- The block `if (web_handler_) web_handler_->sse_loop();`. -/
def loop_sse (s : AvionMeshHub) : AvionMeshHub :=
  if s.web_handler_ then s.emit .sse_loop else s

/-- The block of `loop` that registers the GATT client once BLE is active. -/
def loop_register_gattc (env : Env) (s : AvionMeshHub) : AvionMeshHub :=
  if !s.gattc_registered_ && env.ble_active then s.emit .gattc_app_register else s

/-- The block of `loop` that starts a scan when the reconnection time is reached. -/
def loop_reconnect (s : AvionMeshHub) (now : Nat) : AvionMeshHub :=
  if s.ble_state_ == BleState.Disconnected && decide (now ≥ s.reconnect_at_ms_) then
    start_scan s now
  else s

/-- The block `if (!mgmt_subscribed_)` of `loop`. -/
def loop_subscribe_management (env : Env) (s : AvionMeshHub) : AvionMeshHub :=
  if !s.mgmt_subscribed_ then
    if env.mqtt_client && env.mqtt_connected then
      { s.emit .subscribe_management with mgmt_subscribed_ := true }
    else s
  else s

/-- The block `if (!mqtt_subscribed_ && ble_state_ == BleState::Ready)` of `loop`. -/
def loop_subscribe_lights (env : Env) (s : AvionMeshHub) : AvionMeshHub :=
  if !s.mqtt_subscribed_ && s.ble_state_ == BleState.Ready then
    if env.mqtt_client && env.mqtt_connected then
      subscribe_all_commands env (publish_all_discovery env s)
    else s
  else s

/-- The block `if (mqtt_subscribed_ && !initial_read_done_)` of `loop`. -/
def loop_initial_read (s : AvionMeshHub) : AvionMeshHub :=
  if s.mqtt_subscribed_ && !s.initial_read_done_ then
    { s with initial_read_done_ := true }.emit (.set_timeout "initial_read" 2000)
  else s

/-- The block `if (mqtt_subscribed_ && !time_synced_)` of `loop`. -/
def loop_time_sync (s : AvionMeshHub) : AvionMeshHub :=
  if s.mqtt_subscribed_ && !s.time_synced_ then
    { s with time_synced_ := true }.emit (.set_timeout "initial_time_sync" 5000)
  else s

/-- The last block of `loop`: `if (associating_) ...`. -/
def loop_association (env : Env) (s : AvionMeshHub) (now : Nat) : AvionMeshHub :=
  if s.associating_ then
    if env.protocol_is_complete then
      (({ s with associating_ := false }).emit .protocol_cleanup).emit (.send_response
        "\x7b\"action\":\"claim_device\",\"status\":\"ok\"\x7d")
    else if env.protocol_is_error then
      (({ s with associating_ := false }).emit .protocol_cleanup).emit (.send_response
        (snprintf 128 (json_obj
          ("\"action\":\"claim_device\",\"status\":\"error\",\"message\":\"" ++
           env.protocol_error.getD "unknown" ++ "\""))))
    else if sub_u32 now s.association_start_ms_ > ASSOCIATION_TIMEOUT_MS then
      (({ s with associating_ := false }).emit .associate_cancel).emit (.send_response
        "\x7b\"action\":\"claim_device\",\"status\":\"error\",\"message\":\"timeout\"\x7d")
    else s
  else s

/-- The part of `loop` that precedes the association block. -/
def loop_before_association (env : Env) (s : AvionMeshHub) (now : Nat) : AvionMeshHub :=
  let s1 := loop_register_web env s
  let s2 := loop_sse s1
  let s3 := loop_pending_requests s2
  let s4 := process_deferred_actions env s3
  let s5 := loop_register_gattc env s4
  let s6 := loop_reconnect s5 now
  let s7 := loop_subscribe_management env s6
  let s8 := loop_subscribe_lights env s7
  let s9 := loop_initial_read s8
  let s10 := loop_time_sync s9
  s10.emit (.csrmesh_poll now)

/-- Method `loop`; `now` is the value `esphome::millis()` has during the call. -/
def loop (env : Env) (s : AvionMeshHub) (now : Nat) : AvionMeshHub :=
  loop_association env (loop_before_association env s now) now

end AvionMeshHub

/-! ## avionmesh_web.cpp: the control endpoint -/

/-- The members of a control request body the handler reads: `avion_id` (0 when absent),
and the values of `brightness` and `color_temp` when they are present as integers. -/
structure ControlBody where
  avion_id : Nat
  brightness : Option Int
  color_temp : Option Int
deriving DecidableEq, Repr

namespace AvionMeshWebHandler

/-- The `DeferredAction` built by `handle_control` from a request body. -/
def control_action (body : ControlBody) : DeferredAction :=
  let act : DeferredAction := { type := ActionType.Control }
  let act1 := { act with id1 := body.avion_id }
  let act2 := match body.brightness with
    | some b => { act1 with brightness := b }
    | none => act1
  match body.color_temp with
  | some c => { act2 with color_temp := c }
  | none => act2

/-- The queue append `hub_->pending_actions_.push_back(act)` done under the lock. -/
def push_action (s : AvionMeshHub) (act : DeferredAction) : AvionMeshHub :=
  { s with pending_actions_ := s.pending_actions_ ++ [act] }

/-- Method `handle_control` as it acts on the hub: `none` is an empty request body; a body
that is not valid JSON leaves the action at its defaults, like a body with no member. -/
def handle_control (s : AvionMeshHub) (body : Option ControlBody) : AvionMeshHub :=
  if s.ble_state_ != BleState.Ready then s
  else
    match body with
    | none => s
    | some b => push_action s (control_action b)

end AvionMeshWebHandler

/-! ## Runs of the hub: start-up, events, scan sweeps, loop ticks -/

namespace AvionMeshHub

/-- Method `setup`. -/
def setup (env : Env) (s : AvionMeshHub) : AvionMeshHub :=
  let s1 := { s with db_ := s.db_.load }
  let s2 :=
    if !s1.passphrase_.isEmpty && s1.db_.passphrase_.isEmpty then
      { s1 with db_ := s1.db_.set_passphrase s1.passphrase_ }
    else s1
  let r : Bool × AvionMeshHub :=
    if !s2.db_.passphrase_.isEmpty then init_crypto env s2 else (true, s2)
  if !r.1 then r.2
  else
    let s3 := r.2.emit (.set_interval "time_sync" (24 * 60 * 60 * 1000))
    if env.mqtt_client then s3.emit .subscribe_ha_status else s3

end AvionMeshHub

/-- An event dispatched to the hub by `esp32_ble`. -/
inductive HubEvent where
  | gap (e : GapEvent)
  | scan (result : BLEScanResult)
  | gattc (gattc_if : Nat) (e : GattcEvent)
deriving DecidableEq, Repr

namespace AvionMeshHub

/-- Dispatch of an event to its handler; `now` is the clock value during the call. -/
def handle (s : AvionMeshHub) (now : Nat) : HubEvent → AvionMeshHub
  | .gap e => gap_event_handler s now e
  | .scan r => gap_scan_event_handler s now r
  | .gattc gattc_if e => gattc_event_handler s now gattc_if e

/-- The hub after a sequence of events, each with its clock value. -/
def handle_all (s : AvionMeshHub) (events : List (Nat × HubEvent)) : AvionMeshHub :=
  events.foldl (fun acc e => acc.handle e.1 e.2) s

/-- The hub after `start_scan` at `now` and the delivery of the records `advs` to
`gap_scan_event_handler`. -/
def scan_sweep (s : AvionMeshHub) (now : Nat) (advs : List BLEScanResult) : AvionMeshHub :=
  advs.foldl (fun acc r => gap_scan_event_handler acc now r) (start_scan s now)

/-- The hub after a sequence of calls of `loop`, each with its collaborators' answers
and its clock value, with nothing arriving from other threads in between. -/
def run_loop (s : AvionMeshHub) (ticks : List (Env × Nat)) : AvionMeshHub :=
  ticks.foldl (fun acc t => loop t.1 acc t.2) s

end AvionMeshHub

/-- The failure paths of the bridge connection state machine: a state and an event whose
handler takes the failing branch in that state. -/
inductive FailurePath : AvionMeshHub → HubEvent → Prop where
  /-- Setting the scan parameters failed. -/
  | scan_param_failure (s : AvionMeshHub) :
      FailurePath s (.gap (.SCAN_PARAM_SET_COMPLETE_EVT false))
  /-- The scan completed and no candidate was recorded since `start_scan`. -/
  | no_candidate (s : AvionMeshHub) (r : BLEScanResult) :
      r.search_evt = SearchEvt.INQ_CMPL_EVT → s.ble_state_ = BleState.Scanning →
      s.best_rssi_ = -999 → FailurePath s (.scan r)
  /-- Opening the connection failed. -/
  | open_failure (s : AvionMeshHub) (gattc_if conn_id : Nat) :
      FailurePath s (.gattc gattc_if (.OPEN_EVT false conn_id))
  /-- Service discovery completed and the hub has no handle for one of the two
  characteristics. -/
  | missing_characteristic (s : AvionMeshHub) (gattc_if : Nat) (low high : Option Nat) :
      low.getD s.char_low_handle_ = 0 ∨ high.getD s.char_high_handle_ = 0 →
      FailurePath s (.gattc gattc_if (.SEARCH_CMPL_EVT low high))
  /-- The link dropped. -/
  | link_drop (s : AvionMeshHub) (gattc_if reason : Nat) :
      FailurePath s (.gattc gattc_if (.DISCONNECT_EVT reason))

/-- Whether an effect is a management response or the cancellation of an association. -/
def is_claim_outcome : Effect → Bool
  | .send_response _ => true
  | .associate_cancel => true
  | _ => false

/-- Whether an effect is a mesh command. -/
def is_send_cmd : Effect → Bool
  | .send_cmd _ => true
  | _ => false

/-- The management responses and association cancellations among the calls made so far. -/
def claim_outcomes (s : AvionMeshHub) : List Effect :=
  s.out_.filter is_claim_outcome

/-- No request from the web handler is waiting: the four flags are clear and the action
queue is empty. -/
def no_pending_requests (s : AvionMeshHub) : Prop :=
  s.pending_discover_mesh_ = false ∧ s.pending_scan_unassoc_ = false ∧
  s.pending_examine_ = false ∧ s.pending_claim_auto_ = false ∧ s.pending_actions_ = []

/-- The response sent when an association times out. -/
def claim_timeout_response : Effect :=
  .send_response "\x7b\"action\":\"claim_device\",\"status\":\"error\",\"message\":\"timeout\"\x7d"

/-- The members of the hub that an association in flight depends on, with the management
responses and cancellations made so far: `associating_`, `association_start_ms_`, the
four request flags, the action queue. -/
def watch (s : AvionMeshHub) :
    Bool × Nat × Bool × Bool × Bool × Bool × List DeferredAction × List Effect :=
  (s.associating_, s.association_start_ms_, s.pending_discover_mesh_,
    s.pending_scan_unassoc_, s.pending_examine_, s.pending_claim_auto_, s.pending_actions_,
    claim_outcomes s)

/-- A decrypted frame as `on_mesh_rx` receives it: the two 16-bit source ids, the opcode
byte and the payload bytes; `payload.length` is `payload_len`. -/
structure Frame where
  mcp_source : Nat
  crypto_source : Nat
  opcode : Nat
  payload : List Nat
deriving DecidableEq, Repr

/-- The `struct Status` that `parse_response` of the avionmesh library fills. -/
structure Status where
  avid : Nat
  has_brightness : Bool
  brightness : Nat
  has_color_temp : Bool
  color_temp : Nat
deriving DecidableEq, Repr

/-- What the avionmesh library header supplies to `on_mesh_rx`: the constant
`MODEL_OPCODE`, the enumerator `Verb::Ping`, and the function `parse_response`
(`none` when it returns false). -/
structure MeshLib where
  MODEL_OPCODE : Nat
  Verb_Ping : Nat
  parse_response : Frame → Option Status

/-- The `struct tm` fields that `sync_time` reads. -/
structure Tm where
  tm_year : Int
  tm_mon : Int
  tm_mday : Int
  tm_hour : Int
  tm_min : Int
  tm_sec : Int
deriving DecidableEq, Repr

namespace AvionMeshHub

/-- Method `ble_write`: `low` tells whether `ch` is `Characteristic::Low`, `write_ok`
whether `esp_ble_gattc_write_char` returns `ESP_OK`. -/
def ble_write (s : AvionMeshHub) (low : Bool) (data : List Nat) (response write_ok : Bool) :
    Int × AvionMeshHub :=
  if s.ble_state_ != BleState.Ready || s.char_low_handle_ == 0 || s.char_high_handle_ == 0 then
    (-1, s)
  else
    let handle := if low then s.char_low_handle_ else s.char_high_handle_
    (if write_ok then 0 else -1,
      s.emit (.gattc_write_char s.gattc_if_ s.conn_id_ handle data response))

/-- Value of `device_id` in `on_mesh_rx`. -/
def rx_device_id (f : Frame) : Nat :=
  if f.mcp_source == 0x8000 then f.crypto_source else f.mcp_source

/-- The part of the first condition of `on_mesh_rx` that reads the frame:
`opcode == MODEL_OPCODE && payload_len >= 10 && payload[0] == (uint8_t) Verb::Ping`. -/
def rx_is_ping (lib : MeshLib) (f : Frame) : Bool :=
  f.opcode == lib.MODEL_OPCODE && decide (f.payload.length ≥ 10) &&
    byte_at f.payload 0 == lib.Verb_Ping % 256

/-- Text that `on_mesh_rx` formats into `buf` for an examine result. -/
def examine_text (device_id : Nat) (p : List Nat) : String :=
  snprintf 256 (json_obj
    ("\"avion_id\":" ++ toString device_id ++
     ",\"fw\":\"" ++ toString (byte_at p 3) ++ "." ++ toString (byte_at p 4) ++ "." ++
       toString (byte_at p 5) ++
     "\",\"flags\":" ++ toString (byte_at p 6) ++
     ",\"vendor_id\":" ++ toString ((byte_at p 7 <<< 8) ||| byte_at p 8) ++
     ",\"csr_product_id\":" ++ toString (byte_at p 9)))

/-- The management response for an examine result: the prefix followed by `buf + 1`. -/
def examine_response (device_id : Nat) (p : List Nat) : String :=
  "\x7b\"action\":\"examine_device\",\"status\":\"ok\"," ++ (examine_text device_id p).drop 1

/-- The block `if (examining_ && device_id == examine_target_)` of `on_mesh_rx`. -/
def rx_examine (s : AvionMeshHub) (f : Frame) : AvionMeshHub :=
  if s.examining_ && rx_device_id f == s.examine_target_ then
    (({ s with examining_ := false }).emits
      (if s.web_handler_ then
        [Effect.send_event "examine" (examine_text (rx_device_id f) f.payload)] else [])).emit
      (.send_response (examine_response (rx_device_id f) f.payload))
  else s

/-- Text of the diagnostic event for a newly seen device: the header, at most 16 payload
bytes and the closing bracket and brace, which together stay below the 256 bytes of
`diag` for 16-bit sources. -/
def rx_diag_text (f : Frame) : String :=
  snprintf 256 (json_obj
    ("\"type\":\"ping_rx\",\"mcp_src\":" ++ toString f.mcp_source ++
     ",\"crypto_src\":" ++ toString f.crypto_source ++
     ",\"len\":" ++ toString f.payload.length ++
     ",\"bytes\":[" ++ ",".intercalate ((f.payload.take 16).map (fun b => toString (b % 256))) ++
     "]"))

/-- The `DiscoveredDevice` that `on_mesh_rx` builds from a ping answer. -/
def rx_discovered (f : Frame) : DiscoveredDevice :=
  { device_id := rx_device_id f
    fw_major := byte_at f.payload 3
    fw_minor := byte_at f.payload 4
    fw_patch := byte_at f.payload 5
    flags := byte_at f.payload 6
    vendor_id := ((byte_at f.payload 7 <<< 8) % 65536) ||| byte_at f.payload 8
    csr_product_id := byte_at f.payload 9 }

/-- The block `if (discovering_mesh_)` of `on_mesh_rx`. -/
def rx_discover (s : AvionMeshHub) (f : Frame) : AvionMeshHub :=
  if s.discovering_mesh_ then
    if s.discovered_devices_.any (fun d => d.device_id == rx_device_id f) then s
    else
      { s with discovered_devices_ := s.discovered_devices_ ++ [rx_discovered f] }.emits
        (if s.web_handler_ then [Effect.send_event "debug" (rx_diag_text f)] else [])
  else s

/-- The first `if` of `on_mesh_rx`; the first component tells whether the method returns
from inside it. -/
def rx_ping (lib : MeshLib) (s : AvionMeshHub) (f : Frame) : Bool × AvionMeshHub :=
  if (s.discovering_mesh_ || s.examining_) && rx_is_ping lib f then
    if s.discovering_mesh_ && f.mcp_source == 0 then (true, s)
    else (false, rx_discover (rx_examine s f) f)
  else (false, s)

/-- The device state after a decoded status is stored through `device_states_[avid]`. -/
def rx_merge (st : DeviceState) (status : Status) : DeviceState :=
  let st1 :=
    if status.has_brightness then
      { st with brightness := status.brightness, brightness_known := true }
    else st
  if status.has_color_temp then
    { st1 with color_temp := status.color_temp, color_temp_known := true }
  else st1

/-- The tail of `on_mesh_rx`, from `parse_response` on. -/
def rx_status (lib : MeshLib) (env : Env) (s : AvionMeshHub) (f : Frame) : AvionMeshHub :=
  match lib.parse_response f with
  | none => s
  | some status =>
    if (s.db_.find_device status.avid).isNone then s
    else
      publish_device_state env
        { s with device_states_ := (states_set s.device_states_ status.avid
            (rx_merge (states_index s.device_states_ status.avid) status)) }
        status.avid

/-- Method `on_mesh_rx`. -/
def on_mesh_rx (lib : MeshLib) (env : Env) (s : AvionMeshHub) (f : Frame) : AvionMeshHub :=
  let r := rx_ping lib { s with rx_count_ := (s.rx_count_ + 1) % 2 ^ 32 } f
  if r.1 then r.2 else rx_status lib env r.2 f

/-- The hub after the frames `fs` are handed to `on_mesh_rx` one after the other. -/
def rx_all (lib : MeshLib) (env : Env) (s : AvionMeshHub) (fs : List Frame) : AvionMeshHub :=
  fs.foldl (on_mesh_rx lib env) s

/-- The management response of the examine timeout. -/
def examine_timeout_response (target : Nat) : String :=
  snprintf 128 (json_obj
    ("\"action\":\"examine_device\",\"avion_id\":" ++ toString target ++
     ",\"status\":\"error\",\"message\":\"timeout\""))

/-- The callback that `handle_examine_device` schedules under the name
`examine_timeout`. -/
def examine_timeout (s : AvionMeshHub) : AvionMeshHub :=
  if s.examining_ then
    (({ s with examining_ := false }).emits
      (if s.web_handler_ then
        [Effect.send_event "examine" (snprintf 128 (json_obj
          ("\"avion_id\":" ++ toString s.examine_target_ ++ ",\"error\":\"timeout\"")))]
       else [])).emit
      (.send_response (examine_timeout_response s.examine_target_))
  else s

/-- One element of `devices_arr` in the `discover_stop` callback. -/
def discovered_json (db : DeviceDB) (first : Bool) (d : DiscoveredDevice) : String :=
  snprintf 256
    ((if first then "" else ",") ++ json_obj
      ("\"device_id\":" ++ toString d.device_id ++
       ",\"fw\":\"" ++ toString d.fw_major ++ "." ++ toString d.fw_minor ++ "." ++
         toString d.fw_patch ++
       "\",\"vendor_id\":" ++ toString d.vendor_id ++
       ",\"csr_product_id\":" ++ toString d.csr_product_id ++
       ",\"known\":" ++ bool_text (db.find_device d.device_id).isSome))

/-- The text `devices_arr` that the `discover_stop` callback builds. -/
def discovered_array (db : DeviceDB) (ds : List DiscoveredDevice) : String :=
  "[" ++ String.join (ds.enum.map (fun p => discovered_json db (p.1 == 0) p.2)) ++ "]"

/-- The callback that `handle_discover_mesh` schedules under the name `discover_stop`. -/
def discover_stop (s : AvionMeshHub) : AvionMeshHub :=
  (({ s with discovering_mesh_ := false }).emits
    (if s.web_handler_ then
      [Effect.send_event "discover_mesh"
        ("\x7b\"devices\":" ++ discovered_array s.db_ s.discovered_devices_ ++ "\x7d")]
     else [])).emit
    (.send_response ("\x7b\"action\":\"discover_mesh\",\"status\":\"done\",\"devices\":" ++
      discovered_array s.db_ s.discovered_devices_ ++ "\x7d"))

end AvionMeshHub

/-- The payload of a management response, for a call of `send_response`. -/
def response_text : Effect → Option String
  | .send_response p => some p
  | _ => none

/-- The management responses among the calls made so far. -/
def responses (s : AvionMeshHub) : List String :=
  s.out_.filterMap response_text

/-- The command of a call of `send_cmd`. -/
def command_of : Effect → Option Command
  | .send_cmd c => some c
  | _ => none

/-- The mesh commands among the calls made so far. -/
def mesh_commands (s : AvionMeshHub) : List Command :=
  s.out_.filterMap command_of

/-- The GATT writes among the calls made so far. -/
def gatt_writes (s : AvionMeshHub) : List Effect :=
  s.out_.filter (fun e => match e with
    | .gattc_write_char _ _ _ _ _ => true
    | _ => false)

/-- The notifications handed to `csrmesh::feed_notify` among the calls made so far. -/
def decoded_notifications (s : AvionMeshHub) : List Effect :=
  s.out_.filter (fun e => match e with
    | .feed_notify _ _ _ => true
    | _ => false)

/-- The members of the hub that a discovery sweep and an examine query depend on, with
the management responses made so far. -/
structure QueryView where
  discovering : Bool
  discovered : List DiscoveredDevice
  examining : Bool
  target : Nat
  responses : List String
deriving DecidableEq, Repr

/-- The view of a hub state. -/
def query_view (s : AvionMeshHub) : QueryView :=
  { discovering := s.discovering_mesh_
    discovered := s.discovered_devices_
    examining := s.examining_
    target := s.examine_target_
    responses := responses s }

/-- What one call of `on_mesh_rx` does to the view. -/
def query_step (lib : MeshLib) (v : QueryView) (f : Frame) : QueryView :=
  if (v.discovering || v.examining) && AvionMeshHub.rx_is_ping lib f &&
      !(v.discovering && f.mcp_source == 0) then
    { discovering := v.discovering
      discovered :=
        if v.discovering &&
            !(v.discovered.any (fun d => d.device_id == AvionMeshHub.rx_device_id f)) then
          v.discovered ++ [AvionMeshHub.rx_discovered f]
        else v.discovered
      examining := v.examining && !(AvionMeshHub.rx_device_id f == v.target)
      target := v.target
      responses := v.responses ++
        (if v.examining && AvionMeshHub.rx_device_id f == v.target then
          [AvionMeshHub.examine_response (AvionMeshHub.rx_device_id f) f.payload]
         else []) }
  else v

/-- The elements of a list whose key occurs for the first time, in their order. -/
def first_by {α : Type} (key : α → Nat) : List α → List α
  | [] => []
  | x :: xs => x :: (first_by key xs).filter (fun y => key y != key x)

/-- Whether a frame resolves an examine query for `target`: a ping answer from `target`
that `on_mesh_rx` does not skip as the echo of the hub's own broadcast. -/
def resolves_examine (lib : MeshLib) (discovering : Bool) (target : Nat) (f : Frame) : Bool :=
  AvionMeshHub.rx_is_ping lib f && AvionMeshHub.rx_device_id f == target &&
    !(discovering && f.mcp_source == 0)

/-- The hub after `handle_examine_device` for `target` and the delivery of the frames
`fs` to `on_mesh_rx`. -/
def examine_pending (lib : MeshLib) (env : Env) (s : AvionMeshHub) (target : Nat)
    (fs : List Frame) : AvionMeshHub :=
  AvionMeshHub.rx_all lib env (s.handle_examine_device target) fs

/-- The response of `handle_examine_device` while a query is pending. -/
def examine_busy_response : Effect :=
  .send_response "\x7b\"action\":\"examine_device\",\"status\":\"error\",\"message\":\"busy\"\x7d"

/-! ## Management commands over MQTT -/

/-- The root object of a management command as `on_mqtt_command` reads it. The numeric
members hold the `unsigned` value of `root["..."] | 0u`; `kelvin` and `name` are `none`
when the member is missing, since their defaults differ between actions. -/
structure MgmtRoot where
  action : String := ""
  uuid_hash : Nat := 0
  device_id : Nat := 0
  avion_id : Nat := 0
  group_id : Nat := 0
  product_type : Nat := 0
  brightness : Nat := 0
  kelvin : Option Nat := none
  name : Option String := none
deriving DecidableEq, Repr

namespace AvionMeshHub

/-- Method `sync_time`; `t` is the result of `localtime` (`none` for a null pointer). -/
def sync_time (s : AvionMeshHub) (t : Option Tm) : AvionMeshHub :=
  match t with
  | none => s
  | some t =>
    if t.tm_year < 120 then s
    else
      s.emits
        [Effect.send_cmd (.set_date ((t.tm_year + 1900) % 65536).toNat
          ((t.tm_mon + 1) % 256).toNat (t.tm_mday % 256).toNat),
         Effect.send_cmd (.set_time (t.tm_hour % 256).toNat (t.tm_min % 256).toNat
          (t.tm_sec % 256).toNat)]

/-- Method `read_all_dimming`. -/
def read_all_dimming (s : AvionMeshHub) : AvionMeshHub :=
  s.emit (.send_cmd .read_all_dimming)

/-- Method `read_all_color`. -/
def read_all_color (s : AvionMeshHub) : AvionMeshHub :=
  s.emit (.send_cmd .read_all_color)

/-- The text that `on_mqtt_command` formats before the 128-byte buffer cuts it, when the
bridge link is not in state Ready. -/
def ble_not_ready_text (action : String) (ble_state : BleState) : String :=
  json_obj
    ("\"action\":\"" ++ action ++
     "\",\"status\":\"error\",\"message\":\"ble_not_ready\",\"ble_state\":" ++
     toString ble_state.toNat)

/-- The answer of `on_mqtt_command` to the action `status`. -/
def status_text (s : AvionMeshHub) : String :=
  snprintf 192 (json_obj
    ("\"action\":\"status\",\"ble_state\":" ++ toString s.ble_state_.toNat ++
     ",\"devices\":" ++ toString s.db_.devices_.length ++
     ",\"groups\":" ++ toString s.db_.groups_.length ++
     ",\"rx_count\":" ++ toString s.rx_count_))

/-- The chain of comparisons of `action` in `on_mqtt_command`, reached in state Ready. -/
def mqtt_dispatch (env : Env) (s : AvionMeshHub) (now : Nat) (tm : Option Tm)
    (root : MgmtRoot) : AvionMeshHub :=
  if root.action == "scan_unassociated" then handle_scan_unassociated s
  else if root.action == "claim_device" then
    handle_claim_device env s now root.uuid_hash (root.device_id % 65536)
      (root.name.getD "Unknown") (root.product_type % 256)
  else if root.action == "unclaim_device" then handle_unclaim_device s (root.avion_id % 65536)
  else if root.action == "create_group" then
    handle_create_group env s (root.group_id % 65536) (root.name.getD "Group")
  else if root.action == "delete_group" then handle_delete_group s (root.group_id % 65536)
  else if root.action == "add_to_group" then
    handle_add_to_group s (root.avion_id % 65536) (root.group_id % 65536)
  else if root.action == "remove_from_group" then
    handle_remove_from_group s (root.avion_id % 65536) (root.group_id % 65536)
  else if root.action == "discover_mesh" then handle_discover_mesh s
  else if root.action == "add_discovered" then
    handle_add_discovered env s (root.device_id % 65536) (root.name.getD "Unknown")
      (root.product_type % 256)
  else if root.action == "examine_device" then handle_examine_device s (root.avion_id % 65536)
  else if root.action == "set_mesh_brightness" then
    s.emit (.send_cmd (.brightness 0 root.brightness))
  else if root.action == "set_mesh_color_temp" then
    s.emit (.send_cmd (.color_temp 0 (root.kelvin.getD 3000)))
  else if root.action == "sync_time" then sync_time s tm
  else if root.action == "read_all" then read_all_dimming s
  else s

/-- Method `on_mqtt_command`; `parsed` is the root object that `parse_json` hands to the
handler (`none` when the payload is not a JSON document), `tm` the local time. -/
def on_mqtt_command (env : Env) (s : AvionMeshHub) (now : Nat) (tm : Option Tm)
    (parsed : Option MgmtRoot) : AvionMeshHub :=
  match parsed with
  | none => s
  | some root =>
    if root.action == "status" then s.emit (.send_response (status_text s))
    else if s.ble_state_ != BleState.Ready then
      s.emit (.send_response (snprintf 128 (ble_not_ready_text root.action s.ble_state_)))
    else mqtt_dispatch env s now tm root

end AvionMeshHub

/-! ## Import: what a merge adds to the registry -/

/-- The registry entry that the Import action creates for a payload device. -/
def ImportDevice.entry (e : ImportDevice) : DeviceEntry :=
  { avion_id := e.device_id, product_type := e.product_type, name := e.name, groups := [] }

/-- The registry entry that the Import action creates for a payload group. -/
def ImportGroup.entry (g : ImportGroup) : GroupEntry :=
  { group_id := g.group_id, name := g.name, member_ids := [] }

/-- The payload devices that a merge into `db` adds: non-zero id, id not in `db`, and of
the entries with the same id the first one. -/
def import_new_devices (db : DeviceDB) (devs : List ImportDevice) : List ImportDevice :=
  first_by (fun e => e.device_id)
    (devs.filter (fun e => e.device_id != 0 && (db.find_device e.device_id).isNone))

/-- The payload groups that a merge into `db` adds. -/
def import_new_groups (db : DeviceDB) (grps : List ImportGroup) : List ImportGroup :=
  first_by (fun g => g.group_id)
    (grps.filter (fun g => g.group_id != 0 && (db.find_group g.group_id).isNone))

/-- Device entry `d2` is `d1` with the same id, product type and name, and with the
group ids of `d1` followed by zero or more further ids. -/
def DevExt (d1 d2 : DeviceEntry) : Prop :=
  d2.avion_id = d1.avion_id ∧ d2.product_type = d1.product_type ∧ d2.name = d1.name ∧
    d1.groups <+: d2.groups

/-- Group entry `g2` is `g1` with the same id and name, and with the member ids of `g1`
followed by zero or more further ids. -/
def GrpExt (g1 g2 : GroupEntry) : Prop :=
  g2.group_id = g1.group_id ∧ g2.name = g1.name ∧ g1.member_ids <+: g2.member_ids

/-- The text of the `import_result` event for the two counters. -/
def import_result_text (added_devices added_groups : Nat) : String :=
  snprintf 96 (json_obj
    ("\"added_devices\":" ++ toString added_devices ++
     ",\"added_groups\":" ++ toString added_groups))

/-! ## Light commands from MQTT, state payloads, id assignment -/

/-- Constant `RAPID_DIM_THRESHOLD_MS`. -/
def RAPID_DIM_THRESHOLD_MS : Nat := 750

namespace MqttDiscovery

/-- The value `mireds` that `publish_color_temp_state` computes from `kelvin`:
`kelvin > 0 ? 1000000u / kelvin : 0`, stored in a `uint16_t`. -/
def color_temp_mireds (kelvin : Nat) : Nat :=
  if kelvin > 0 then (1000000 / kelvin) % 65536 else 0

/-- The payload that `publish_color_temp_state` publishes. -/
def color_temp_payload (kelvin : Nat) : String :=
  snprintf 8 (toString (color_temp_mireds kelvin))

/-- The payload that `publish_on_off_state` publishes. -/
def on_off_payload (is_on : Bool) : String :=
  if is_on then "ON" else "OFF"

/-- The payload that `publish_brightness_state` publishes. -/
def brightness_payload (brightness : Nat) : String :=
  snprintf 8 (toString brightness)

end MqttDiscovery

/-- Lookup `last_brightness_ms_.find(id)`. -/
def stamp_find (m : List (Nat × Nat)) (id : Nat) : Option Nat :=
  (m.find? (fun p => p.1 == id)).map (fun p => p.2)

/-- Store through `last_brightness_ms_[id]` or through the iterator of an entry. -/
def stamp_set (m : List (Nat × Nat)) (id : Nat) (v : Nat) : List (Nat × Nat) :=
  if m.any (fun p => p.1 == id) then m.map (fun p => if p.1 == id then (id, v) else p)
  else m ++ [(id, v)]

namespace AvionMeshHub

/-- The two stores `state.brightness = b; state.brightness_known = true` through the
reference `device_states_[id]`. -/
def cache_brightness (s : AvionMeshHub) (id b : Nat) : AvionMeshHub :=
  { s with
    device_states_ := (states_set s.device_states_ id
      { states_index s.device_states_ id with brightness := b, brightness_known := true }) }

/-- The two stores `state.color_temp = k; state.color_temp_known = true` through the
reference `device_states_[id]`. -/
def cache_color_temp (s : AvionMeshHub) (id k : Nat) : AvionMeshHub :=
  { s with
    device_states_ := (states_set s.device_states_ id
      { states_index s.device_states_ id with color_temp := k, color_temp_known := true }) }

/-- Method `on_switch_command`. -/
def on_switch_command (env : Env) (s : AvionMeshHub) (avion_id : Nat) (payload : String) :
    AvionMeshHub :=
  let brightness := if payload == "ON" then 255 else 0
  publish_device_state env
    (cache_brightness (s.emit (.send_cmd (.brightness avion_id brightness))) avion_id
      brightness)
    avion_id

/-- The condition of the rapid-dimming branch of `on_brightness_command`: an entry for
the id exists and `now - it->second`, computed in `uint32_t`, is below the threshold. -/
def brightness_is_rapid (s : AvionMeshHub) (now avion_id : Nat) : Bool :=
  match stamp_find s.last_brightness_ms_ avion_id with
  | some last => decide (sub_u32 now last < RAPID_DIM_THRESHOLD_MS)
  | none => false

/-- Method `on_brightness_command`; `parsed` is the value of `strtoul(payload, 10)` and
`now` the value of `esphome::millis()`. Both branches store `now` for the id. -/
def on_brightness_command (env : Env) (s : AvionMeshHub) (now avion_id parsed : Nat) :
    AvionMeshHub :=
  let brightness := parsed % 256
  let s1 := { s with last_brightness_ms_ := stamp_set s.last_brightness_ms_ avion_id now }
  if brightness_is_rapid s now avion_id then
    publish_device_state env (cache_brightness s1 avion_id brightness) avion_id
  else
    publish_device_state env
      (cache_brightness (s1.emit (.send_cmd (.brightness avion_id brightness))) avion_id
        brightness)
      avion_id

/-- The value `kelvin` of `on_color_temp_command` for the parsed payload:
`mireds > 0 ? 1000000u / mireds : 3000` with both variables of type `uint16_t`. -/
def color_temp_kelvin (parsed : Nat) : Nat :=
  if parsed % 65536 > 0 then (1000000 / (parsed % 65536)) % 65536 else 3000

/-- Method `on_color_temp_command`; `parsed` is the value of `strtoul(payload, 10)`. -/
def on_color_temp_command (env : Env) (s : AvionMeshHub) (avion_id parsed : Nat) :
    AvionMeshHub :=
  publish_device_state env
    (cache_color_temp (s.emit (.send_cmd (.color_temp avion_id (color_temp_kelvin parsed))))
      avion_id (color_temp_kelvin parsed))
    avion_id

/-- The hub after a sequence of brightness commands for one id, each with its clock
value and its parsed payload. -/
def brightness_burst (env : Env) (s : AvionMeshHub) (avion_id : Nat)
    (cmds : List (Nat × Nat)) : AvionMeshHub :=
  cmds.foldl (fun acc c => on_brightness_command env acc c.1 avion_id c.2) s

/-- The loop of `next_device_id` from `id` on; the first argument is the number of ids
left up to `MAX_DEVICE_ID`, and the loop ends with 0 when none is left. -/
def next_device_id_loop (db : DeviceDB) (discovered : List DiscoveredDevice) :
    Nat → Nat → Nat
  | 0, _ => 0
  | n + 1, id =>
    if (db.find_device id).isSome then next_device_id_loop db discovered n (id + 1)
    else if discovered.any (fun d => d.device_id == id) then
      next_device_id_loop db discovered n (id + 1)
    else id

/-- Method `next_device_id`. -/
def next_device_id (s : AvionMeshHub) : Nat :=
  next_device_id_loop s.db_ s.discovered_devices_ (MAX_DEVICE_ID + 1 - MIN_DEVICE_ID)
    MIN_DEVICE_ID

end AvionMeshHub

/-! ## avionmesh_web.cpp: the passphrase endpoint -/

/-- The characters that the scan of `validate_passphrase` skips with `continue` before it
tests for the padding character. -/
def is_base64_symbol (c : Char) : Bool :=
  (decide ('A' ≤ c) && decide (c ≤ 'Z')) || (decide ('a' ≤ c) && decide (c ≤ 'z')) ||
    (decide ('0' ≤ c) && decide (c ≤ '9')) || c == '+' || c == '/'

/-- The loop of `validate_passphrase` over the characters from index `i` on, with the
count `padding` so far: the values of `valid_base64` and `padding` when it ends. -/
def base64_scan (len : Nat) : List Char → Nat → Nat → Bool × Nat
  | [], _, padding => (true, padding)
  | c :: cs, i, padding =>
    if is_base64_symbol c then base64_scan len cs (i + 1) padding
    else if c == '=' then
      if i != len - (padding + 1) then (false, padding + 1)
      else base64_scan len cs (i + 1) (padding + 1)
    else (false, padding)

/-- Function `validate_passphrase`. -/
def validate_passphrase (s : String) : Int :=
  if s.isEmpty then -1
  else if s.length < 8 then -1
  else if s.length % 4 == 0 then
    let r := base64_scan s.length s.data 0 0
    if r.1 && decide (r.2 ≤ 2) then ((s.length * 3 / 4 - r.2 : Nat) : Int)
    else (s.length : Int)
  else (s.length : Int)

namespace AvionMeshWebHandler

end AvionMeshWebHandler

/-! ## The advertisement parser with the indices it reads -/

/-- The loop `for (uint8_t i = 0; i + 1 < data_len; i += 2)` of `gap_scan_event_handler`
with the indices of `adv` it reads: whether a UUID equals 0xFEF1, and the indices in the
order of the reads. The first argument bounds the number of rounds; `none` means that
the bound is used up while the loop condition still holds. -/
def uuid16_walk (adv : List Nat) (base data_len : Nat) : Nat → Nat → Option (Bool × List Nat)
  | 0, i => if i + 1 < data_len then none else some (false, [])
  | fuel + 1, i =>
    if i + 1 < data_len then
      if (byte_at adv (base + i) + 256 * byte_at adv (base + i + 1)) % 65536
          == CSRMESH_SERVICE_UUID16 then some (true, [base + i, base + i + 1])
      else
        (uuid16_walk adv base data_len fuel ((i + 2) % 256)).map
          (fun r => (r.1, [base + i, base + i + 1] ++ r.2))
    else some (false, [])

/-- The loop `while (offset < adv_len)` of `gap_scan_event_handler` with the indices of
`adv` it reads: whether the handler reaches the statement that compares RSSI values, and
the indices in the order of the reads (length byte, type byte, UUID bytes). The first
argument bounds the number of rounds; `none` means that the bound is used up while the
loop condition still holds. -/
def adv_walk (adv : List Nat) (adv_len : Nat) : Nat → Nat → Option (Bool × List Nat)
  | 0, offset => if offset < adv_len then none else some (false, [])
  | fuel + 1, offset =>
    if offset < adv_len then
      let field_len := byte_at adv offset
      if field_len == 0 || offset + field_len ≥ adv_len then some (false, [offset])
      else
        let field_type := byte_at adv (offset + 1)
        let data_len := (field_len - 1) % 256
        if (field_type == 0x02 || field_type == 0x03) && decide (data_len ≥ 2) then
          match uuid16_walk adv (offset + 2) data_len data_len 0 with
          | none => none
          | some u =>
            if u.1 then some (true, [offset, offset + 1] ++ u.2)
            else
              (adv_walk adv adv_len fuel (offset + field_len + 1)).map
                (fun r => (r.1, [offset, offset + 1] ++ u.2 ++ r.2))
        else
          (adv_walk adv adv_len fuel (offset + field_len + 1)).map
            (fun r => (r.1, [offset, offset + 1] ++ r.2))
    else some (false, [])

/-- The offsets at which the AD structures of a record start: offset 0, and the offset
after every structure whose length byte is not 0 and which ends before `adv_len`. -/
inductive FieldStart (adv : List Nat) (adv_len : Nat) : Nat → Prop where
  | first : FieldStart adv adv_len 0
  | next (o : Nat) : FieldStart adv adv_len o → o < adv_len → byte_at adv o ≠ 0 →
      o + byte_at adv o < adv_len → FieldStart adv adv_len (o + byte_at adv o + 1)

/-- The AD structure at offset `o` is well formed, has type 0x02 or 0x03, and one of the
16-bit values of its data, at the even data offset `2 * k`, is 0xFEF1 in little-endian
byte order. -/
def lists_bridge_uuid (adv : List Nat) (adv_len o : Nat) : Prop :=
  o < adv_len ∧ byte_at adv o ≠ 0 ∧ o + byte_at adv o < adv_len ∧
    (byte_at adv (o + 1) = 0x02 ∨ byte_at adv (o + 1) = 0x03) ∧
    ∃ k, 2 * k + 1 < byte_at adv o - 1 ∧ byte_at adv (o + 2 + 2 * k) = 0xF1 ∧
      byte_at adv (o + 2 + 2 * k + 1) = 0xFE

/-! ## Concrete states and inputs used to instantiate the theorems -/

/-- A registry with two devices and one group that lists both. -/
def db_two_lamps : DeviceDB :=
  { devices_ :=
      [{ avion_id := 100, product_type := 1, name := "Lamp", groups := [256] },
       { avion_id := 101, product_type := 1, name := "Desk", groups := [256] }]
    groups_ := [{ group_id := 256, name := "Room", member_ids := [100, 101] }] }

/-- Collaborators that accept every call, with MQTT and the web server absent. -/
def env_plain : Env :=
  { csrmesh_init_ok := fun _ => true
    protocol_init_ok := fun _ _ => true
    associate_start_ok := fun _ _ => true
    protocol_is_complete := false
    protocol_is_error := false
    protocol_error := none
    has_dimming := fun _ => true
    has_color_temp := fun _ => true
    product_name := fun _ => ""
    parse_import := fun _ => none
    mqtt_client := false
    mqtt_connected := false
    web_server_base := false
    ble_active := true }

/-- An advertisement with a flags field and a complete list of 16-bit service UUIDs that
holds 0xFEF1. -/
def adv_bridge (bda : List Nat) (rssi : Int) : BLEScanResult :=
  { search_evt := SearchEvt.INQ_RES_EVT
    bda := bda
    rssi := rssi
    ble_adv := [2, 1, 6, 3, 3, 0xF1, 0xFE]
    adv_data_len := 7
    scan_rsp_len := 0 }

/-- The record that reports the end of the scan. -/
def scan_complete : BLEScanResult :=
  { search_evt := SearchEvt.INQ_CMPL_EVT
    bda := []
    rssi := 0
    ble_adv := []
    adv_data_len := 0
    scan_rsp_len := 0 }

/-- Start-up without a passphrase, then a connection to a bridge up to the completion of
service discovery with both characteristics found. -/
def events_connect_without_passphrase : List (Nat × HubEvent) :=
  [(1000, .gattc 3 (.REG_EVT true 0)),
   (1010, .gap (.SCAN_PARAM_SET_COMPLETE_EVT true)),
   (1500, .scan (adv_bridge [1, 2, 3, 4, 5, 6] (-60))),
   (6010, .scan scan_complete),
   (6200, .gattc 3 (.OPEN_EVT true 1)),
   (6400, .gattc 3 (.SEARCH_CMPL_EVT (some 33) (some 36)))]

/-- A hub with a bridge link in state Ready, device 100 registered, and an association
started at clock value 5000. -/
def hub_associating : AvionMeshHub :=
  { ble_state_ := BleState.Ready
    crypto_initialized_ := true
    mesh_initialized_ := true
    char_low_handle_ := 33
    char_high_handle_ := 36
    associating_ := true
    association_start_ms_ := 5000
    db_ := { devices_ := [{ avion_id := 100, product_type := 1, name := "Lamp", groups := [] }] } }

/-- A hub in state Ready with device 100 registered and nothing in progress. -/
def hub_ready : AvionMeshHub :=
  { ble_state_ := BleState.Ready
    crypto_initialized_ := true
    mesh_initialized_ := true
    char_low_handle_ := 33
    char_high_handle_ := 36
    db_ := { devices_ := [{ avion_id := 100, product_type := 1, name := "Lamp", groups := [] }] } }

/-- A mesh library whose model opcode is 115 and whose Ping verb is 1, and which decodes
no frame as a status. -/
def lib_plain : MeshLib :=
  { MODEL_OPCODE := 115
    Verb_Ping := 1
    parse_response := fun _ => none }

/-- A ping answer of ten bytes for `lib_plain` with the given sources: firmware 1.2.3,
flags 0, vendor 0x0104, product 9. -/
def frame_ping (mcp_source crypto_source : Nat) : Frame :=
  { mcp_source := mcp_source
    crypto_source := crypto_source
    opcode := 115
    payload := [1, 0, 0, 1, 2, 3, 0, 1, 4, 9] }

/-- The hub `hub_ready` after a discovery sweep has started and device 100 has answered. -/
def hub_sweeping : AvionMeshHub :=
  (hub_ready.handle_discover_mesh).on_mesh_rx lib_plain env_plain (frame_ping 100 0)

/-- A registry with one device, whose name is 256 bytes long. -/
def db_long_name : DeviceDB :=
  { devices_ :=
      [{ avion_id := 1, product_type := 2, name := String.mk (List.replicate 256 'a'),
         groups := [] }] }

/-- An import payload without reset and without passphrase: the new device 200 twice, the
registered device 100, an entry with id 0, and the new group 256 with members 100 and
200. -/
def import_mixed : ImportRoot :=
  { reset := false
    passphrase := none
    devices :=
      [{ device_id := 200, name := "New", product_type := 1 },
       { device_id := 100, name := "Dup", product_type := 2 },
       { device_id := 0, name := "Zero", product_type := 1 },
       { device_id := 200, name := "Again", product_type := 3 }]
    groups := [{ group_id := 256, name := "Room", members := [100, 200] }] }

/-! ## Registry: lemmas on the operations of `device_db.cpp` -/

namespace DeviceDB

@[simp] theorem save_devices_ (db : DeviceDB) : db.save.devices_ = db.devices_ := rfl

@[simp] theorem save_groups_ (db : DeviceDB) : db.save.groups_ = db.groups_ := rfl

@[simp] theorem save_passphrase_ (db : DeviceDB) : db.save.passphrase_ = db.passphrase_ := rfl

theorem find_device_isSome_iff (db : DeviceDB) (a : Nat) :
    (db.find_device a).isSome = true ↔ ∃ d ∈ db.devices_, d.avion_id = a := by
  simp [find_device, List.find?_isSome]

theorem find_group_isSome_iff (db : DeviceDB) (a : Nat) :
    (db.find_group a).isSome = true ↔ ∃ g ∈ db.groups_, g.group_id = a := by
  simp [find_group, List.find?_isSome]

theorem map_ite_eq_self {α : Type} (p : α → Prop) [DecidablePred p] (f : α → α) :
    ∀ l : List α, (∀ x ∈ l, ¬ p x) → l.map (fun x => if p x then f x else x) = l
  | [], _ => rfl
  | x :: xs, h => by
    have hx : ¬ p x := h x (List.mem_cons_self _ _)
    have hxs : ∀ y ∈ xs, ¬ p y := fun y hy => h y (List.mem_cons_of_mem _ hy)
    simp [hx, map_ite_eq_self p f xs hxs]

theorem modify_device_eq_map (f : DeviceEntry → DeviceEntry) (a : Nat) :
    ∀ l : List DeviceEntry, (l.map (fun d => d.avion_id)).Nodup →
      modify_device f a l = l.map (fun d => if d.avion_id = a then f d else d)
  | [], _ => rfl
  | d :: ds, h => by
    rw [List.map_cons, List.nodup_cons] at h
    by_cases hd : d.avion_id = a
    · have hno : ∀ x ∈ ds, ¬ x.avion_id = a := by
        intro x hx hxa
        exact h.1 (List.mem_map.mpr ⟨x, hx, by rw [hxa, hd]⟩)
      simp [modify_device, hd, map_ite_eq_self (fun x : DeviceEntry => x.avion_id = a) f ds hno]
    · simp [modify_device, hd, modify_device_eq_map f a ds h.2]

theorem modify_group_eq_map (f : GroupEntry → GroupEntry) (a : Nat) :
    ∀ l : List GroupEntry, (l.map (fun g => g.group_id)).Nodup →
      modify_group f a l = l.map (fun g => if g.group_id = a then f g else g)
  | [], _ => rfl
  | d :: ds, h => by
    rw [List.map_cons, List.nodup_cons] at h
    by_cases hd : d.group_id = a
    · have hno : ∀ x ∈ ds, ¬ x.group_id = a := by
        intro x hx hxa
        exact h.1 (List.mem_map.mpr ⟨x, hx, by rw [hxa, hd]⟩)
      simp [modify_group, hd, map_ite_eq_self (fun x : GroupEntry => x.group_id = a) f ds hno]
    · simp [modify_group, hd, modify_group_eq_map f a ds h.2]

theorem mem_push_back_unique (v : List Nat) (x y : Nat) :
    y ∈ push_back_unique v x ↔ y ∈ v ∨ y = x := by
  unfold push_back_unique
  split
  · rename_i h
    have hx : x ∈ v := by simpa using h
    constructor
    · intro hy; exact Or.inl hy
    · rintro (hy | rfl)
      · exact hy
      · exact hx
  · simp

theorem consistent_empty : ({} : DeviceDB).Consistent :=
  ⟨List.nodup_nil, List.nodup_nil, fun _ hd => (by cases hd), fun _ hg => (by cases hg)⟩

theorem Consistent.add_device {db : DeviceDB} (h : db.Consistent) (a p : Nat) (n : String) :
    (db.add_device a p n).2.Consistent := by
  unfold DeviceDB.add_device
  split
  · exact h
  · rename_i hf
    have hna : ∀ d ∈ db.devices_, d.avion_id ≠ a := by
      intro d hd hda
      exact hf ((find_device_isSome_iff db a).mpr ⟨d, hd, hda⟩)
    refine ⟨?_, h.grp_nodup, ?_, ?_⟩
    · simp only [save_devices_, List.map_append, List.map_cons, List.map_nil]
      rw [List.nodup_append]
      refine ⟨h.dev_nodup, List.nodup_singleton _, ?_⟩
      intro x hx hx2
      rw [List.mem_singleton] at hx2
      obtain ⟨d, hd, rfl⟩ := List.mem_map.mp hx
      exact hna d hd hx2
    · intro d hd gid hgid
      simp only [save_devices_, List.mem_append, List.mem_singleton] at hd
      rcases hd with hd | rfl
      · exact h.dev_to_grp d hd gid hgid
      · cases hgid
    · intro g hg m hm
      obtain ⟨d, hd, hdm, hgd⟩ := h.grp_to_dev g hg m hm
      exact ⟨d, by simp [hd], hdm, hgd⟩

theorem Consistent.add_group {db : DeviceDB} (h : db.Consistent) (a : Nat) (n : String) :
    (db.add_group a n).2.Consistent := by
  unfold DeviceDB.add_group
  split
  · exact h
  · rename_i hf
    have hna : ∀ g ∈ db.groups_, g.group_id ≠ a := by
      intro g hg hga
      exact hf ((find_group_isSome_iff db a).mpr ⟨g, hg, hga⟩)
    refine ⟨h.dev_nodup, ?_, ?_, ?_⟩
    · simp only [save_groups_, List.map_append, List.map_cons, List.map_nil]
      rw [List.nodup_append]
      refine ⟨h.grp_nodup, List.nodup_singleton _, ?_⟩
      intro x hx hx2
      rw [List.mem_singleton] at hx2
      obtain ⟨g, hg, rfl⟩ := List.mem_map.mp hx
      exact hna g hg hx2
    · intro d hd gid hgid
      obtain ⟨g, hg, hgm, hdg⟩ := h.dev_to_grp d hd gid hgid
      exact ⟨g, by simp [hg], hgm, hdg⟩
    · intro g hg m hm
      simp only [save_groups_, List.mem_append, List.mem_singleton] at hg
      rcases hg with hg | rfl
      · exact h.grp_to_dev g hg m hm
      · cases hm

theorem Consistent.remove_device {db : DeviceDB} (h : db.Consistent) (a : Nat) :
    (db.remove_device a).2.Consistent := by
  unfold DeviceDB.remove_device
  simp only
  split
  · exact h
  · refine ⟨?_, ?_, ?_, ?_⟩
    · exact List.Nodup.sublist ((List.filter_sublist _).map _) h.dev_nodup
    · simpa [List.map_map, Function.comp_def] using h.grp_nodup
    · intro d hd gid hgid
      simp only [save_devices_, List.mem_filter] at hd
      obtain ⟨g, hg, hgm, hdg⟩ := h.dev_to_grp d hd.1 gid hgid
      refine ⟨{ g with member_ids := g.member_ids.filter (fun m => !(m == a)) }, ?_, hgm, ?_⟩
      · exact List.mem_map.mpr ⟨g, hg, rfl⟩
      · simpa [List.mem_filter, hdg] using hd.2
    · intro g hg m hm
      simp only [save_groups_, List.mem_map] at hg
      obtain ⟨g0, hg0, rfl⟩ := hg
      simp only [List.mem_filter] at hm
      obtain ⟨d, hd, hdm, hgd⟩ := h.grp_to_dev g0 hg0 m hm.1
      refine ⟨d, ?_, hdm, hgd⟩
      simp only [save_devices_, List.mem_filter]
      refine ⟨hd, ?_⟩
      rw [hdm]; exact hm.2

theorem Consistent.remove_group {db : DeviceDB} (h : db.Consistent) (a : Nat) :
    (db.remove_group a).2.Consistent := by
  unfold DeviceDB.remove_group
  simp only
  split
  · exact h
  · refine ⟨?_, ?_, ?_, ?_⟩
    · simpa [List.map_map, Function.comp_def] using h.dev_nodup
    · exact List.Nodup.sublist ((List.filter_sublist _).map _) h.grp_nodup
    · intro d hd gid hgid
      simp only [save_devices_, List.mem_map] at hd
      obtain ⟨d0, hd0, rfl⟩ := hd
      simp only [List.mem_filter] at hgid
      obtain ⟨g, hg, hgm, hdg⟩ := h.dev_to_grp d0 hd0 gid hgid.1
      refine ⟨g, ?_, hgm, hdg⟩
      simp only [save_groups_, List.mem_filter]
      refine ⟨hg, ?_⟩
      rw [hgm]; exact hgid.2
    · intro g hg m hm
      simp only [save_groups_, List.mem_filter] at hg
      obtain ⟨d, hd, hdm, hgd⟩ := h.grp_to_dev g hg.1 m hm
      refine ⟨{ d with groups := d.groups.filter (fun x => !(x == a)) }, ?_, hdm, ?_⟩
      · exact List.mem_map.mpr ⟨d, hd, rfl⟩
      · simpa [List.mem_filter, hgd] using hg.2

theorem Consistent.add_device_to_group {db : DeviceDB} (h : db.Consistent) (a gid : Nat) :
    (db.add_device_to_group a gid).2.Consistent := by
  unfold DeviceDB.add_device_to_group
  split
  · exact h
  · rename_i hf
    simp only [Bool.or_eq_true, not_or, Option.isNone_iff_eq_none, ← Option.not_isSome_iff_eq_none,
      not_not] at hf
    obtain ⟨d0, hd0, hd0a⟩ := (find_device_isSome_iff db a).mp hf.1
    obtain ⟨g0, hg0, hg0g⟩ := (find_group_isSome_iff db gid).mp hf.2
    simp only [save_devices_, save_groups_, modify_device_eq_map _ a _ h.dev_nodup,
      modify_group_eq_map _ gid _ h.grp_nodup]
    refine ⟨?_, ?_, ?_, ?_⟩
    · have : (fun d : DeviceEntry => d.avion_id) ∘
          (fun d => if d.avion_id = a then
            { d with groups := push_back_unique d.groups gid } else d) =
          fun d => d.avion_id := by
        funext d; simp only [Function.comp]; split <;> rfl
      simpa [List.map_map, this] using h.dev_nodup
    · have : (fun g : GroupEntry => g.group_id) ∘
          (fun g => if g.group_id = gid then
            { g with member_ids := push_back_unique g.member_ids a } else g) =
          fun g => g.group_id := by
        funext g; simp only [Function.comp]; split <;> rfl
      simpa [List.map_map, this] using h.grp_nodup
    · intro d hd x hx
      obtain ⟨d1, hd1, rfl⟩ := List.mem_map.mp hd
      have key : ∀ g ∈ db.groups_, g.group_id = x → d1.avion_id ∈ g.member_ids →
          ∃ g2 ∈ List.map (fun g => if g.group_id = gid then
              { g with member_ids := push_back_unique g.member_ids a } else g) db.groups_,
            g2.group_id = x ∧ d1.avion_id ∈ g2.member_ids := by
        intro g hg hgx hm
        refine ⟨_, List.mem_map.mpr ⟨g, hg, rfl⟩, ?_, ?_⟩
        · split <;> exact hgx
        · split
          · exact (mem_push_back_unique _ _ _).mpr (Or.inl hm)
          · exact hm
      by_cases hda : d1.avion_id = a
      · simp only [hda, if_true] at hx ⊢
        rcases (mem_push_back_unique _ _ _).mp hx with hx | rfl
        · obtain ⟨g, hg, hgx, hm⟩ := h.dev_to_grp d1 hd1 x hx
          rw [hda] at hm
          have := key g hg hgx (by rw [hda]; exact hm)
          rw [hda] at this
          exact this
        · refine ⟨_, List.mem_map.mpr ⟨g0, hg0, rfl⟩, ?_, ?_⟩
          · simp [hg0g]
          · simp only [hg0g, if_true]
            exact (mem_push_back_unique _ _ _).mpr (Or.inr rfl)
      · simp only [hda, if_false] at hx ⊢
        obtain ⟨g, hg, hgx, hm⟩ := h.dev_to_grp d1 hd1 x hx
        exact key g hg hgx hm
    · intro g hg x hx
      obtain ⟨g1, hg1, rfl⟩ := List.mem_map.mp hg
      have key : ∀ d ∈ db.devices_, d.avion_id = x → g1.group_id ∈ d.groups →
          ∃ d2 ∈ List.map (fun d => if d.avion_id = a then
              { d with groups := push_back_unique d.groups gid } else d) db.devices_,
            d2.avion_id = x ∧ g1.group_id ∈ d2.groups := by
        intro d hd hdx hm
        refine ⟨_, List.mem_map.mpr ⟨d, hd, rfl⟩, ?_, ?_⟩
        · split <;> exact hdx
        · split
          · exact (mem_push_back_unique _ _ _).mpr (Or.inl hm)
          · exact hm
      by_cases hga : g1.group_id = gid
      · simp only [hga, if_true] at hx ⊢
        rcases (mem_push_back_unique _ _ _).mp hx with hx | rfl
        · obtain ⟨d, hd, hdx, hm⟩ := h.grp_to_dev g1 hg1 x hx
          have := key d hd hdx hm
          rw [hga] at this
          exact this
        · refine ⟨_, List.mem_map.mpr ⟨d0, hd0, rfl⟩, ?_, ?_⟩
          · simp [hd0a]
          · simp only [hd0a, if_true]
            exact (mem_push_back_unique _ _ _).mpr (Or.inr rfl)
      · simp only [hga, if_false] at hx ⊢
        obtain ⟨d, hd, hdx, hm⟩ := h.grp_to_dev g1 hg1 x hx
        exact key d hd hdx hm

theorem Consistent.remove_device_from_group {db : DeviceDB} (h : db.Consistent)
    (a gid : Nat) : (db.remove_device_from_group a gid).2.Consistent := by
  unfold DeviceDB.remove_device_from_group
  split
  · exact h
  · simp only [save_devices_, save_groups_, modify_device_eq_map _ a _ h.dev_nodup,
      modify_group_eq_map _ gid _ h.grp_nodup]
    refine ⟨?_, ?_, ?_, ?_⟩
    · have : (fun d : DeviceEntry => d.avion_id) ∘
          (fun d => if d.avion_id = a then
            { d with groups := d.groups.filter (fun x => !(x == gid)) } else d) =
          fun d => d.avion_id := by
        funext d; simp only [Function.comp]; split <;> rfl
      simpa [List.map_map, this] using h.dev_nodup
    · have : (fun g : GroupEntry => g.group_id) ∘
          (fun g => if g.group_id = gid then
            { g with member_ids := g.member_ids.filter (fun m => !(m == a)) } else g) =
          fun g => g.group_id := by
        funext g; simp only [Function.comp]; split <;> rfl
      simpa [List.map_map, this] using h.grp_nodup
    · intro d hd x hx
      obtain ⟨d1, hd1, rfl⟩ := List.mem_map.mp hd
      by_cases hda : d1.avion_id = a
      · simp only [hda, if_true, List.mem_filter] at hx ⊢
        obtain ⟨g, hg, hgx, hm⟩ := h.dev_to_grp d1 hd1 x hx.1
        have hne : ¬ g.group_id = gid := by
          rw [hgx]; simpa using hx.2
        refine ⟨_, List.mem_map.mpr ⟨g, hg, rfl⟩, ?_, ?_⟩
        · rw [if_neg hne]; exact hgx
        · simp only [hne, if_false]; rw [← hda]; exact hm
      · simp only [hda, if_false] at hx ⊢
        obtain ⟨g, hg, hgx, hm⟩ := h.dev_to_grp d1 hd1 x hx
        refine ⟨_, List.mem_map.mpr ⟨g, hg, rfl⟩, ?_, ?_⟩
        · split <;> exact hgx
        · split
          · simp only [List.mem_filter]
            exact ⟨hm, by simpa using hda⟩
          · exact hm
    · intro g hg x hx
      obtain ⟨g1, hg1, rfl⟩ := List.mem_map.mp hg
      by_cases hga : g1.group_id = gid
      · simp only [hga, if_true, List.mem_filter] at hx ⊢
        obtain ⟨d, hd, hdx, hm⟩ := h.grp_to_dev g1 hg1 x hx.1
        have hne : ¬ d.avion_id = a := by
          rw [hdx]; simpa using hx.2
        refine ⟨_, List.mem_map.mpr ⟨d, hd, rfl⟩, ?_, ?_⟩
        · rw [if_neg hne]; exact hdx
        · simp only [hne, if_false]; rw [← hga]; exact hm
      · simp only [hga, if_false] at hx ⊢
        obtain ⟨d, hd, hdx, hm⟩ := h.grp_to_dev g1 hg1 x hx
        refine ⟨_, List.mem_map.mpr ⟨d, hd, rfl⟩, ?_, ?_⟩
        · split <;> exact hdx
        · split
          · simp only [List.mem_filter]
            exact ⟨hm, by simpa using hga⟩
          · exact hm

end DeviceDB

theorem DbOp.apply_consistent {db : DeviceDB} (h : db.Consistent) (op : DbOp) :
    (op.apply db).Consistent := by
  cases op with
  | add_device a p n => exact h.add_device a p n
  | remove_device a => exact h.remove_device a
  | add_group g n => exact h.add_group g n
  | remove_group g => exact h.remove_group g
  | add_device_to_group a g => exact h.add_device_to_group a g
  | remove_device_from_group a g => exact h.remove_device_from_group a g

theorem foldl_apply_consistent (ops : List DbOp) :
    ∀ db : DeviceDB, db.Consistent → (ops.foldl DbOp.apply db).Consistent := by
  induction ops with
  | nil => intro db h; exact h
  | cons op ops ih => intro db h; exact ih _ (DbOp.apply_consistent h op)

theorem run_ops_consistent (ops : List DbOp) : (run_ops ops).Consistent :=
  foldl_apply_consistent ops _ DeviceDB.consistent_empty

/-! ## Registry: removal and referential integrity -/

/-- C9: for every registry state, when a device with id `a` is present,
`remove_device(a)` returns true and afterwards no device with id `a` remains and `a`
occurs in no group's `member_ids`; when no device has id `a`, it returns false and the
registry (devices, groups, and everything else) is unchanged. -/
theorem remove_device_leaves_no_membership (db : DeviceDB) (a : Nat) :
    ((∃ d ∈ db.devices_, d.avion_id = a) →
      (db.remove_device a).1 = true ∧
      (∀ d ∈ (db.remove_device a).2.devices_, d.avion_id ≠ a) ∧
      (∀ g ∈ (db.remove_device a).2.groups_, a ∉ g.member_ids)) ∧
    ((¬ ∃ d ∈ db.devices_, d.avion_id = a) →
      db.remove_device a = (false, db)) := by
  have hlen : (db.devices_.filter (fun d => !(d.avion_id == a))).length = db.devices_.length ↔
      ¬ ∃ d ∈ db.devices_, d.avion_id = a := by
    rw [List.filter_length_eq_length]
    simp
  constructor
  · intro hpresent
    have hne : ¬ (db.devices_.filter (fun d => !(d.avion_id == a))).length
        = db.devices_.length := fun h => (hlen.mp h) hpresent
    unfold DeviceDB.remove_device
    simp only [hne, if_false, DeviceDB.save_devices_, DeviceDB.save_groups_]
    refine ⟨trivial, ?_, ?_⟩
    · intro d hd
      have := (List.mem_filter.mp hd).2
      simpa using this
    · intro g hg hmem
      obtain ⟨g0, _, rfl⟩ := List.mem_map.mp hg
      have := (List.mem_filter.mp hmem).2
      simp at this
  · intro habsent
    unfold DeviceDB.remove_device
    simp only [hlen.mpr habsent, if_true]

/-- Witness for C9: removing device 100 from a registry where it is a member of group 256,
and removing the absent id 7. -/
theorem remove_device_leaves_no_membership_witness :
    ((db_two_lamps.remove_device 100).1 = true ∧
      (∀ d ∈ (db_two_lamps.remove_device 100).2.devices_, d.avion_id ≠ 100) ∧
      (∀ g ∈ (db_two_lamps.remove_device 100).2.groups_, 100 ∉ g.member_ids)) ∧
    db_two_lamps.remove_device 7 = (false, db_two_lamps) :=
  ⟨(remove_device_leaves_no_membership db_two_lamps 100).1 (by decide),
   (remove_device_leaves_no_membership db_two_lamps 7).2 (by decide)⟩

/-- C10: in every registry state reached from the empty registry by a sequence of
`add_device`, `remove_device`, `add_group`, `remove_group`, `add_device_to_group` and
`remove_device_from_group`, a group's id is in a device's `groups` exactly when the
device's id is in the group's `member_ids`, every id in a device's `groups` is the id of
a registered group, and every id in a group's `member_ids` is the id of a registered
device. -/
theorem membership_lists_agree (ops : List DbOp) :
    (∀ d ∈ (run_ops ops).devices_, ∀ g ∈ (run_ops ops).groups_,
      (g.group_id ∈ d.groups ↔ d.avion_id ∈ g.member_ids)) ∧
    (∀ d ∈ (run_ops ops).devices_, ∀ gid ∈ d.groups,
      ∃ g ∈ (run_ops ops).groups_, g.group_id = gid) ∧
    (∀ g ∈ (run_ops ops).groups_, ∀ m ∈ g.member_ids,
      ∃ d ∈ (run_ops ops).devices_, d.avion_id = m) := by
  have h := run_ops_consistent ops
  refine ⟨?_, ?_, ?_⟩
  · intro d hd g hg
    constructor
    · intro hmem
      obtain ⟨g2, hg2, hid, hm⟩ := h.dev_to_grp d hd _ hmem
      have : g2 = g := List.inj_on_of_nodup_map h.grp_nodup hg2 hg hid
      rw [← this]; exact hm
    · intro hmem
      obtain ⟨d2, hd2, hid, hm⟩ := h.grp_to_dev g hg _ hmem
      have : d2 = d := List.inj_on_of_nodup_map h.dev_nodup hd2 hd hid
      rw [← this]; exact hm
  · intro d hd gid hgid
    obtain ⟨g, hg, hid, _⟩ := h.dev_to_grp d hd gid hgid
    exact ⟨g, hg, hid⟩
  · intro g hg m hm
    obtain ⟨d, hd, hid, _⟩ := h.grp_to_dev g hg m hm
    exact ⟨d, hd, hid⟩

/-! ## Bridge connection state machine -/

/-- C1 (the code departs from the claim): started without a passphrase, the hub that
connects to a bridge and finds both characteristics ends in state Ready with
`mesh_initialized_` true although `crypto_initialized_` is false;
`update_mesh_initialized` would compute false in that state. -/
theorem mesh_initialized_without_crypto :
    ((AvionMeshHub.setup env_plain {}).handle_all
        events_connect_without_passphrase).ble_state_ = BleState.Ready ∧
    ((AvionMeshHub.setup env_plain {}).handle_all
        events_connect_without_passphrase).mesh_initialized_ = true ∧
    ((AvionMeshHub.setup env_plain {}).handle_all
        events_connect_without_passphrase).crypto_initialized_ = false ∧
    (AvionMeshHub.update_mesh_initialized ((AvionMeshHub.setup env_plain {}).handle_all
        events_connect_without_passphrase)).mesh_initialized_ = false := by
  decide

/-- In state Scanning, a scan result record that carries the bridge service UUID replaces
the best candidate exactly when its RSSI is strictly greater than the best so far. -/
theorem scan_result_step (s : AvionMeshHub) (now : Nat) (r : BLEScanResult)
    (hs : s.ble_state_ = BleState.Scanning)
    (hr : r.search_evt = SearchEvt.INQ_RES_EVT) (hu : carries_bridge_uuid r = true) :
    s.gap_scan_event_handler now r =
      if r.rssi > s.best_rssi_ then { s with best_rssi_ := r.rssi, bridge_bda_ := r.bda }
      else s := by
  simp [AvionMeshHub.gap_scan_event_handler, hs, hr, hu]

/-- The fold of `gap_scan_event_handler` over bridge advertisements keeps the state
Scanning, makes no collaborator call, and either leaves the best candidate as it was
(no record is stronger) or ends with the first strongest record. -/
theorem scan_fold_best (now : Nat) :
    ∀ (advs : List BLEScanResult) (s : AvionMeshHub),
      s.ble_state_ = BleState.Scanning →
      (∀ r ∈ advs, r.search_evt = SearchEvt.INQ_RES_EVT ∧ carries_bridge_uuid r = true) →
      (advs.foldl (fun acc r => acc.gap_scan_event_handler now r) s).ble_state_
          = BleState.Scanning ∧
      (advs.foldl (fun acc r => acc.gap_scan_event_handler now r) s).out_ = s.out_ ∧
      (advs.foldl (fun acc r => acc.gap_scan_event_handler now r) s).gattc_if_
          = s.gattc_if_ ∧
      (((∀ r ∈ advs, r.rssi ≤ s.best_rssi_) ∧
          (advs.foldl (fun acc r => acc.gap_scan_event_handler now r) s).best_rssi_
            = s.best_rssi_ ∧
          (advs.foldl (fun acc r => acc.gap_scan_event_handler now r) s).bridge_bda_
            = s.bridge_bda_) ∨
        ∃ pre best post, advs = pre ++ best :: post ∧ s.best_rssi_ < best.rssi ∧
          (∀ r ∈ pre, r.rssi < best.rssi) ∧ (∀ r ∈ post, r.rssi ≤ best.rssi) ∧
          (advs.foldl (fun acc r => acc.gap_scan_event_handler now r) s).best_rssi_
            = best.rssi ∧
          (advs.foldl (fun acc r => acc.gap_scan_event_handler now r) s).bridge_bda_
            = best.bda) := by
  intro advs
  induction advs with
  | nil =>
    intro s hs _
    refine ⟨hs, rfl, rfl, Or.inl ⟨?_, rfl, rfl⟩⟩
    intro r hr; cases hr
  | cons r rest ih =>
    intro s hs hall
    have hr := hall r (List.mem_cons_self _ _)
    have hrest : ∀ x ∈ rest, x.search_evt = SearchEvt.INQ_RES_EVT ∧
        carries_bridge_uuid x = true := fun x hx => hall x (List.mem_cons_of_mem _ hx)
    rw [List.foldl_cons, scan_result_step s now r hs hr.1 hr.2]
    by_cases hgt : r.rssi > s.best_rssi_
    · rw [if_pos hgt]
      obtain ⟨h1, h2, h3, h4⟩ :=
        ih { s with best_rssi_ := r.rssi, bridge_bda_ := r.bda } hs hrest
      refine ⟨h1, h2, h3, Or.inr ?_⟩
      rcases h4 with ⟨hle, hb, ha⟩ | ⟨pre, best, post, hsplit, hlt, hpre, hpost, hb, ha⟩
      · exact ⟨[], r, rest, rfl, hgt, fun x hx => (by cases hx), hle, hb, ha⟩
      · refine ⟨r :: pre, best, post, by rw [hsplit]; rfl, lt_trans hgt hlt, ?_, hpost, hb, ha⟩
        intro x hx
        rcases List.mem_cons.mp hx with rfl | hx
        · exact hlt
        · exact hpre x hx
    · rw [if_neg hgt]
      obtain ⟨h1, h2, h3, h4⟩ := ih s hs hrest
      refine ⟨h1, h2, h3, ?_⟩
      rcases h4 with ⟨hle, hb, ha⟩ | ⟨pre, best, post, hsplit, hlt, hpre, hpost, hb, ha⟩
      · left
        refine ⟨?_, hb, ha⟩
        intro x hx
        rcases List.mem_cons.mp hx with rfl | hx
        · exact not_lt.mp hgt
        · exact hle x hx
      · right
        refine ⟨r :: pre, best, post, by rw [hsplit]; rfl, hlt, ?_, hpost, hb, ha⟩
        intro x hx
        rcases List.mem_cons.mp hx with rfl | hx
        · exact lt_of_le_of_lt (not_lt.mp hgt) hlt
        · exact hpre x hx

/-- C2: for every non-empty sequence of bridge advertisements (scan result records that
carry service UUID 0xFEF1, each with a signed 8-bit RSSI) delivered between `start_scan`
and the completion of the scan, the completion makes the hub open a connection to the
address of the first record whose RSSI is the maximum of the sequence: every earlier
record is strictly weaker and no later record is stronger. The only collaborator calls of
the sweep are the setting of the scan parameters and that connection. -/
theorem connect_to_best_first_strongest (s : AvionMeshHub) (now now2 : Nat)
    (advs : List BLEScanResult) (cmpl : BLEScanResult)
    (hne : advs ≠ [])
    (hadv : ∀ r ∈ advs, r.search_evt = SearchEvt.INQ_RES_EVT ∧
      carries_bridge_uuid r = true ∧ -128 ≤ r.rssi ∧ r.rssi ≤ 127)
    (hc : cmpl.search_evt = SearchEvt.INQ_CMPL_EVT) :
    ∃ pre best post, advs = pre ++ best :: post ∧
      (∀ r ∈ pre, r.rssi < best.rssi) ∧ (∀ r ∈ post, r.rssi ≤ best.rssi) ∧
      ((s.scan_sweep now advs).gap_scan_event_handler now2 cmpl).ble_state_
        = BleState.Connecting ∧
      ((s.scan_sweep now advs).gap_scan_event_handler now2 cmpl).bridge_bda_ = best.bda ∧
      ((s.scan_sweep now advs).gap_scan_event_handler now2 cmpl).out_
        = s.out_ ++ [Effect.gap_set_scan_params, Effect.gattc_open s.gattc_if_ best.bda] := by
  have hstart : (s.start_scan now).ble_state_ = BleState.Scanning := rfl
  obtain ⟨h1, h2, h3, h4⟩ := scan_fold_best now advs (s.start_scan now) hstart
    (fun r hr => ⟨(hadv r hr).1, (hadv r hr).2.1⟩)
  have hbest0 : (s.start_scan now).best_rssi_ = -999 := rfl
  rcases h4 with ⟨hle, _, _⟩ | ⟨pre, best, post, hsplit, hlt, hpre, hpost, hb, ha⟩
  · exfalso
    cases advs with
    | nil => exact hne rfl
    | cons r rest =>
      have h := hle r (List.mem_cons_self _ _)
      have h128 := (hadv r (List.mem_cons_self _ _)).2.2.1
      rw [hbest0] at h
      omega
  · refine ⟨pre, best, post, hsplit, hpre, hpost, ?_⟩
    have hb999 : ¬ (s.scan_sweep now advs).best_rssi_ = -999 := by
      have h128 := (hadv best (by rw [hsplit]; simp)).2.2.1
      unfold AvionMeshHub.scan_sweep
      rw [hb]; omega
    have hfinal : (s.scan_sweep now advs).gap_scan_event_handler now2 cmpl =
        ({ (s.scan_sweep now advs) with ble_state_ := BleState.Connecting }).emit
          (.gattc_open (s.scan_sweep now advs).gattc_if_ (s.scan_sweep now advs).bridge_bda_) := by
      have hsc : (s.scan_sweep now advs).ble_state_ = BleState.Scanning := h1
      simp [AvionMeshHub.gap_scan_event_handler, hc, AvionMeshHub.stop_scan_and_connect, hsc,
        AvionMeshHub.connect_to_best, hb999]
    rw [hfinal]
    have hgi : (s.scan_sweep now advs).gattc_if_ = s.gattc_if_ := h3
    have hbd : (s.scan_sweep now advs).bridge_bda_ = best.bda := ha
    have hout : (s.scan_sweep now advs).out_ = s.out_ ++ [Effect.gap_set_scan_params] := h2
    refine ⟨rfl, hbd, ?_⟩
    simp [AvionMeshHub.emit, hgi, hbd, hout]

/-- Witness for C2: three bridges answer with RSSI -70, -55 and -55; the hub connects to
the second one, the first of the two strongest. -/
theorem connect_to_best_first_strongest_witness :
    ∃ pre best post,
      [adv_bridge [1, 1, 1, 1, 1, 1] (-70), adv_bridge [2, 2, 2, 2, 2, 2] (-55),
        adv_bridge [3, 3, 3, 3, 3, 3] (-55)] = pre ++ best :: post ∧
      (∀ r ∈ pre, r.rssi < best.rssi) ∧ (∀ r ∈ post, r.rssi ≤ best.rssi) ∧
      (((AvionMeshHub.scan_sweep {} 1000
          [adv_bridge [1, 1, 1, 1, 1, 1] (-70), adv_bridge [2, 2, 2, 2, 2, 2] (-55),
            adv_bridge [3, 3, 3, 3, 3, 3] (-55)]).gap_scan_event_handler 6000
          scan_complete).ble_state_ = BleState.Connecting) ∧
      (((AvionMeshHub.scan_sweep {} 1000
          [adv_bridge [1, 1, 1, 1, 1, 1] (-70), adv_bridge [2, 2, 2, 2, 2, 2] (-55),
            adv_bridge [3, 3, 3, 3, 3, 3] (-55)]).gap_scan_event_handler 6000
          scan_complete).bridge_bda_ = best.bda) ∧
      (((AvionMeshHub.scan_sweep {} 1000
          [adv_bridge [1, 1, 1, 1, 1, 1] (-70), adv_bridge [2, 2, 2, 2, 2, 2] (-55),
            adv_bridge [3, 3, 3, 3, 3, 3] (-55)]).gap_scan_event_handler 6000
          scan_complete).out_
        = ({} : AvionMeshHub).out_ ++
          [Effect.gap_set_scan_params,
            Effect.gattc_open ({} : AvionMeshHub).gattc_if_ best.bda]) :=
  connect_to_best_first_strongest {} 1000 6000
    [adv_bridge [1, 1, 1, 1, 1, 1] (-70), adv_bridge [2, 2, 2, 2, 2, 2] (-55),
      adv_bridge [3, 3, 3, 3, 3, 3] (-55)] scan_complete (by decide) (by decide) (by decide)

theorem update_mesh_initialized_ble_state (s : AvionMeshHub) :
    s.update_mesh_initialized.ble_state_ = s.ble_state_ ∧
    s.update_mesh_initialized.reconnect_at_ms_ = s.reconnect_at_ms_ ∧
    s.update_mesh_initialized.associating_ = s.associating_ ∧
    s.update_mesh_initialized.char_low_handle_ = s.char_low_handle_ ∧
    s.update_mesh_initialized.char_high_handle_ = s.char_high_handle_ := by
  unfold AvionMeshHub.update_mesh_initialized
  simp only
  split <;> simp [AvionMeshHub.emit]

theorem on_disconnected_state (s : AvionMeshHub) (now : Nat) :
    (s.on_disconnected now).ble_state_ = BleState.Disconnected ∧
    (s.on_disconnected now).reconnect_at_ms_ = (now + RECONNECT_DELAY_MS) % 2 ^ 32 ∧
    (s.on_disconnected now).associating_ = false ∧
    (s.on_disconnected now).char_low_handle_ = 0 ∧
    (s.on_disconnected now).char_high_handle_ = 0 := by
  unfold AvionMeshHub.on_disconnected
  simp only [update_mesh_initialized_ble_state]
  refine ⟨trivial, trivial, ?_, ?_, ?_⟩ <;> split <;> simp_all [AvionMeshHub.emit]

theorem discovery_without_handle (s : AvionMeshHub) (now : Nat) (low high : Option Nat)
    (h : low.getD s.char_low_handle_ = 0 ∨ high.getD s.char_high_handle_ = 0) :
    (s.on_service_discovery_complete now low high).ble_state_ = BleState.Disconnected ∧
    (s.on_service_discovery_complete now low high).reconnect_at_ms_
      = (now + 3000) % 2 ^ 32 := by
  unfold AvionMeshHub.on_service_discovery_complete
  simp only
  split
  · rename_i hc
    exfalso
    cases low <;> cases high <;> simp_all
  · exact ⟨(on_disconnected_state _ now).1, (on_disconnected_state _ now).2.1⟩

/-- C3: every failure path of the bridge connection state machine (scan-parameter
failure, scan completion with no candidate, connection-open failure, service discovery
that leaves the hub without a handle for one of the characteristics, link drop), taken in
any state whatever happened before, leaves `ble_state_` equal to Disconnected and
`reconnect_at_ms_` equal to the clock value plus 3000 modulo 2^32. -/
theorem failure_paths_schedule_reconnect (s : AvionMeshHub) (now : Nat) (ev : HubEvent)
    (h : FailurePath s ev) :
    (s.handle now ev).ble_state_ = BleState.Disconnected ∧
    (s.handle now ev).reconnect_at_ms_ = (now + 3000) % 2 ^ 32 := by
  cases h with
  | scan_param_failure => exact ⟨rfl, rfl⟩
  | no_candidate r hc hs hb =>
    simp [AvionMeshHub.handle, AvionMeshHub.gap_scan_event_handler, hc,
      AvionMeshHub.stop_scan_and_connect, hs, AvionMeshHub.connect_to_best, hb,
      RECONNECT_DELAY_MS]
  | open_failure gattc_if conn_id =>
    have := on_disconnected_state s now
    simp only [AvionMeshHub.handle, AvionMeshHub.gattc_event_handler]
    exact ⟨this.1, this.2.1⟩
  | missing_characteristic gattc_if low high hmiss =>
    simp only [AvionMeshHub.handle, AvionMeshHub.gattc_event_handler]
    exact discovery_without_handle s now low high hmiss
  | link_drop gattc_if reason =>
    have := on_disconnected_state s now
    simp only [AvionMeshHub.handle, AvionMeshHub.gattc_event_handler]
    exact ⟨this.1, this.2.1⟩

/-- Witness for C3: service discovery that finds only the HIGH characteristic, one
millisecond before the clock wraps. -/
theorem failure_paths_schedule_reconnect_witness :
    (({} : AvionMeshHub).handle 4294967295
        (.gattc 3 (.SEARCH_CMPL_EVT none (some 36)))).ble_state_ = BleState.Disconnected ∧
    (({} : AvionMeshHub).handle 4294967295
        (.gattc 3 (.SEARCH_CMPL_EVT none (some 36)))).reconnect_at_ms_
      = (4294967295 + 3000) % 2 ^ 32 :=
  failure_paths_schedule_reconnect {} 4294967295 (.gattc 3 (.SEARCH_CMPL_EVT none (some 36)))
    (FailurePath.missing_characteristic {} 3 none (some 36) (Or.inl rfl))

/-- C4: when `on_disconnected` runs at clock value `now` (a 32-bit value) while an
association is in flight, afterwards `associating_` is false, both characteristic handles
are 0, `ble_state_` is Disconnected and `reconnect_at_ms_` is the 32-bit sum `now + 3000`
(which is `now + 3000` itself unless that sum wraps); the calls made are the cancellation
of the association on the mesh context, followed by at most one web event, and no
management response at all. -/
theorem disconnect_cancels_association (s : AvionMeshHub) (now : Nat)
    (ha : s.associating_ = true) :
    (s.on_disconnected now).associating_ = false ∧
    (s.on_disconnected now).char_low_handle_ = 0 ∧
    (s.on_disconnected now).char_high_handle_ = 0 ∧
    (s.on_disconnected now).ble_state_ = BleState.Disconnected ∧
    (s.on_disconnected now).reconnect_at_ms_ = (now + 3000) % 2 ^ 32 ∧
    (now + 3000 < 2 ^ 32 → (s.on_disconnected now).reconnect_at_ms_ = now + 3000) ∧
    ∃ calls, (s.on_disconnected now).out_ = s.out_ ++ Effect.associate_cancel :: calls ∧
      (∀ e ∈ calls, ∃ data, e = Effect.send_event "meta" data) ∧
      (∀ payload, Effect.send_response payload ∉ Effect.associate_cancel :: calls) := by
  have hst := on_disconnected_state s now
  refine ⟨hst.2.2.1, hst.2.2.2.1, hst.2.2.2.2, hst.1, hst.2.1, ?_, ?_⟩
  · intro hlt
    rw [hst.2.1]
    exact Nat.mod_eq_of_lt hlt
  · unfold AvionMeshHub.on_disconnected AvionMeshHub.update_mesh_initialized
    simp only [ha, if_true, AvionMeshHub.emit]
    split
    · refine ⟨[_], by rw [List.append_assoc]; rfl, ?_, ?_⟩
      · intro e he
        rw [List.mem_singleton] at he
        exact ⟨_, he⟩
      · intro payload hmem
        simp at hmem
    · refine ⟨[], rfl, ?_, ?_⟩
      · intro e he; cases he
      · intro payload hmem
        simp at hmem

/-- Witness for C4: the link drops at clock value 9000 during the association of
`hub_associating`. -/
theorem disconnect_cancels_association_witness :
    (hub_associating.on_disconnected 9000).associating_ = false ∧
    (hub_associating.on_disconnected 9000).char_low_handle_ = 0 ∧
    (hub_associating.on_disconnected 9000).char_high_handle_ = 0 ∧
    (hub_associating.on_disconnected 9000).ble_state_ = BleState.Disconnected ∧
    (hub_associating.on_disconnected 9000).reconnect_at_ms_ = (9000 + 3000) % 2 ^ 32 ∧
    (9000 + 3000 < 2 ^ 32 → (hub_associating.on_disconnected 9000).reconnect_at_ms_
      = 9000 + 3000) ∧
    ∃ calls, (hub_associating.on_disconnected 9000).out_
        = hub_associating.out_ ++ Effect.associate_cancel :: calls ∧
      (∀ e ∈ calls, ∃ data, e = Effect.send_event "meta" data) ∧
      (∀ payload, Effect.send_response payload ∉ Effect.associate_cancel :: calls) :=
  disconnect_cancels_association hub_associating 9000 rfl

/-- C5: a call of `handle_claim_device` made while an association is in flight makes one
collaborator call, the response
`{"action":"claim_device","status":"error","message":"busy"}`, and changes no member of
the hub: the registry, `associating_` and `association_start_ms_` are as before, and the
association context is not touched (no protocol or association call is made). -/
theorem claim_while_associating_is_busy (env : Env) (s : AvionMeshHub) (now : Nat)
    (uuid_hash device_id : Nat) (name : String) (product_type : Nat)
    (ha : s.associating_ = true) :
    s.handle_claim_device env now uuid_hash device_id name product_type =
      { s with out_ := s.out_ ++ [Effect.send_response
        "\x7b\"action\":\"claim_device\",\"status\":\"error\",\"message\":\"busy\"\x7d"] } ∧
    (s.handle_claim_device env now uuid_hash device_id name product_type).db_ = s.db_ ∧
    (s.handle_claim_device env now uuid_hash device_id name product_type).associating_
      = s.associating_ ∧
    (s.handle_claim_device env now uuid_hash device_id name product_type).association_start_ms_
      = s.association_start_ms_ := by
  have h : s.handle_claim_device env now uuid_hash device_id name product_type =
      { s with out_ := s.out_ ++ [Effect.send_response
        "\x7b\"action\":\"claim_device\",\"status\":\"error\",\"message\":\"busy\"\x7d"] } := by
    unfold AvionMeshHub.handle_claim_device
    rw [if_pos ha]
    rfl
  rw [h]
  exact ⟨rfl, rfl, rfl, rfl⟩

/-- Witness for C5: a second claim, for device 200, during the association of
`hub_associating`. -/
theorem claim_while_associating_is_busy_witness :
    (hub_associating.handle_claim_device env_plain 6000 0xDEAD 200 "Lamp" 1).out_ =
      [Effect.send_response
        "\x7b\"action\":\"claim_device\",\"status\":\"error\",\"message\":\"busy\"\x7d"] ∧
    (hub_associating.handle_claim_device env_plain 6000 0xDEAD 200 "Lamp" 1).db_
      = hub_associating.db_ :=
  ⟨by rw [(claim_while_associating_is_busy env_plain hub_associating 6000 0xDEAD 200 "Lamp" 1
      rfl).1]; rfl,
   (claim_while_associating_is_busy env_plain hub_associating 6000 0xDEAD 200 "Lamp" 1 rfl).2.1⟩

/-! ## Deferred actions -/

theorem foldl_keeps {α β : Type} (P : AvionMeshHub → β) (f : AvionMeshHub → α → AvionMeshHub)
    (h : ∀ s a, P (f s a) = P s) : ∀ (l : List α) (s : AvionMeshHub), P (l.foldl f s) = P s
  | [], _ => rfl
  | a :: l, s => by rw [List.foldl_cons, foldl_keeps P f h l, h]

namespace AvionMeshHub

@[simp] theorem emit_pending_actions_ (s : AvionMeshHub) (e : Effect) :
    (s.emit e).pending_actions_ = s.pending_actions_ := rfl

@[simp] theorem update_mesh_initialized_pending_actions_ (s : AvionMeshHub) :
    s.update_mesh_initialized.pending_actions_ = s.pending_actions_ := by
  unfold update_mesh_initialized
  simp only
  split <;> rfl

@[simp] theorem init_crypto_pending_actions_ (env : Env) (s : AvionMeshHub) :
    (init_crypto env s).2.pending_actions_ = s.pending_actions_ := by
  unfold init_crypto
  split
  · rfl
  · split <;> simp

@[simp] theorem emits_pending_actions_ (s : AvionMeshHub) (l : List Effect) :
    (s.emits l).pending_actions_ = s.pending_actions_ := rfl

@[simp] theorem publish_device_state_pending_actions_ (env : Env) (s : AvionMeshHub)
    (id : Nat) : (publish_device_state env s id).pending_actions_ = s.pending_actions_ := rfl

@[simp] theorem handle_add_discovered_pending_actions_ (env : Env) (s : AvionMeshHub)
    (id : Nat) (n : String) (p : Nat) :
    (handle_add_discovered env s id n p).pending_actions_ = s.pending_actions_ := by
  unfold handle_add_discovered
  split
  · rfl
  · simp only
    split <;> simp

@[simp] theorem handle_unclaim_device_pending_actions_ (s : AvionMeshHub) (id : Nat) :
    (handle_unclaim_device s id).pending_actions_ = s.pending_actions_ := by
  unfold handle_unclaim_device
  simp only
  split <;> rfl

@[simp] theorem handle_create_group_pending_actions_ (env : Env) (s : AvionMeshHub)
    (id : Nat) (n : String) :
    (handle_create_group env s id n).pending_actions_ = s.pending_actions_ := by
  unfold handle_create_group
  simp only
  split <;> simp

@[simp] theorem handle_delete_group_pending_actions_ (s : AvionMeshHub) (id : Nat) :
    (handle_delete_group s id).pending_actions_ = s.pending_actions_ := rfl

@[simp] theorem handle_add_to_group_pending_actions_ (s : AvionMeshHub) (a g : Nat) :
    (handle_add_to_group s a g).pending_actions_ = s.pending_actions_ := rfl

@[simp] theorem handle_remove_from_group_pending_actions_ (s : AvionMeshHub) (a g : Nat) :
    (handle_remove_from_group s a g).pending_actions_ = s.pending_actions_ := rfl

@[simp] theorem publish_all_discovery_pending_actions_ (env : Env) (s : AvionMeshHub) :
    (publish_all_discovery env s).pending_actions_ = s.pending_actions_ := rfl

@[simp] theorem subscribe_all_commands_pending_actions_ (env : Env) (s : AvionMeshHub) :
    (subscribe_all_commands env s).pending_actions_ = s.pending_actions_ := by
  unfold subscribe_all_commands
  split <;> rfl

@[simp] theorem control_brightness_pending_actions_ (env : Env) (s : AvionMeshHub)
    (i : Nat) (b : Int) : (control_brightness env s i b).pending_actions_ = s.pending_actions_ := by
  unfold control_brightness
  split <;> rfl

@[simp] theorem control_color_temp_pending_actions_ (env : Env) (s : AvionMeshHub)
    (i : Nat) (c : Int) : (control_color_temp env s i c).pending_actions_ = s.pending_actions_ := by
  unfold control_color_temp
  split <;> rfl

@[simp] theorem apply_control_pending_actions_ (env : Env) (s : AvionMeshHub)
    (act : DeferredAction) : (apply_control env s act).pending_actions_ = s.pending_actions_ := by
  simp [apply_control]

theorem import_devices_pending_actions_ (env : Env) :
    ∀ (l : List ImportDevice) (acc : AvionMeshHub × Nat),
      (import_devices env acc l).1.pending_actions_ = acc.1.pending_actions_
  | [], _ => rfl
  | dev :: rest, (s, added) => by
    unfold import_devices
    split
    · exact import_devices_pending_actions_ env rest _
    · split
      · exact import_devices_pending_actions_ env rest _
      · simp only
        rw [import_devices_pending_actions_ env rest _]
        rfl

theorem import_members_pending_actions_ (g : Nat) :
    ∀ (l : List Nat) (s : AvionMeshHub),
      (import_members g s l).pending_actions_ = s.pending_actions_
  | [], _ => rfl
  | m :: rest, s => by
    unfold import_members
    split
    · simp only
      rw [import_members_pending_actions_ g rest _]
      rfl
    · exact import_members_pending_actions_ g rest _

theorem import_groups_pending_actions_ :
    ∀ (l : List ImportGroup) (acc : AvionMeshHub × Nat),
      (import_groups acc l).1.pending_actions_ = acc.1.pending_actions_
  | [], _ => rfl
  | grp :: rest, (s, added) => by
    unfold import_groups
    split
    · exact import_groups_pending_actions_ rest _
    · simp only
      rw [import_groups_pending_actions_ rest _]
      simp only
      rw [import_members_pending_actions_]
      split <;> rfl

@[simp] theorem import_reset_pending_actions_ (s : AvionMeshHub) (reset : Bool) :
    (import_reset s reset).pending_actions_ = s.pending_actions_ := by
  cases reset <;> rfl

@[simp] theorem import_passphrase_pending_actions_ (env : Env) (s : AvionMeshHub)
    (p : Option String) : (import_passphrase env s p).2.pending_actions_ = s.pending_actions_ := by
  cases p
  · rfl
  · simp [import_passphrase]

theorem import_root_pending_actions_ (env : Env) (s : AvionMeshHub) (root : ImportRoot) :
    (import_root env s root).1.pending_actions_ = s.pending_actions_ := by
  unfold import_root
  simp only
  split
  · simp
  · rw [import_groups_pending_actions_, import_devices_pending_actions_]
    simp

@[simp] theorem import_body_pending_actions_ (env : Env) (s : AvionMeshHub) (body : String) :
    (import_body env s body).1.pending_actions_ = s.pending_actions_ := by
  unfold import_body
  split
  · exact import_root_pending_actions_ env s _
  · rfl

@[simp] theorem apply_import_pending_actions_ (env : Env) (s : AvionMeshHub)
    (act : DeferredAction) : (apply_import env s act).pending_actions_ = s.pending_actions_ := by
  unfold apply_import
  simp only
  split <;> simp

/-- No handler of a deferred action touches the action queue. -/
theorem apply_action_pending_actions_ (env : Env) (s : AvionMeshHub) (act : DeferredAction) :
    (apply_action env s act).pending_actions_ = s.pending_actions_ := by
  unfold apply_action
  split
  · simp
  · simp only
    split
    · split <;> simp
    · simp
  · simp only
    split <;> simp
  · simp only
    split
    · split <;> simp
    · rfl
  · simp only
    split <;> simp
  · simp only
    split
    · split <;> simp
    · simp
  · simp only
    split
    · split <;> simp
    · simp
  · simp

theorem foldl_push_action (acts : List DeferredAction) :
    ∀ s : AvionMeshHub, acts.foldl AvionMeshWebHandler.push_action s =
      { s with pending_actions_ := s.pending_actions_ ++ acts } := by
  induction acts with
  | nil => intro s; simp
  | cons a rest ih =>
    intro s
    rw [List.foldl_cons, ih]
    simp [AvionMeshWebHandler.push_action]

end AvionMeshHub

/-- C7: for every list of actions `a1..aN` appended to an empty pending queue, one call
of `process_deferred_actions` yields the state obtained by applying the handler of each
action once, in the order `a1..aN`, to the state before the appends; it leaves the queue
empty, and a call that follows immediately changes nothing and makes no call. -/
theorem process_deferred_actions_in_order (env : Env) (s : AvionMeshHub)
    (acts : List DeferredAction) (h : s.pending_actions_ = []) :
    (acts.foldl AvionMeshWebHandler.push_action s).process_deferred_actions env
      = acts.foldl (AvionMeshHub.apply_action env) s ∧
    ((acts.foldl AvionMeshWebHandler.push_action s).process_deferred_actions env).pending_actions_
      = [] ∧
    ((acts.foldl AvionMeshWebHandler.push_action s).process_deferred_actions
        env).process_deferred_actions env
      = (acts.foldl AvionMeshWebHandler.push_action s).process_deferred_actions env := by
  have hq : acts.foldl AvionMeshWebHandler.push_action s = { s with pending_actions_ := acts } := by
    rw [AvionMeshHub.foldl_push_action, h, List.nil_append]
  have hs : ({ ({ s with pending_actions_ := acts } : AvionMeshHub) with pending_actions_ := [] }
      : AvionMeshHub) = s := by
    cases s
    simp only at h
    subst h
    rfl
  have hrun : (acts.foldl AvionMeshWebHandler.push_action s).process_deferred_actions env
      = acts.foldl (AvionMeshHub.apply_action env) s := by
    rw [hq]
    unfold AvionMeshHub.process_deferred_actions
    cases acts with
    | nil =>
      simp only [List.isEmpty_nil, if_true, List.foldl_nil]
      cases s
      simp only at h
      subst h
      rfl
    | cons a rest =>
      simp only [List.isEmpty_cons, Bool.false_eq_true, if_false]
      rw [hs]
  have hempty : (acts.foldl (AvionMeshHub.apply_action env) s).pending_actions_ = [] := by
    rw [foldl_keeps (fun s => s.pending_actions_) _
      (fun s a => AvionMeshHub.apply_action_pending_actions_ env s a)]
    exact h
  refine ⟨hrun, by rw [hrun]; exact hempty, ?_⟩
  rw [hrun]
  unfold AvionMeshHub.process_deferred_actions
  rw [hempty]
  rfl

/-- Witness for C7: a control action and a group edit queued on `hub_ready`. -/
theorem process_deferred_actions_in_order_witness :
    hub_ready.pending_actions_ = [] ∧
    (([{ type := ActionType.Control, id1 := 100, brightness := 128 },
        { type := ActionType.DeleteGroup, id1 := 256 }].foldl
          AvionMeshWebHandler.push_action hub_ready).process_deferred_actions env_plain
      = [{ type := ActionType.Control, id1 := 100, brightness := 128 },
          { type := ActionType.DeleteGroup, id1 := 256 }].foldl
          (AvionMeshHub.apply_action env_plain) hub_ready ∧
    (([{ type := ActionType.Control, id1 := 100, brightness := 128 },
        { type := ActionType.DeleteGroup, id1 := 256 }].foldl
          AvionMeshWebHandler.push_action hub_ready).process_deferred_actions
            env_plain).pending_actions_ = [] ∧
    (([{ type := ActionType.Control, id1 := 100, brightness := 128 },
        { type := ActionType.DeleteGroup, id1 := 256 }].foldl
          AvionMeshWebHandler.push_action hub_ready).process_deferred_actions
            env_plain).process_deferred_actions env_plain
      = ([{ type := ActionType.Control, id1 := 100, brightness := 128 },
          { type := ActionType.DeleteGroup, id1 := 256 }].foldl
          AvionMeshWebHandler.push_action hub_ready).process_deferred_actions env_plain) :=
  ⟨rfl, process_deferred_actions_in_order env_plain hub_ready
    [{ type := ActionType.Control, id1 := 100, brightness := 128 },
      { type := ActionType.DeleteGroup, id1 := 256 }] rfl⟩

/-! ## Control actions -/

theorem find_map_replace (i : Nat) (v : DeviceState) :
    ∀ m : List (Nat × DeviceState), m.any (fun p => p.1 == i) = true →
      (m.map (fun p => if p.1 == i then (i, v) else p)).find? (fun p => p.1 == i)
        = some (i, v)
  | [], h => by simp at h
  | p :: rest, h => by
    by_cases hp : (p.1 == i) = true
    · simp only [List.map_cons, hp, if_true, List.find?_cons, beq_self_eq_true]
    · have hp2 : (p.1 == i) = false := by simpa using hp
      rw [List.any_cons, hp2, Bool.false_or] at h
      simp only [List.map_cons, hp2, Bool.false_eq_true, if_false, List.find?_cons]
      exact find_map_replace i v rest h

theorem find_append_new (i : Nat) (v : DeviceState) :
    ∀ m : List (Nat × DeviceState), m.any (fun p => p.1 == i) = false →
      (m ++ [(i, v)]).find? (fun p => p.1 == i) = some (i, v)
  | [], _ => by simp
  | p :: rest, h => by
    rw [List.any_cons, Bool.or_eq_false_iff] at h
    simp only [List.cons_append, List.find?_cons, h.1]
    exact find_append_new i v rest h.2

theorem states_find_set_same (m : List (Nat × DeviceState)) (i : Nat) (v : DeviceState) :
    states_find (states_set m i v) i = some v := by
  unfold states_find states_set
  by_cases h : m.any (fun p => p.1 == i) = true
  · rw [if_pos h, find_map_replace i v m h]; rfl
  · rw [if_neg h, find_append_new i v m (Bool.eq_false_iff.mpr h)]; rfl

theorem states_index_set_same (m : List (Nat × DeviceState)) (i : Nat) (v : DeviceState) :
    states_index (states_set m i v) i = v := by
  unfold states_index
  rw [states_find_set_same]
  rfl

theorem publish_device_state_calls_no_cmd (env : Env) (s : AvionMeshHub) (i : Nat) :
    (AvionMeshHub.publish_device_state_calls env s i).filter is_send_cmd = [] := by
  unfold AvionMeshHub.publish_device_state_calls
  split
  · rfl
  · split
    · rfl
    · split
      · rfl
      · simp only [List.filter_append]
        split <;> split <;> (try split) <;> rfl

/-- C8 (the claim fails for a colour temperature of 0): a control request for device 100
that carries `color_temp: 0` is queued and processed, yet no mesh command is issued, no
call at all is made, and the colour temperature of the device stays unknown. -/
theorem control_color_temp_zero_is_dropped :
    ((AvionMeshWebHandler.handle_control hub_ready
        (some { avion_id := 100, brightness := none, color_temp := some 0 })).pending_actions_
      = [{ type := ActionType.Control, id1 := 100, color_temp := 0 }]) ∧
    ((AvionMeshWebHandler.handle_control hub_ready
        (some { avion_id := 100, brightness := none, color_temp := some 0
          })).process_deferred_actions env_plain).out_ = [] ∧
    (states_index ((AvionMeshWebHandler.handle_control hub_ready
        (some { avion_id := 100, brightness := none, color_temp := some 0
          })).process_deferred_actions env_plain).device_states_ 100).color_temp_known
      = false := by
  decide

theorem publish_device_state_calls_congr (env : Env) (s t : AvionMeshHub) (i : Nat)
    (h1 : s.device_states_ = t.device_states_) (h2 : s.db_ = t.db_)
    (h3 : s.web_handler_ = t.web_handler_) :
    AvionMeshHub.publish_device_state_calls env s i
      = AvionMeshHub.publish_device_state_calls env t i := by
  unfold AvionMeshHub.publish_device_state_calls
  rw [h1, h2, h3]

/-- The brightness block of a Control action for a brightness in 0..255. -/
theorem control_brightness_present (env : Env) (s : AvionMeshHub) (i b : Nat)
    (hb : b ≤ 255) :
    (AvionMeshHub.control_brightness env s i (Int.ofNat b)).device_states_
      = states_set s.device_states_ i
          { states_index s.device_states_ i with brightness := b, brightness_known := true } ∧
    (AvionMeshHub.control_brightness env s i (Int.ofNat b)).out_
      = s.out_ ++ Effect.send_cmd (.brightness i b) ::
          AvionMeshHub.publish_device_state_calls env
            (AvionMeshHub.control_brightness env s i (Int.ofNat b)) i := by
  have hbm : (Int.ofNat b).toNat % 256 = b := by
    have h0 : (Int.ofNat b).toNat = b := rfl
    rw [h0]; exact Nat.mod_eq_of_lt (by omega)
  have hpos : Int.ofNat b ≥ 0 := Int.ofNat_nonneg b
  have heq : AvionMeshHub.control_brightness env s i (Int.ofNat b) =
      AvionMeshHub.publish_device_state env
        { s.emit (.send_cmd (.brightness i b)) with
          device_states_ := states_set s.device_states_ i
            { states_index s.device_states_ i with
              brightness := b, brightness_known := true } } i := by
    unfold AvionMeshHub.control_brightness
    rw [if_pos hpos]
    dsimp only
    rw [hbm]
    rfl
  have hds : (AvionMeshHub.control_brightness env s i (Int.ofNat b)).device_states_
      = states_set s.device_states_ i
          { states_index s.device_states_ i with brightness := b, brightness_known := true } := by
    rw [heq]; rfl
  refine ⟨hds, ?_⟩
  rw [publish_device_state_calls_congr env (AvionMeshHub.control_brightness env s i (Int.ofNat b))
    { s.emit (.send_cmd (.brightness i b)) with
      device_states_ := states_set s.device_states_ i
        { states_index s.device_states_ i with
          brightness := b, brightness_known := true } } i hds
    (by rw [heq]; rfl) (by rw [heq]; rfl)]
  conv_lhs => rw [heq]
  simp [AvionMeshHub.publish_device_state, AvionMeshHub.emits, AvionMeshHub.emit]

/-- The colour temperature block of a Control action for a value in 1..65535. -/
theorem control_color_temp_present (env : Env) (s : AvionMeshHub) (i c : Nat)
    (hc : 1 ≤ c ∧ c ≤ 65535) :
    (AvionMeshHub.control_color_temp env s i (Int.ofNat c)).device_states_
      = states_set s.device_states_ i
          { states_index s.device_states_ i with color_temp := c, color_temp_known := true } ∧
    (AvionMeshHub.control_color_temp env s i (Int.ofNat c)).out_
      = s.out_ ++ Effect.send_cmd (.color_temp i c) ::
          AvionMeshHub.publish_device_state_calls env
            (AvionMeshHub.control_color_temp env s i (Int.ofNat c)) i := by
  have hcm : (Int.ofNat c).toNat % 65536 = c := by
    have h0 : (Int.ofNat c).toNat = c := rfl
    rw [h0]; exact Nat.mod_eq_of_lt (by omega)
  have hpos : Int.ofNat c > 0 := by
    have : (0 : Int) < (c : Int) := by omega
    exact this
  have heq : AvionMeshHub.control_color_temp env s i (Int.ofNat c) =
      AvionMeshHub.publish_device_state env
        { s.emit (.send_cmd (.color_temp i c)) with
          device_states_ := states_set s.device_states_ i
            { states_index s.device_states_ i with
              color_temp := c, color_temp_known := true } } i := by
    unfold AvionMeshHub.control_color_temp
    rw [if_pos hpos]
    dsimp only
    rw [hcm]
    rfl
  have hds : (AvionMeshHub.control_color_temp env s i (Int.ofNat c)).device_states_
      = states_set s.device_states_ i
          { states_index s.device_states_ i with color_temp := c, color_temp_known := true } := by
    rw [heq]; rfl
  refine ⟨hds, ?_⟩
  rw [publish_device_state_calls_congr env (AvionMeshHub.control_color_temp env s i (Int.ofNat c))
    { s.emit (.send_cmd (.color_temp i c)) with
      device_states_ := states_set s.device_states_ i
        { states_index s.device_states_ i with
          color_temp := c, color_temp_known := true } } i hds
    (by rw [heq]; rfl) (by rw [heq]; rfl)]
  conv_lhs => rw [heq]
  simp [AvionMeshHub.publish_device_state, AvionMeshHub.emits, AvionMeshHub.emit]

/-- C8 (amended): processing the Control action that `handle_control` builds for id `i`
sets exactly the fields that are present with a usable value. When a brightness `b` in
0..255 is present, the cached state of `i` gets brightness `b` with `brightness_known`
true, one brightness command `(i, b)` is issued and `publish_device_state(i)` is invoked;
when a colour temperature `c` in 1..65535 is present, the same holds for the colour
temperature fields; an absent field keeps its cached value and known flag and issues no
command; and a request that carries the colour temperature 0 is processed like the same
request without a colour temperature. -/
theorem control_applies_present_fields (env : Env) (s : AvionMeshHub) (i : Nat)
    (ob oc : Option Nat)
    (hb : ∀ b, ob = some b → b ≤ 255) (hc : ∀ c, oc = some c → 1 ≤ c ∧ c ≤ 65535) :
    let act := AvionMeshWebHandler.control_action
      { avion_id := i, brightness := ob.map Int.ofNat, color_temp := oc.map Int.ofNat }
    let mid := AvionMeshHub.apply_action env s (AvionMeshWebHandler.control_action
      { avion_id := i, brightness := ob.map Int.ofNat, color_temp := none })
    let fin := AvionMeshHub.apply_action env s act
    (match ob with
      | some b =>
        (states_index fin.device_states_ i).brightness = b ∧
        (states_index fin.device_states_ i).brightness_known = true
      | none =>
        (states_index fin.device_states_ i).brightness
          = (states_index s.device_states_ i).brightness ∧
        (states_index fin.device_states_ i).brightness_known
          = (states_index s.device_states_ i).brightness_known) ∧
    (match oc with
      | some c =>
        (states_index fin.device_states_ i).color_temp = c ∧
        (states_index fin.device_states_ i).color_temp_known = true
      | none =>
        (states_index fin.device_states_ i).color_temp
          = (states_index s.device_states_ i).color_temp ∧
        (states_index fin.device_states_ i).color_temp_known
          = (states_index s.device_states_ i).color_temp_known) ∧
    fin.out_ = s.out_ ++
      (match ob with
        | some b => Effect.send_cmd (.brightness i b) ::
            AvionMeshHub.publish_device_state_calls env mid i
        | none => []) ++
      (match oc with
        | some c => Effect.send_cmd (.color_temp i c) ::
            AvionMeshHub.publish_device_state_calls env fin i
        | none => []) ∧
    fin.out_.filter is_send_cmd = s.out_.filter is_send_cmd ++
      (match ob with
        | some b => [Effect.send_cmd (.brightness i b)]
        | none => []) ++
      (match oc with
        | some c => [Effect.send_cmd (.color_temp i c)]
        | none => []) ∧
    AvionMeshHub.apply_action env s (AvionMeshWebHandler.control_action
      { avion_id := i, brightness := ob.map Int.ofNat, color_temp := some 0 }) = mid := by
  have hneg : ¬ ((-1 : Int) ≥ 0) := by decide
  have hneg2 : ¬ ((-1 : Int) > 0) := by decide
  have habs_b : ∀ t : AvionMeshHub, AvionMeshHub.control_brightness env t i (-1) = t := by
    intro t; unfold AvionMeshHub.control_brightness; rw [if_neg hneg]
  have habs_c : ∀ t : AvionMeshHub, AvionMeshHub.control_color_temp env t i (-1) = t := by
    intro t; unfold AvionMeshHub.control_color_temp; rw [if_neg hneg2]
  have hzero : ∀ t : AvionMeshHub, AvionMeshHub.control_color_temp env t i 0 = t := by
    intro t; unfold AvionMeshHub.control_color_temp; rw [if_neg (by decide)]
  cases ob with
  | none =>
    cases oc with
    | none =>
      intro act mid fin
      have hfin : fin = s := by
        show AvionMeshHub.control_color_temp env
          (AvionMeshHub.control_brightness env s i (-1)) i (-1) = s
        rw [habs_b, habs_c]
      have hz : AvionMeshHub.apply_action env s (AvionMeshWebHandler.control_action
          { avion_id := i, brightness := (none : Option Nat).map Int.ofNat,
            color_temp := some 0 }) = mid := by
        show AvionMeshHub.control_color_temp env
          (AvionMeshHub.control_brightness env s i (-1)) i 0 =
          AvionMeshHub.control_color_temp env
            (AvionMeshHub.control_brightness env s i (-1)) i (-1)
        rw [hzero, habs_c]
      refine ⟨?_, ?_, ?_, ?_, hz⟩ <;> rw [hfin] <;> simp
    | some c =>
      intro act mid fin
      have hfin : fin = AvionMeshHub.control_color_temp env s i (Int.ofNat c) := by
        show AvionMeshHub.control_color_temp env
          (AvionMeshHub.control_brightness env s i (-1)) i (Int.ofNat c) = _
        rw [habs_b]
      obtain ⟨hds, hout⟩ := control_color_temp_present env s i c (hc c rfl)
      rw [← hfin] at hds hout
      have hz : AvionMeshHub.apply_action env s (AvionMeshWebHandler.control_action
          { avion_id := i, brightness := (none : Option Nat).map Int.ofNat,
            color_temp := some 0 }) = mid := by
        show AvionMeshHub.control_color_temp env
          (AvionMeshHub.control_brightness env s i (-1)) i 0 =
          AvionMeshHub.control_color_temp env
            (AvionMeshHub.control_brightness env s i (-1)) i (-1)
        rw [hzero, habs_c]
      refine ⟨?_, ?_, ?_, ?_, hz⟩
      · simp [hds, states_index_set_same]
      · simp [hds, states_index_set_same]
      · simpa using hout
      · rw [hout]
        simp [List.filter_append, List.filter_cons, is_send_cmd,
          publish_device_state_calls_no_cmd]
  | some b =>
    obtain ⟨hmds, hmout⟩ := control_brightness_present env s i b (hb b rfl)
    cases oc with
    | none =>
      intro act mid fin
      have hmid : mid = AvionMeshHub.control_brightness env s i (Int.ofNat b) := by
        show AvionMeshHub.control_color_temp env
          (AvionMeshHub.control_brightness env s i (Int.ofNat b)) i (-1) = _
        rw [habs_c]
      have hfin : fin = AvionMeshHub.control_brightness env s i (Int.ofNat b) := hmid
      rw [← hmid] at hmds hmout
      rw [hfin, ← hmid]
      have hz : AvionMeshHub.apply_action env s (AvionMeshWebHandler.control_action
          { avion_id := i, brightness := (some b).map Int.ofNat,
            color_temp := some 0 }) = mid := by
        show AvionMeshHub.control_color_temp env
          (AvionMeshHub.control_brightness env s i (Int.ofNat b)) i 0 =
          AvionMeshHub.control_color_temp env
            (AvionMeshHub.control_brightness env s i (Int.ofNat b)) i (-1)
        rw [hzero, habs_c]
      refine ⟨?_, ?_, ?_, ?_, hz⟩
      · simp [hmds, states_index_set_same]
      · simp [hmds, states_index_set_same]
      · simpa using hmout
      · rw [hmout]
        simp [List.filter_append, List.filter_cons, is_send_cmd,
          publish_device_state_calls_no_cmd]
    | some c =>
      intro act mid fin
      have hmid : mid = AvionMeshHub.control_brightness env s i (Int.ofNat b) := by
        show AvionMeshHub.control_color_temp env
          (AvionMeshHub.control_brightness env s i (Int.ofNat b)) i (-1) = _
        rw [habs_c]
      have hfin : fin = AvionMeshHub.control_color_temp env mid i (Int.ofNat c) := by
        rw [hmid]; rfl
      rw [← hmid] at hmds hmout
      obtain ⟨hds, hout⟩ := control_color_temp_present env mid i c (hc c rfl)
      rw [← hfin] at hds hout
      have hz : AvionMeshHub.apply_action env s (AvionMeshWebHandler.control_action
          { avion_id := i, brightness := (some b).map Int.ofNat,
            color_temp := some 0 }) = mid := by
        show AvionMeshHub.control_color_temp env
          (AvionMeshHub.control_brightness env s i (Int.ofNat b)) i 0 =
          AvionMeshHub.control_color_temp env
            (AvionMeshHub.control_brightness env s i (Int.ofNat b)) i (-1)
        rw [hzero, habs_c]
      refine ⟨?_, ?_, ?_, ?_, hz⟩
      · simp [hds, states_index_set_same, hmds]
      · simp [hds, states_index_set_same]
      · rw [hout, hmout]
      · rw [hout, hmout]
        simp [List.filter_append, List.filter_cons, is_send_cmd,
          publish_device_state_calls_no_cmd]

/-- Witness for C8: a control request for device 100 that carries brightness 128 only. -/
theorem control_applies_present_fields_witness :
    (states_index (AvionMeshHub.apply_action env_plain hub_ready
      (AvionMeshWebHandler.control_action
        { avion_id := 100, brightness := some 128, color_temp := none })).device_states_
      100).brightness = 128 ∧
    (states_index (AvionMeshHub.apply_action env_plain hub_ready
      (AvionMeshWebHandler.control_action
        { avion_id := 100, brightness := some 128, color_temp := none })).device_states_
      100).brightness_known = true :=
  (control_applies_present_fields env_plain hub_ready 100 (some 128) none
    (fun b h => by injection h with h; omega) (fun c h => by cases h)).1

/-! ## Association timeout -/

theorem watch_emit (s : AvionMeshHub) (e : Effect) (h : is_claim_outcome e = false) :
    watch (s.emit e) = watch s := by
  simp [watch, claim_outcomes, AvionMeshHub.emit, List.filter_append, h]

theorem watch_emits (s : AvionMeshHub) (l : List Effect)
    (h : l.filter is_claim_outcome = []) : watch (s.emits l) = watch s := by
  simp [watch, claim_outcomes, AvionMeshHub.emits, List.filter_append, h]

theorem filter_outcome_map {α : Type} (f : α → Effect)
    (h : ∀ a, is_claim_outcome (f a) = false) :
    ∀ l : List α, (l.map f).filter is_claim_outcome = []
  | [] => rfl
  | a :: l => by simp [List.filter_cons, h a, filter_outcome_map f h l]

theorem filter_outcome_flatMap {α : Type} (f : α → List Effect)
    (h : ∀ a, (f a).filter is_claim_outcome = []) :
    ∀ l : List α, (l.flatMap f).filter is_claim_outcome = []
  | [] => rfl
  | a :: l => by
    rw [List.flatMap_cons, List.filter_append, h a, filter_outcome_flatMap f h l]
    rfl

theorem subscribe_light_no_outcome (id : Nat) (a b : Bool) :
    (AvionMeshHub.subscribe_light id a b).filter is_claim_outcome = [] := by
  cases a <;> cases b <;> rfl

theorem watch_start_scan (s : AvionMeshHub) (now : Nat) :
    watch (s.start_scan now) = watch s := by
  unfold AvionMeshHub.start_scan
  rw [watch_emit _ Effect.gap_set_scan_params rfl]
  rfl

theorem watch_publish_all_discovery (env : Env) (s : AvionMeshHub) :
    watch (AvionMeshHub.publish_all_discovery env s) = watch s := by
  unfold AvionMeshHub.publish_all_discovery
  apply watch_emits
  rw [List.filter_append,
    filter_outcome_map (fun dev : DeviceEntry =>
      Effect.publish_light dev.avion_id dev.name (env.has_dimming dev.product_type)
        (env.has_color_temp dev.product_type) (env.product_name dev.product_type))
      (fun _ => rfl),
    filter_outcome_map (fun grp : GroupEntry =>
      Effect.publish_light grp.group_id grp.name true true "") (fun _ => rfl)]
  rfl

theorem watch_subscribe_all_commands (env : Env) (s : AvionMeshHub) :
    watch (AvionMeshHub.subscribe_all_commands env s) = watch s := by
  unfold AvionMeshHub.subscribe_all_commands
  split
  · rfl
  · have h := watch_emits s
      (s.db_.devices_.flatMap (fun dev =>
          AvionMeshHub.subscribe_light dev.avion_id (env.has_dimming dev.product_type)
            (env.has_color_temp dev.product_type)) ++
         s.db_.groups_.flatMap (fun grp => AvionMeshHub.subscribe_light grp.group_id true true))
      (by rw [List.filter_append,
            filter_outcome_flatMap _ (fun _ => subscribe_light_no_outcome _ _ _),
            filter_outcome_flatMap _ (fun _ => subscribe_light_no_outcome _ _ _)]
          rfl)
    rw [← h]
    rfl

theorem watch_loop_register_web (env : Env) (s : AvionMeshHub) :
    watch (AvionMeshHub.loop_register_web env s) = watch s := by
  unfold AvionMeshHub.loop_register_web
  split
  · split <;> rfl
  · rfl

theorem watch_loop_sse (s : AvionMeshHub) : watch (AvionMeshHub.loop_sse s) = watch s := by
  unfold AvionMeshHub.loop_sse
  split
  · exact watch_emit s Effect.sse_loop rfl
  · rfl

theorem watch_loop_register_gattc (env : Env) (s : AvionMeshHub) :
    watch (AvionMeshHub.loop_register_gattc env s) = watch s := by
  unfold AvionMeshHub.loop_register_gattc
  split
  · exact watch_emit s Effect.gattc_app_register rfl
  · rfl

theorem watch_loop_reconnect (s : AvionMeshHub) (now : Nat) :
    watch (AvionMeshHub.loop_reconnect s now) = watch s := by
  unfold AvionMeshHub.loop_reconnect
  split
  · exact watch_start_scan s now
  · rfl

theorem watch_loop_subscribe_management (env : Env) (s : AvionMeshHub) :
    watch (AvionMeshHub.loop_subscribe_management env s) = watch s := by
  unfold AvionMeshHub.loop_subscribe_management
  split
  · split
    · exact watch_emit s Effect.subscribe_management rfl
    · rfl
  · rfl

theorem watch_loop_subscribe_lights (env : Env) (s : AvionMeshHub) :
    watch (AvionMeshHub.loop_subscribe_lights env s) = watch s := by
  unfold AvionMeshHub.loop_subscribe_lights
  split
  · split
    · rw [watch_subscribe_all_commands, watch_publish_all_discovery]
    · rfl
  · rfl

theorem watch_loop_initial_read (s : AvionMeshHub) :
    watch (AvionMeshHub.loop_initial_read s) = watch s := by
  unfold AvionMeshHub.loop_initial_read
  split
  · rw [watch_emit _ (Effect.set_timeout "initial_read" 2000) rfl]; rfl
  · rfl

theorem watch_loop_time_sync (s : AvionMeshHub) :
    watch (AvionMeshHub.loop_time_sync s) = watch s := by
  unfold AvionMeshHub.loop_time_sync
  split
  · rw [watch_emit _ (Effect.set_timeout "initial_time_sync" 5000) rfl]; rfl
  · rfl

theorem loop_pending_requests_idle (s : AvionMeshHub) (hq : no_pending_requests s) :
    AvionMeshHub.loop_pending_requests s = s := by
  obtain ⟨h1, h2, h3, h4, _⟩ := hq
  unfold AvionMeshHub.loop_pending_requests
  simp [h1, h2, h3, h4]

theorem no_pending_requests_of_watch (s t : AvionMeshHub) (h : watch t = watch s)
    (hq : no_pending_requests s) : no_pending_requests t := by
  obtain ⟨q1, q2, q3, q4, q5⟩ := hq
  simp only [watch, Prod.mk.injEq] at h
  obtain ⟨_, _, a3, a4, a5, a6, a7, _⟩ := h
  exact ⟨by rw [a3, q1], by rw [a4, q2], by rw [a5, q3], by rw [a6, q4], by rw [a7, q5]⟩

/-- With no request pending, the part of `loop` before the association block changes
none of the watched members and makes no response or cancellation. -/
theorem watch_loop_before_association (env : Env) (s : AvionMeshHub) (now : Nat)
    (hq : no_pending_requests s) :
    watch (AvionMeshHub.loop_before_association env s now) = watch s := by
  unfold AvionMeshHub.loop_before_association
  simp only
  rw [watch_emit _ (Effect.csrmesh_poll now) rfl, watch_loop_time_sync, watch_loop_initial_read,
    watch_loop_subscribe_lights, watch_loop_subscribe_management, watch_loop_reconnect,
    watch_loop_register_gattc]
  have hw : watch (AvionMeshHub.loop_sse (AvionMeshHub.loop_register_web env s)) = watch s := by
    rw [watch_loop_sse, watch_loop_register_web]
  generalize AvionMeshHub.loop_sse (AvionMeshHub.loop_register_web env s) = s2 at hw ⊢
  have hq2 := no_pending_requests_of_watch s s2 hw hq
  rw [loop_pending_requests_idle s2 hq2]
  unfold AvionMeshHub.process_deferred_actions
  rw [hq2.2.2.2.2]
  exact hw

theorem watch_loop_idle (env : Env) (s : AvionMeshHub) (now : Nat)
    (hq : no_pending_requests s) (ha : s.associating_ = false) :
    watch (s.loop env now) = watch s := by
  have hw := watch_loop_before_association env s now hq
  unfold AvionMeshHub.loop AvionMeshHub.loop_association
  have ha8 : (AvionMeshHub.loop_before_association env s now).associating_ = false := by
    have := congrArg Prod.fst hw
    simp only [watch] at this
    rw [this, ha]
  simp only [ha8, Bool.false_eq_true, if_false]
  exact hw

theorem watch_loop_associating (env : Env) (s : AvionMeshHub) (now : Nat)
    (hq : no_pending_requests s) (ha : s.associating_ = true)
    (hc : env.protocol_is_complete = false) (he : env.protocol_is_error = false) :
    watch (s.loop env now) =
      if sub_u32 now s.association_start_ms_ > 30000 then
        (false, s.association_start_ms_, false, false, false, false, [],
          claim_outcomes s ++ [Effect.associate_cancel, claim_timeout_response])
      else watch s := by
  have hw := watch_loop_before_association env s now hq
  obtain ⟨q1, q2, q3, q4, q5⟩ := hq
  generalize hs8 : AvionMeshHub.loop_before_association env s now = s8 at hw
  unfold AvionMeshHub.loop AvionMeshHub.loop_association
  rw [hs8]
  simp only [watch, Prod.mk.injEq] at hw
  obtain ⟨a1, a2, a3, a4, a5, a6, a7, a8⟩ := hw
  simp only [a1, ha, hc, he, if_true, Bool.false_eq_true, if_false, a2, ASSOCIATION_TIMEOUT_MS]
  have a8f : List.filter is_claim_outcome s8.out_ = List.filter is_claim_outcome s.out_ := a8
  split
  · simp [watch, claim_outcomes, AvionMeshHub.emit, List.filter_append, a3, a4, a5, a6, a7,
      q1, q2, q3, q4, q5, a8f, claim_timeout_response, is_claim_outcome, List.filter_cons]
  · simp [watch, claim_outcomes, a1, ha, a3, a4, a5, a6, a7, a8f]
    exact a2

theorem watch_run_loop_idle :
    ∀ (ticks : List (Env × Nat)) (s : AvionMeshHub),
      no_pending_requests s → s.associating_ = false → watch (s.run_loop ticks) = watch s := by
  intro ticks
  induction ticks with
  | nil => intro s _ _; rfl
  | cons t rest ih =>
    intro s hq ha
    have h1 := watch_loop_idle t.1 s t.2 hq ha
    have hq1 := no_pending_requests_of_watch s _ h1 hq
    have ha1 : (s.loop t.1 t.2).associating_ = false := by
      have := congrArg Prod.fst h1
      simp only [watch] at this
      rw [this, ha]
    show watch (AvionMeshHub.run_loop (s.loop t.1 t.2) rest) = watch s
    rw [ih _ hq1 ha1, h1]

theorem watch_run_loop_associating :
    ∀ (ticks : List (Env × Nat)) (s : AvionMeshHub),
      no_pending_requests s → s.associating_ = true →
      (∀ x ∈ ticks, x.1.protocol_is_complete = false ∧ x.1.protocol_is_error = false) →
      watch (s.run_loop ticks) =
        (!(ticks.any (fun x => decide (sub_u32 x.2 s.association_start_ms_ > 30000))),
          s.association_start_ms_, false, false, false, false, [],
          claim_outcomes s ++
            (if ticks.any (fun x => decide (sub_u32 x.2 s.association_start_ms_ > 30000)) then
              [Effect.associate_cancel, claim_timeout_response]
            else [])) := by
  intro ticks
  induction ticks with
  | nil =>
    intro s hq ha _
    obtain ⟨q1, q2, q3, q4, q5⟩ := hq
    simp [AvionMeshHub.run_loop, watch, ha, q1, q2, q3, q4, q5]
  | cons t rest ih =>
    intro s hq ha hquiet
    have ht := hquiet t (List.mem_cons_self _ _)
    have hrest : ∀ x ∈ rest, x.1.protocol_is_complete = false ∧
        x.1.protocol_is_error = false := fun x hx => hquiet x (List.mem_cons_of_mem _ hx)
    have h1 := watch_loop_associating t.1 s t.2 hq ha ht.1 ht.2
    show watch (AvionMeshHub.run_loop (s.loop t.1 t.2) rest) = _
    by_cases hto : sub_u32 t.2 s.association_start_ms_ > 30000
    · rw [if_pos hto] at h1
      have ha1 : (s.loop t.1 t.2).associating_ = false := by
        have := congrArg Prod.fst h1
        simpa only [watch] using this
      have hq1 : no_pending_requests (s.loop t.1 t.2) := by
        simp only [watch, Prod.mk.injEq] at h1
        obtain ⟨_, _, a3, a4, a5, a6, a7, _⟩ := h1
        exact ⟨a3, a4, a5, a6, a7⟩
      have hd : decide (sub_u32 t.2 s.association_start_ms_ > 30000) = true :=
        decide_eq_true hto
      rw [watch_run_loop_idle rest _ hq1 ha1, h1]
      simp only [List.any_cons, hd, Bool.true_or, Bool.not_true, if_true]
    · rw [if_neg hto] at h1
      have ha1 : (s.loop t.1 t.2).associating_ = true := by
        have := congrArg Prod.fst h1
        simp only [watch] at this
        rw [this, ha]
      have hq1 := no_pending_requests_of_watch s _ h1 hq
      have hst : (s.loop t.1 t.2).association_start_ms_ = s.association_start_ms_ := by
        have := congrArg (fun w => w.2.1) h1
        simpa only [watch] using this
      have hout : claim_outcomes (s.loop t.1 t.2) = claim_outcomes s := by
        have := congrArg (fun w => w.2.2.2.2.2.2.2) h1
        simpa only [watch] using this
      have hd : decide (sub_u32 t.2 s.association_start_ms_ > 30000) = false :=
        decide_eq_false hto
      rw [ih _ hq1 ha1 hrest, hst, hout]
      simp only [List.any_cons, hd, Bool.false_or]

/-- C6: take a hub with an association in flight, started at clock value `T`, and no
request pending, and run any sequence of `loop` calls during which the protocol reports
neither completion nor error and nothing arrives from other threads. After the sequence,
the responses and cancellations made are those made before, followed by the cancellation
of the association and the `claim_device` timeout response if some tick had an elapsed
time `(now - T) mod 2^32` strictly greater than 30000, and by nothing otherwise; and
`associating_` is still true exactly when no tick had such an elapsed time. Read on every
initial part of the sequence, this says that ticks with an elapsed time of at most 30000
emit nothing, that the first tick beyond 30000 emits the timeout once, clears
`associating_` and cancels the association, and that no later tick emits anything. -/
theorem association_timeout_exactly_once (s : AvionMeshHub) (ticks : List (Env × Nat))
    (hq : no_pending_requests s) (ha : s.associating_ = true)
    (hquiet : ∀ x ∈ ticks, x.1.protocol_is_complete = false ∧ x.1.protocol_is_error = false) :
    claim_outcomes (s.run_loop ticks) =
      claim_outcomes s ++
        (if ticks.any (fun x => decide (sub_u32 x.2 s.association_start_ms_ > 30000)) then
          [Effect.associate_cancel,
            Effect.send_response
              "\x7b\"action\":\"claim_device\",\"status\":\"error\",\"message\":\"timeout\"\x7d"]
        else []) ∧
    (s.run_loop ticks).associating_ =
      !(ticks.any (fun x => decide (sub_u32 x.2 s.association_start_ms_ > 30000))) := by
  have h := watch_run_loop_associating ticks s hq ha hquiet
  simp only [watch, Prod.mk.injEq] at h
  exact ⟨h.2.2.2.2.2.2.2, h.1⟩

/-- Witness for C6: an association started at 5000 and polled at 6000, 35000 (exactly
30000 ms elapsed), 35001, 40000 and 80000: the ticks up to 35000 emit nothing, and the
whole run emits one cancellation and one timeout response. -/
theorem association_timeout_exactly_once_witness :
    (claim_outcomes (hub_associating.run_loop [(env_plain, 6000), (env_plain, 35000)]) = [] ∧
      (hub_associating.run_loop [(env_plain, 6000), (env_plain, 35000)]).associating_ = true) ∧
    (claim_outcomes (hub_associating.run_loop
        [(env_plain, 6000), (env_plain, 35000), (env_plain, 35001), (env_plain, 40000),
          (env_plain, 80000)])
      = [Effect.associate_cancel,
          Effect.send_response
            "\x7b\"action\":\"claim_device\",\"status\":\"error\",\"message\":\"timeout\"\x7d"] ∧
      (hub_associating.run_loop
        [(env_plain, 6000), (env_plain, 35000), (env_plain, 35001), (env_plain, 40000),
          (env_plain, 80000)]).associating_ = false) :=
  ⟨association_timeout_exactly_once hub_associating [(env_plain, 6000), (env_plain, 35000)]
      ⟨rfl, rfl, rfl, rfl, rfl⟩ rfl (by decide),
   association_timeout_exactly_once hub_associating
      [(env_plain, 6000), (env_plain, 35000), (env_plain, 35001), (env_plain, 40000),
        (env_plain, 80000)] ⟨rfl, rfl, rfl, rfl, rfl⟩ rfl (by decide)⟩

/-! ## Registry: idempotent membership, unique ids -/

namespace DeviceDB

theorem find_device_isSome_ids (db : DeviceDB) (a : Nat) :
    (db.find_device a).isSome = true ↔ a ∈ db.devices_.map (fun d => d.avion_id) := by
  rw [find_device_isSome_iff]
  simp [List.mem_map]

theorem find_group_isSome_ids (db : DeviceDB) (a : Nat) :
    (db.find_group a).isSome = true ↔ a ∈ db.groups_.map (fun g => g.group_id) := by
  rw [find_group_isSome_iff]
  simp [List.mem_map]

end DeviceDB

/-- C12: in every registry state reached from the empty registry by the registry's add
and remove operations, no two devices share an `avion_id` and no two groups share a
`group_id` (the lists of ids have no duplicate); `add_device` called with an id that is
present returns false and leaves the registry unchanged, and so does `add_group`. -/
theorem registry_ids_unique (ops : List DbOp) :
    ((run_ops ops).devices_.map (fun d => d.avion_id)).Nodup ∧
    ((run_ops ops).groups_.map (fun g => g.group_id)).Nodup ∧
    (∀ (a p : Nat) (n : String), (∃ d ∈ (run_ops ops).devices_, d.avion_id = a) →
      (run_ops ops).add_device a p n = (false, run_ops ops)) ∧
    (∀ (g : Nat) (n : String), (∃ x ∈ (run_ops ops).groups_, x.group_id = g) →
      (run_ops ops).add_group g n = (false, run_ops ops)) := by
  refine ⟨(run_ops_consistent ops).dev_nodup, (run_ops_consistent ops).grp_nodup, ?_, ?_⟩
  · intro a p n h
    unfold DeviceDB.add_device
    rw [if_pos ((DeviceDB.find_device_isSome_iff _ a).mpr h)]
  · intro g n h
    unfold DeviceDB.add_group
    rw [if_pos ((DeviceDB.find_group_isSome_iff _ g).mpr h)]

/-- Witness for C12: device 100 and group 256 are added twice each, with other names the
second time; the registry still holds one of each, and the second calls fail. -/
theorem registry_ids_unique_witness :
    (run_ops [.add_device 100 1 "Lamp", .add_group 256 "Room"]).add_device 100 2 "Other"
      = (false, run_ops [.add_device 100 1 "Lamp", .add_group 256 "Room"]) ∧
    (run_ops [.add_device 100 1 "Lamp", .add_group 256 "Room"]).add_group 256 "Hall"
      = (false, run_ops [.add_device 100 1 "Lamp", .add_group 256 "Room"]) :=
  ⟨(registry_ids_unique [.add_device 100 1 "Lamp", .add_group 256 "Room"]).2.2.1 100 2 "Other"
      (by decide),
   (registry_ids_unique [.add_device 100 1 "Lamp", .add_group 256 "Room"]).2.2.2 256 "Hall"
      (by decide)⟩

/-! ## Writes to the bridge, notifications, discovery sweeps -/

/-- C17 (the claim as written fails): in the state the hub reaches when it connects
without a passphrase, the crypto session is not initialized, yet `ble_write` returns 0
and performs the GATT write on the LOW characteristic. -/
theorem ble_write_without_crypto :
    ((AvionMeshHub.setup env_plain {}).handle_all
        events_connect_without_passphrase).crypto_initialized_ = false ∧
    (((AvionMeshHub.setup env_plain {}).handle_all
        events_connect_without_passphrase).ble_write true [1, 2, 3] false true).1 = 0 ∧
    gatt_writes (((AvionMeshHub.setup env_plain {}).handle_all
        events_connect_without_passphrase).ble_write true [1, 2, 3] false true).2
      = [Effect.gattc_write_char 3 1 33 [1, 2, 3] false] := by
  decide

/-- C17 (amended): in every hub state in which `ble_state_` differs from Ready or a
characteristic handle is 0, `ble_write` returns -1 and leaves the hub as it is, so it
performs no GATT write; in every other state it performs the write on the handle of the
requested characteristic, whatever `crypto_initialized_` is. -/
theorem ble_write_rejects_without_link (s : AvionMeshHub) (low : Bool) (data : List Nat)
    (response write_ok : Bool) :
    ((s.ble_state_ ≠ BleState.Ready ∨ s.char_low_handle_ = 0 ∨ s.char_high_handle_ = 0) →
      s.ble_write low data response write_ok = (-1, s)) ∧
    (s.ble_state_ = BleState.Ready → s.char_low_handle_ ≠ 0 → s.char_high_handle_ ≠ 0 →
      (s.ble_write low data response write_ok).2 =
        s.emit (.gattc_write_char s.gattc_if_ s.conn_id_
          (if low then s.char_low_handle_ else s.char_high_handle_) data response)) := by
  constructor
  · intro h
    unfold AvionMeshHub.ble_write
    rw [if_pos]
    rcases h with h | h | h
    · simp [h]
    · simp [h]
    · simp [h]
  · intro h1 h2 h3
    unfold AvionMeshHub.ble_write
    rw [if_neg]
    simp [h1, h2, h3]

/-- Witness for C17: a hub in state Scanning rejects the write, and `hub_ready` performs
it. -/
theorem ble_write_rejects_without_link_witness :
    ({ ble_state_ := BleState.Scanning, char_low_handle_ := 33, char_high_handle_ := 36 } :
        AvionMeshHub).ble_write true [1, 2, 3] false true
      = (-1, { ble_state_ := BleState.Scanning, char_low_handle_ := 33,
               char_high_handle_ := 36 }) ∧
    (hub_ready.ble_write false [7] true true).2
      = hub_ready.emit (.gattc_write_char 0 0 36 [7] true) :=
  ⟨(ble_write_rejects_without_link
      { ble_state_ := BleState.Scanning, char_low_handle_ := 33, char_high_handle_ := 36 }
      true [1, 2, 3] false true).1 (Or.inl (by decide)),
   (ble_write_rejects_without_link hub_ready false [7] true true).2 rfl (by decide)
      (by decide)⟩

/-- C18 (the code departs from the claim): started without a passphrase, the hub that
connects to a bridge and finds both characteristics hands a notification on the LOW
characteristic to `csrmesh::feed_notify` although `crypto_initialized_` is false. -/
theorem notification_decoded_without_crypto :
    ((AvionMeshHub.setup env_plain {}).handle_all
        (events_connect_without_passphrase ++
          [(7000, .gattc 3 (.NOTIFY_EVT 33 [1, 2, 3]))])).crypto_initialized_ = false ∧
    decoded_notifications ((AvionMeshHub.setup env_plain {}).handle_all
        (events_connect_without_passphrase ++
          [(7000, .gattc 3 (.NOTIFY_EVT 33 [1, 2, 3]))]))
      = [Effect.feed_notify true [1, 2, 3] 7000] := by
  decide

/-- C15 (the code departs from the claim): while a discovery sweep is active and has
recorded device 100, `handle_discover_mesh` answers busy and keeps the sweep, but
`handle_claim_device_auto` empties the discovered set and sends a second broadcast
ping. -/
theorem claim_auto_restarts_sweep :
    hub_sweeping.discovering_mesh_ = true ∧
    hub_sweeping.discovered_devices_.map (fun d => d.device_id) = [100] ∧
    (hub_sweeping.handle_discover_mesh).discovered_devices_ = hub_sweeping.discovered_devices_ ∧
    mesh_commands hub_sweeping.handle_discover_mesh = [Command.ping 0] ∧
    (hub_sweeping.handle_claim_device_auto).discovered_devices_ = [] ∧
    mesh_commands hub_sweeping.handle_claim_device_auto = [Command.ping 0, Command.ping 0] := by
  decide

/-! ## Frames from the mesh: discovery sweeps and examine queries -/

theorem publish_device_state_calls_no_response (env : Env) (s : AvionMeshHub) (i : Nat) :
    (AvionMeshHub.publish_device_state_calls env s i).filterMap response_text = [] := by
  unfold AvionMeshHub.publish_device_state_calls
  split
  · rfl
  · split
    · rfl
    · split
      · rfl
      · simp only [List.filterMap_append]
        split <;> split <;> (try split) <;> rfl

theorem query_view_emits (s : AvionMeshHub) (l : List Effect) :
    query_view (s.emits l) =
      { query_view s with responses := (query_view s).responses ++ l.filterMap response_text } := by
  simp [query_view, responses, AvionMeshHub.emits, List.filterMap_append]

theorem query_view_emit (s : AvionMeshHub) (e : Effect) :
    query_view (s.emit e) =
      { query_view s with
        responses := (query_view s).responses ++ [e].filterMap response_text } := by
  simp [query_view, responses, AvionMeshHub.emit, List.filterMap_append]

theorem query_view_rx_status (lib : MeshLib) (env : Env) (s : AvionMeshHub) (f : Frame) :
    query_view (AvionMeshHub.rx_status lib env s f) = query_view s := by
  unfold AvionMeshHub.rx_status
  split
  · rfl
  · split
    · rfl
    · unfold AvionMeshHub.publish_device_state
      rw [query_view_emits, publish_device_state_calls_no_response]
      simp [query_view, responses]

theorem query_view_rx_examine (s : AvionMeshHub) (f : Frame) :
    query_view (AvionMeshHub.rx_examine s f) =
      { query_view s with
        examining := s.examining_ && !(AvionMeshHub.rx_device_id f == s.examine_target_)
        responses := responses s ++
          (if s.examining_ && AvionMeshHub.rx_device_id f == s.examine_target_ then
            [AvionMeshHub.examine_response (AvionMeshHub.rx_device_id f) f.payload]
           else []) } := by
  unfold AvionMeshHub.rx_examine
  by_cases h : (s.examining_ && AvionMeshHub.rx_device_id f == s.examine_target_) = true
  · rw [if_pos h, if_pos h, query_view_emit, query_view_emits]
    have h2 := h
    simp only [Bool.and_eq_true] at h2
    by_cases hw : s.web_handler_ = true
    · simp [query_view, responses, response_text, hw, h2.1, h2.2]
    · simp [query_view, responses, response_text, hw, h2.1, h2.2]
  · rw [if_neg h, if_neg h]
    have h3 : (s.examining_ && !(AvionMeshHub.rx_device_id f == s.examine_target_))
        = s.examining_ := by
      cases he : s.examining_ <;> simp_all
    simp [query_view, h3]

theorem query_view_rx_discover (s : AvionMeshHub) (f : Frame) :
    query_view (AvionMeshHub.rx_discover s f) =
      { query_view s with
        discovered :=
          if s.discovering_mesh_ &&
              !(s.discovered_devices_.any
                (fun d => d.device_id == AvionMeshHub.rx_device_id f)) then
            s.discovered_devices_ ++ [AvionMeshHub.rx_discovered f]
          else s.discovered_devices_ } := by
  unfold AvionMeshHub.rx_discover
  by_cases hd : s.discovering_mesh_ = true
  · rw [if_pos hd]
    by_cases hs : (s.discovered_devices_.any
        (fun d => d.device_id == AvionMeshHub.rx_device_id f)) = true
    · rw [if_pos hs]
      simp [query_view, hd, hs]
    · rw [if_neg hs, query_view_emits]
      by_cases hw : s.web_handler_ = true
      · simp [query_view, responses, response_text, hw, hd, hs]
      · simp [query_view, responses, response_text, hw, hd, hs]
  · rw [if_neg hd]
    simp [query_view, hd]

theorem query_view_rx_ping (lib : MeshLib) (s : AvionMeshHub) (f : Frame) :
    query_view (AvionMeshHub.rx_ping lib s f).2 = query_step lib (query_view s) f := by
  unfold AvionMeshHub.rx_ping query_step
  by_cases h1 : ((s.discovering_mesh_ || s.examining_) && AvionMeshHub.rx_is_ping lib f) = true
  · rw [if_pos h1]
    by_cases h2 : (s.discovering_mesh_ && f.mcp_source == 0) = true
    · rw [if_pos h2]
      have : ((query_view s).discovering && f.mcp_source == 0) = true := h2
      simp [this]
    · rw [if_neg h2]
      have h1q : (((query_view s).discovering || (query_view s).examining) &&
          AvionMeshHub.rx_is_ping lib f) = true := h1
      have h2q : ¬ ((query_view s).discovering && f.mcp_source == 0) = true := h2
      simp only [h1q, Bool.not_eq_true] at h2q ⊢
      simp only [h2q, Bool.not_false, Bool.and_true, if_true]
      rw [query_view_rx_discover, query_view_rx_examine]
      have e1 : (AvionMeshHub.rx_examine s f).discovering_mesh_ = s.discovering_mesh_ := by
        unfold AvionMeshHub.rx_examine; split <;> rfl
      have e2 : (AvionMeshHub.rx_examine s f).discovered_devices_ = s.discovered_devices_ := by
        unfold AvionMeshHub.rx_examine; split <;> rfl
      rw [e1, e2]
      rfl
  · rw [if_neg h1]
    have h1q : ¬ (((query_view s).discovering || (query_view s).examining) &&
        AvionMeshHub.rx_is_ping lib f) = true := h1
    simp only [Bool.not_eq_true] at h1q
    simp [h1q]

theorem rx_ping_returns (lib : MeshLib) (s : AvionMeshHub) (f : Frame)
    (h : (AvionMeshHub.rx_ping lib s f).1 = true) : (AvionMeshHub.rx_ping lib s f).2 = s := by
  unfold AvionMeshHub.rx_ping at h ⊢
  split
  · split
    · rfl
    · rename_i h1 h2
      rw [if_pos h1, if_neg h2] at h
      cases h
  · rfl

theorem query_view_on_mesh_rx (lib : MeshLib) (env : Env) (s : AvionMeshHub) (f : Frame) :
    query_view (AvionMeshHub.on_mesh_rx lib env s f) = query_step lib (query_view s) f := by
  have hq : query_view { s with rx_count_ := (s.rx_count_ + 1) % 2 ^ 32 } = query_view s := rfl
  unfold AvionMeshHub.on_mesh_rx
  dsimp only
  split
  · rw [query_view_rx_ping, hq]
  · rw [query_view_rx_status, query_view_rx_ping, hq]

theorem query_view_rx_all (lib : MeshLib) (env : Env) (fs : List Frame) :
    ∀ s : AvionMeshHub,
      query_view (AvionMeshHub.rx_all lib env s fs) = fs.foldl (query_step lib) (query_view s) := by
  induction fs with
  | nil => intro s; rfl
  | cons f fs ih =>
    intro s
    show query_view (AvionMeshHub.rx_all lib env (AvionMeshHub.on_mesh_rx lib env s f) fs) = _
    rw [ih, query_view_on_mesh_rx]
    rfl

theorem first_by_sublist {α : Type} (key : α → Nat) :
    ∀ l : List α, (first_by key l).Sublist l
  | [] => List.Sublist.slnil
  | x :: xs =>
    List.Sublist.cons₂ x ((List.filter_sublist _).trans (first_by_sublist key xs))

theorem query_step_discovering (lib : MeshLib) (v : QueryView) (f : Frame) :
    (query_step lib v f).discovering = v.discovering := by
  unfold query_step
  split <;> rfl

theorem query_step_resolving (lib : MeshLib) (v : QueryView) (f : Frame)
    (he : v.examining = true)
    (hr : resolves_examine lib v.discovering v.target f = true) :
    (query_step lib v f).examining = false ∧ (query_step lib v f).target = v.target ∧
    (query_step lib v f).responses =
      v.responses ++ [AvionMeshHub.examine_response v.target f.payload] := by
  unfold resolves_examine at hr
  simp only [Bool.and_eq_true, beq_iff_eq] at hr
  obtain ⟨⟨hp, hid⟩, hsk⟩ := hr
  unfold query_step
  simp [he, hp, hid, hsk]

theorem query_step_not_resolving (lib : MeshLib) (v : QueryView) (f : Frame)
    (he : v.examining = true)
    (hr : resolves_examine lib v.discovering v.target f = false) :
    (query_step lib v f).examining = true ∧ (query_step lib v f).target = v.target ∧
    (query_step lib v f).responses = v.responses := by
  unfold resolves_examine at hr
  unfold query_step
  cases hp : AvionMeshHub.rx_is_ping lib f <;>
    cases hid : (AvionMeshHub.rx_device_id f == v.target) <;>
    cases hsk : (v.discovering && f.mcp_source == 0) <;>
    simp_all

theorem query_fold_not_resolving (lib : MeshLib) (fs : List Frame) :
    ∀ v : QueryView, v.examining = true →
      (∀ g ∈ fs, resolves_examine lib v.discovering v.target g = false) →
      (fs.foldl (query_step lib) v).examining = true ∧
      (fs.foldl (query_step lib) v).target = v.target ∧
      (fs.foldl (query_step lib) v).responses = v.responses ∧
      (fs.foldl (query_step lib) v).discovering = v.discovering := by
  induction fs with
  | nil => intro v he _; exact ⟨he, rfl, rfl, rfl⟩
  | cons f fs ih =>
    intro v he hfs
    obtain ⟨h1, h2, h3⟩ := query_step_not_resolving lib v f he (hfs f (List.mem_cons_self _ _))
    have h4 := query_step_discovering lib v f
    rw [List.foldl_cons]
    have := ih (query_step lib v f) h1 (by
      intro g hg
      rw [h4, h2]
      exact hfs g (List.mem_cons_of_mem _ hg))
    rw [h2, h3, h4] at this
    exact this

theorem examine_timeout_idle (s : AvionMeshHub) (h : s.examining_ = false) :
    s.examine_timeout = s := by
  unfold AvionMeshHub.examine_timeout
  rw [if_neg (by simp [h])]

theorem query_view_examine_timeout (s : AvionMeshHub) (h : s.examining_ = true) :
    query_view s.examine_timeout =
      { query_view s with
        examining := false
        responses := responses s ++
          [AvionMeshHub.examine_timeout_response s.examine_target_] } := by
  unfold AvionMeshHub.examine_timeout
  rw [if_pos h, query_view_emit, query_view_emits]
  by_cases hw : s.web_handler_ = true
  · simp [query_view, responses, response_text, hw]
  · simp [query_view, responses, response_text, hw]

theorem query_view_handle_examine_device (s : AvionMeshHub) (t : Nat)
    (h : s.examining_ = false) :
    query_view (s.handle_examine_device t) =
      { query_view s with examining := true, target := t } := by
  unfold AvionMeshHub.handle_examine_device
  rw [if_neg (by simp [h]), query_view_emit, query_view_emit]
  simp [query_view, responses, response_text]

theorem query_view_examine_pending (lib : MeshLib) (env : Env) (s : AvionMeshHub) (t : Nat)
    (fs : List Frame) (h0 : s.examining_ = false)
    (hfs : ∀ g ∈ fs, resolves_examine lib s.discovering_mesh_ t g = false) :
    (query_view (examine_pending lib env s t fs)).examining = true ∧
    (query_view (examine_pending lib env s t fs)).target = t ∧
    (query_view (examine_pending lib env s t fs)).responses = responses s ∧
    (query_view (examine_pending lib env s t fs)).discovering = s.discovering_mesh_ := by
  unfold examine_pending
  rw [query_view_rx_all, query_view_handle_examine_device s t h0]
  exact query_fold_not_resolving lib fs _ rfl hfs

/-- C16 (the claim as written fails for the hub's own echo): during a discovery sweep an
examine query for target 0 is accepted; a frame with the model opcode, the Ping verb, ten
payload bytes and originating id 0 arrives with `mcp_source` 0, and `on_mesh_rx` skips it:
the query stays pending and no examine result is emitted, and the timeout callback then
reports a timeout. -/
theorem examine_echo_is_skipped :
    AvionMeshHub.rx_is_ping lib_plain (frame_ping 0 0) = true ∧
    AvionMeshHub.rx_device_id (frame_ping 0 0) = 0 ∧
    (examine_pending lib_plain env_plain hub_sweeping 0 [frame_ping 0 0]).examining_ = true ∧
    responses (examine_pending lib_plain env_plain hub_sweeping 0 [frame_ping 0 0]) = [] ∧
    responses (examine_pending lib_plain env_plain hub_sweeping 0
        [frame_ping 0 0]).examine_timeout
      = [AvionMeshHub.examine_timeout_response 0] :=
  ⟨by decide, by decide, by decide, by decide, rfl⟩

/-- C16 (amended): let an examine query for target `t` be accepted (no query was
pending), and let frames arrive of which none resolves it, where a frame resolves the
query when it has the model opcode, the Ping verb in byte 0, at least 10 payload bytes
and originating id `t`, and is not skipped as the hub's own echo (`mcp_source` 0 while a
discovery sweep is active). Then the query is still pending for `t` and no response was
emitted. If a resolving frame `f` arrives next, the query is cleared, exactly one
response, the examine result, is emitted, and the timeout callback then changes nothing.
If instead the timeout callback runs, it clears the query and emits exactly one
response, the timeout error for `t`, and a second run of the callback changes nothing.
A `handle_examine_device` call made while the query is pending only emits the busy
response, so `examine_target_` is unchanged. -/
theorem examine_query_resolves_once (lib : MeshLib) (env : Env) (s : AvionMeshHub)
    (t : Nat) (fs : List Frame) (f : Frame) (t2 : Nat)
    (h0 : s.examining_ = false)
    (hfs : ∀ g ∈ fs, resolves_examine lib s.discovering_mesh_ t g = false) :
    ((examine_pending lib env s t fs).examining_ = true ∧
      (examine_pending lib env s t fs).examine_target_ = t ∧
      responses (examine_pending lib env s t fs) = responses s) ∧
    (resolves_examine lib s.discovering_mesh_ t f = true →
      ((examine_pending lib env s t fs).on_mesh_rx lib env f).examining_ = false ∧
      responses ((examine_pending lib env s t fs).on_mesh_rx lib env f)
        = responses s ++ [AvionMeshHub.examine_response t f.payload] ∧
      ((examine_pending lib env s t fs).on_mesh_rx lib env f).examine_timeout
        = (examine_pending lib env s t fs).on_mesh_rx lib env f) ∧
    ((examine_pending lib env s t fs).examine_timeout.examining_ = false ∧
      responses (examine_pending lib env s t fs).examine_timeout
        = responses s ++ [AvionMeshHub.examine_timeout_response t] ∧
      (examine_pending lib env s t fs).examine_timeout.examine_timeout
        = (examine_pending lib env s t fs).examine_timeout) ∧
    ((examine_pending lib env s t fs).handle_examine_device t2
        = (examine_pending lib env s t fs).emit examine_busy_response ∧
      ((examine_pending lib env s t fs).handle_examine_device t2).examine_target_ = t) := by
  obtain ⟨p1, p2, p3, p4⟩ := query_view_examine_pending lib env s t fs h0 hfs
  have q1 : (examine_pending lib env s t fs).examining_ = true := p1
  have q2 : (examine_pending lib env s t fs).examine_target_ = t := p2
  have q3 : responses (examine_pending lib env s t fs) = responses s := p3
  have q4 : (examine_pending lib env s t fs).discovering_mesh_ = s.discovering_mesh_ := p4
  have hbusy : (examine_pending lib env s t fs).handle_examine_device t2
      = (examine_pending lib env s t fs).emit examine_busy_response := by
    unfold AvionMeshHub.handle_examine_device
    rw [if_pos q1]
    rfl
  refine ⟨⟨q1, q2, q3⟩, ?_, ?_, hbusy, ?_⟩
  · intro hr
    have hv := query_view_on_mesh_rx lib env (examine_pending lib env s t fs) f
    have hr2 : resolves_examine lib (query_view (examine_pending lib env s t fs)).discovering
        (query_view (examine_pending lib env s t fs)).target f = true := by
      rw [p2, p4]; exact hr
    obtain ⟨r1, r2, r3⟩ := query_step_resolving lib _ f p1 hr2
    rw [← hv] at r1 r3
    have e1 : ((examine_pending lib env s t fs).on_mesh_rx lib env f).examining_ = false := r1
    refine ⟨e1, ?_, examine_timeout_idle _ e1⟩
    rw [p2, p3] at r3
    exact r3
  · have hv := query_view_examine_timeout (examine_pending lib env s t fs) q1
    have e1 : (examine_pending lib env s t fs).examine_timeout.examining_ = false :=
      congrArg QueryView.examining hv
    refine ⟨e1, ?_, examine_timeout_idle _ e1⟩
    have e2 := congrArg QueryView.responses hv
    rw [q2, q3] at e2
    exact e2
  · rw [hbusy]
    exact q2

/-- Witness for C16: `hub_ready` examines device 100 and a ping answer of device 101
arrives first; the answer of device 100 then resolves the query, and without it the
timeout callback reports the timeout. -/
theorem examine_query_resolves_once_witness :
    responses ((examine_pending lib_plain env_plain hub_ready 100
        [frame_ping 101 0]).on_mesh_rx lib_plain env_plain (frame_ping 100 0))
      = [AvionMeshHub.examine_response 100 [1, 0, 0, 1, 2, 3, 0, 1, 4, 9]] ∧
    responses (examine_pending lib_plain env_plain hub_ready 100
        [frame_ping 101 0]).examine_timeout
      = [AvionMeshHub.examine_timeout_response 100] :=
  ⟨((examine_query_resolves_once lib_plain env_plain hub_ready 100 [frame_ping 101 0]
      (frame_ping 100 0) 7 rfl (by decide)).2.1 (by decide)).2.1,
   (examine_query_resolves_once lib_plain env_plain hub_ready 100 [frame_ping 101 0]
      (frame_ping 100 0) 7 rfl (by decide)).2.2.1.2.1⟩

/-! ## Management commands while the bridge link is not ready -/

theorem snprintf_short (size : Nat) (s : String) (h : s.length ≤ size - 1) :
    snprintf size s = s := by
  unfold snprintf
  rw [String.take_eq, List.take_of_length_le h]

theorem ble_not_ready_text_length (a : String) (st : BleState) :
    (AvionMeshHub.ble_not_ready_text a st).length = a.length + 70 := by
  have h1 : (toString st.toNat).length = 1 := by
    cases st <;> rfl
  simp only [AvionMeshHub.ble_not_ready_text, json_obj, String.length_append, h1]
  have e1 : "\x7b".length = 1 := rfl
  have e2 : "\"action\":\"".length = 10 := rfl
  have e3 : "\",\"status\":\"error\",\"message\":\"ble_not_ready\",\"ble_state\":".length
      = 57 := rfl
  have e4 : "\x7d".length = 1 := rfl
  rw [e1, e2, e3, e4]
  omega

theorem on_mqtt_command_not_ready (env : Env) (s : AvionMeshHub) (now : Nat)
    (tm : Option Tm) (root : MgmtRoot) (ha : root.action ≠ "status")
    (hb : s.ble_state_ ≠ BleState.Ready) :
    s.on_mqtt_command env now tm (some root) =
      s.emit (.send_response
        (snprintf 128 (AvionMeshHub.ble_not_ready_text root.action s.ble_state_))) := by
  unfold AvionMeshHub.on_mqtt_command
  simp only
  rw [if_neg (by simpa using ha), if_pos (by simpa using hb)]

/-- C20 (the code departs from the claim): with the link in state Idle, a command whose
action is 120 letters long is answered with the first 127 characters of the text that
the format string describes, because the text is formatted into a buffer of 128 bytes;
the response ends inside the action name and carries neither the status "error" nor the
message "ble_not_ready". -/
theorem ble_not_ready_response_is_cut :
    responses (({} : AvionMeshHub).on_mqtt_command env_plain 0 none
        (some { action := String.mk (List.replicate 120 'x') }))
      = ["\x7b\"action\":\"" ++ String.mk (List.replicate 116 'x')] := by
  have h : snprintf 128
      (AvionMeshHub.ble_not_ready_text (String.mk (List.replicate 120 'x')) BleState.Idle)
      = "\x7b\"action\":\"" ++ String.mk (List.replicate 116 'x') := by
    unfold snprintf
    rw [String.take_eq]
    apply String.ext
    simp only [AvionMeshHub.ble_not_ready_text, json_obj, String.data_append]
    rfl
  rw [on_mqtt_command_not_ready env_plain {} 0 none _ (by decide) (by decide)]
  show [snprintf 128
      (AvionMeshHub.ble_not_ready_text (String.mk (List.replicate 120 'x')) BleState.Idle)] = _
  rw [h]

/-- What holds of the not-ready answer for every command: when the action is not
"status" and `ble_state_` is not Ready, `on_mqtt_command` makes exactly one call, a
response that holds the first 127 characters of the text with the action, status
"error", message "ble_not_ready" and the link state; the text is whole when the action
has at most 57 characters. No mesh command is issued, and the registry, the association
state and the discovery and examine state are unchanged. -/
theorem ble_not_ready_rejects_command (env : Env) (s : AvionMeshHub) (now : Nat)
    (tm : Option Tm) (root : MgmtRoot) (ha : root.action ≠ "status")
    (hb : s.ble_state_ ≠ BleState.Ready) :
    (s.on_mqtt_command env now tm (some root)).out_ =
      s.out_ ++ [Effect.send_response
        (snprintf 128 (AvionMeshHub.ble_not_ready_text root.action s.ble_state_))] ∧
    (root.action.length ≤ 57 →
      snprintf 128 (AvionMeshHub.ble_not_ready_text root.action s.ble_state_) =
        "\x7b\"action\":\"" ++ root.action ++
          "\",\"status\":\"error\",\"message\":\"ble_not_ready\",\"ble_state\":" ++
          toString s.ble_state_.toNat ++ "\x7d") ∧
    mesh_commands (s.on_mqtt_command env now tm (some root)) = mesh_commands s ∧
    (s.on_mqtt_command env now tm (some root)).db_ = s.db_ ∧
    (s.on_mqtt_command env now tm (some root)).associating_ = s.associating_ ∧
    (s.on_mqtt_command env now tm (some root)).association_start_ms_
      = s.association_start_ms_ ∧
    (s.on_mqtt_command env now tm (some root)).scanning_unassociated_
      = s.scanning_unassociated_ ∧
    (s.on_mqtt_command env now tm (some root)).discovering_mesh_ = s.discovering_mesh_ ∧
    (s.on_mqtt_command env now tm (some root)).discovered_devices_
      = s.discovered_devices_ ∧
    (s.on_mqtt_command env now tm (some root)).examining_ = s.examining_ ∧
    (s.on_mqtt_command env now tm (some root)).examine_target_ = s.examine_target_ := by
  rw [on_mqtt_command_not_ready env s now tm root ha hb]
  refine ⟨rfl, ?_, ?_, rfl, rfl, rfl, rfl, rfl, rfl, rfl, rfl⟩
  · intro hl
    rw [snprintf_short]
    · simp only [AvionMeshHub.ble_not_ready_text, json_obj, String.append_assoc]
      rw [← String.append_assoc]
      rfl
    · rw [ble_not_ready_text_length]
      omega
  · simp [mesh_commands, command_of, AvionMeshHub.emit, List.filterMap_append]

/-- An instance of the not-ready answer: a hub whose link is in state Scanning receives
`claim_device`. -/
theorem ble_not_ready_rejects_command_witness :
    (({ ble_state_ := BleState.Scanning } : AvionMeshHub).on_mqtt_command env_plain 0 none
        (some { action := "claim_device", uuid_hash := 77, device_id := 100 })).out_
      = [Effect.send_response (snprintf 128
          (AvionMeshHub.ble_not_ready_text "claim_device" BleState.Scanning))] ∧
    snprintf 128 (AvionMeshHub.ble_not_ready_text "claim_device" BleState.Scanning) =
      "\x7b\"action\":\"" ++ "claim_device" ++
        "\",\"status\":\"error\",\"message\":\"ble_not_ready\",\"ble_state\":" ++
        toString BleState.Scanning.toNat ++ "\x7d" :=
  ⟨(ble_not_ready_rejects_command env_plain { ble_state_ := BleState.Scanning } 0 none
      { action := "claim_device", uuid_hash := 77, device_id := 100 }
      (by decide) (by decide)).1,
   (ble_not_ready_rejects_command env_plain { ble_state_ := BleState.Scanning } 0 none
      { action := "claim_device", uuid_hash := 77, device_id := 100 }
      (by decide) (by decide)).2.1 (by decide)⟩

/-! ## Persistence of the registry -/

/-- C13 (the code departs from the claim): a registry with one device whose name has 256
bytes is saved; `save` writes the length byte 0 followed by all 256 bytes of the name.
`load` into an empty registry then reads a device with an empty name and takes the bytes
of the name for a group count of 24929 and for 127 group ids, so the device list is not
the one that was saved. -/
theorem long_name_breaks_round_trip :
    (({ nvs := db_long_name.save.nvs } : DeviceDB).load).devices_
      = [{ avion_id := 1, product_type := 2, name := "",
           groups := List.replicate 127 24929 ++ [0] }] ∧
    (({ nvs := db_long_name.save.nvs } : DeviceDB).load).devices_ ≠ db_long_name.devices_ := by
  have h : (({ nvs := db_long_name.save.nvs } : DeviceDB).load).devices_
      = [{ avion_id := 1, product_type := 2, name := "",
           groups := List.replicate 127 24929 ++ [0] }] := by
    set_option maxRecDepth 100000 in rfl
  refine ⟨h, ?_⟩
  rw [h]
  intro h2
  have h3 := congrArg (fun l => l.map (fun d => d.groups.isEmpty)) h2
  revert h3
  decide

/-! ## Import -/

theorem first_by_filter {α : Type} (key : α → Nat) (q : α → Bool)
    (hq : ∀ x y, key x = key y → q x = q y) :
    ∀ l : List α, first_by key (l.filter q) = (first_by key l).filter q
  | [] => rfl
  | x :: xs => by
    have ih := first_by_filter key q hq xs
    by_cases hx : q x = true
    · simp only [List.filter_cons, hx, if_true, first_by, ih, List.filter_filter]
      congr 1
      apply List.filter_congr
      intro y _
      exact Bool.and_comm _ _
    · have hx2 : q x = false := Bool.eq_false_iff.mpr hx
      simp only [List.filter_cons, hx2, first_by, ih, List.filter_filter, Bool.false_eq_true,
        if_false]
      apply List.filter_congr
      intro y _
      by_cases hy : key y = key x
      · rw [hq y x hy, hx2]; rfl
      · have e : (key y != key x) = true := by rw [bne, beq_false_of_ne hy]; rfl
        rw [e, Bool.and_true]

theorem devext_refl (d : DeviceEntry) : DevExt d d :=
  ⟨rfl, rfl, rfl, List.prefix_refl _⟩

theorem devext_trans {a b c : DeviceEntry} (h1 : DevExt a b) (h2 : DevExt b c) : DevExt a c :=
  ⟨h2.1.trans h1.1, h2.2.1.trans h1.2.1, h2.2.2.1.trans h1.2.2.1, h1.2.2.2.trans h2.2.2.2⟩

theorem grpext_refl (g : GroupEntry) : GrpExt g g :=
  ⟨rfl, rfl, List.prefix_refl _⟩

theorem grpext_trans {a b c : GroupEntry} (h1 : GrpExt a b) (h2 : GrpExt b c) : GrpExt a c :=
  ⟨h2.1.trans h1.1, h2.2.1.trans h1.2.1, h1.2.2.trans h2.2.2⟩

theorem forall₂_refl_of {α : Type} (r : α → α → Prop) (h : ∀ a, r a a) :
    ∀ l : List α, List.Forall₂ r l l
  | [] => List.Forall₂.nil
  | a :: l => List.Forall₂.cons (h a) (forall₂_refl_of r h l)

theorem forall₂_trans_of {α : Type} (r : α → α → Prop)
    (h : ∀ a b c, r a b → r b c → r a c) :
    ∀ l1 l2 l3 : List α, List.Forall₂ r l1 l2 → List.Forall₂ r l2 l3 → List.Forall₂ r l1 l3
  | _, _, _, List.Forall₂.nil, List.Forall₂.nil => List.Forall₂.nil
  | _, _, _, List.Forall₂.cons h1 t1, List.Forall₂.cons h2 t2 =>
    List.Forall₂.cons (h _ _ _ h1 h2) (forall₂_trans_of r h _ _ _ t1 t2)

theorem forall₂_append_of {α : Type} (r : α → α → Prop) :
    ∀ l1 l2 m1 m2 : List α, List.Forall₂ r l1 l2 → List.Forall₂ r m1 m2 →
      List.Forall₂ r (l1 ++ m1) (l2 ++ m2)
  | _, _, _, _, List.Forall₂.nil, hm => hm
  | _, _, _, _, List.Forall₂.cons h1 t1, hm =>
    List.Forall₂.cons h1 (forall₂_append_of r _ _ _ _ t1 hm)

theorem prefix_push_back_unique (v : List Nat) (x : Nat) :
    v <+: DeviceDB.push_back_unique v x := by
  unfold DeviceDB.push_back_unique
  split
  · exact List.prefix_refl _
  · exact List.prefix_append _ _

theorem devext_modify_device (g a : Nat) :
    ∀ l : List DeviceEntry, List.Forall₂ DevExt l
      (DeviceDB.modify_device
        (fun d => { d with groups := DeviceDB.push_back_unique d.groups g }) a l)
  | [] => List.Forall₂.nil
  | d :: ds => by
    unfold DeviceDB.modify_device
    split
    · exact List.Forall₂.cons ⟨rfl, rfl, rfl, prefix_push_back_unique _ _⟩
        (forall₂_refl_of DevExt devext_refl ds)
    · exact List.Forall₂.cons (devext_refl d) (devext_modify_device g a ds)

theorem grpext_modify_group (g a : Nat) :
    ∀ l : List GroupEntry, List.Forall₂ GrpExt l
      (DeviceDB.modify_group
        (fun x => { x with member_ids := DeviceDB.push_back_unique x.member_ids a }) g l)
  | [] => List.Forall₂.nil
  | d :: ds => by
    unfold DeviceDB.modify_group
    split
    · exact List.Forall₂.cons ⟨rfl, rfl, prefix_push_back_unique _ _⟩
        (forall₂_refl_of GrpExt grpext_refl ds)
    · exact List.Forall₂.cons (grpext_refl d) (grpext_modify_group g a ds)

theorem ext_add_device_to_group (db : DeviceDB) (a g : Nat) :
    List.Forall₂ DevExt db.devices_ (db.add_device_to_group a g).2.devices_ ∧
    List.Forall₂ GrpExt db.groups_ (db.add_device_to_group a g).2.groups_ := by
  unfold DeviceDB.add_device_to_group
  split
  · exact ⟨forall₂_refl_of DevExt devext_refl _, forall₂_refl_of GrpExt grpext_refl _⟩
  · exact ⟨devext_modify_device g a _, grpext_modify_group g a _⟩

theorem ext_import_members (group_id : Nat) (members : List Nat) :
    ∀ s : AvionMeshHub,
      List.Forall₂ DevExt s.db_.devices_
        (AvionMeshHub.import_members group_id s members).db_.devices_ ∧
      List.Forall₂ GrpExt s.db_.groups_
        (AvionMeshHub.import_members group_id s members).db_.groups_ := by
  induction members with
  | nil => intro s; exact ⟨forall₂_refl_of DevExt devext_refl _, forall₂_refl_of GrpExt grpext_refl _⟩
  | cons m rest ih =>
    intro s
    unfold AvionMeshHub.import_members
    split
    · have h1 := ext_add_device_to_group s.db_ m group_id
      have h2 := ih (({ s with db_ := (s.db_.add_device_to_group m group_id).2 }).emit
        (.send_cmd (.insert_group m group_id)))
      exact ⟨forall₂_trans_of DevExt (fun _ _ _ => devext_trans) _ _ _ h1.1 h2.1,
        forall₂_trans_of GrpExt (fun _ _ _ => grpext_trans) _ _ _ h1.2 h2.2⟩
    · exact ih s

theorem grpext_ids (l1 l2 : List GroupEntry) (h : List.Forall₂ GrpExt l1 l2) :
    l2.map (fun g => g.group_id) = l1.map (fun g => g.group_id) := by
  induction h with
  | nil => rfl
  | cons h1 _ ih => simp [h1.1, ih]

theorem import_devices_spec (env : Env) (devs : List ImportDevice) :
    ∀ (s : AvionMeshHub) (added : Nat),
      (AvionMeshHub.import_devices env (s, added) devs).1.db_.devices_ =
        s.db_.devices_ ++ (import_new_devices s.db_ devs).map ImportDevice.entry ∧
      (AvionMeshHub.import_devices env (s, added) devs).2 =
        added + (import_new_devices s.db_ devs).length ∧
      (AvionMeshHub.import_devices env (s, added) devs).1.db_.groups_ = s.db_.groups_ := by
  induction devs with
  | nil => intro s added; simp [AvionMeshHub.import_devices, import_new_devices, first_by]
  | cons e rest ih =>
    intro s added
    unfold AvionMeshHub.import_devices
    by_cases h0 : (e.device_id == 0) = true
    · rw [if_pos h0]
      have hf : (e.device_id != 0 && (s.db_.find_device e.device_id).isNone) = false := by
        simp [bne, h0]
      have := ih s added
      simpa [import_new_devices, List.filter_cons, hf] using this
    · rw [if_neg h0]
      by_cases h1 : (s.db_.find_device e.device_id).isSome = true
      · rw [if_pos h1]
        have hf : (e.device_id != 0 && (s.db_.find_device e.device_id).isNone) = false := by
          cases hh : s.db_.find_device e.device_id <;> simp_all
        have := ih s added
        simpa [import_new_devices, List.filter_cons, hf] using this
      · rw [if_neg h1]
        have hnone : (s.db_.find_device e.device_id).isNone = true := by
          cases hh : s.db_.find_device e.device_id <;> simp_all
        have hne : (e.device_id != 0) = true := by
          rw [bne, Bool.eq_false_iff.mpr h0]; rfl
        have hf : (e.device_id != 0 && (s.db_.find_device e.device_id).isNone) = true := by
          rw [hne, hnone]; rfl
        have hadd : (s.db_.add_device e.device_id e.product_type e.name).2.devices_
            = s.db_.devices_ ++ [e.entry] := by
          unfold DeviceDB.add_device
          rw [if_neg h1]
          rfl
        have hadg : (s.db_.add_device e.device_id e.product_type e.name).2.groups_
            = s.db_.groups_ := by
          unfold DeviceDB.add_device
          rw [if_neg h1]
          rfl
        have hnew : import_new_devices
            (s.db_.add_device e.device_id e.product_type e.name).2 rest
            = (import_new_devices s.db_ rest).filter
                (fun x => x.device_id != e.device_id) := by
          unfold import_new_devices
          rw [← first_by_filter (fun x : ImportDevice => x.device_id)
            (fun x => x.device_id != e.device_id) (fun x y h => by simp only [h]),
            List.filter_filter]
          congr 1
          apply List.filter_congr
          intro x _
          have hx : ((s.db_.add_device e.device_id e.product_type e.name).2.find_device
                x.device_id).isNone
              = ((s.db_.find_device x.device_id).isNone && (x.device_id != e.device_id)) := by
            rw [Bool.eq_iff_iff]
            simp only [Bool.and_eq_true, Option.isNone_iff_eq_none,
              ← Option.not_isSome_iff_eq_none, DeviceDB.find_device_isSome_iff, hadd,
              List.mem_append, List.mem_singleton, bne_iff_ne, ne_eq]
            constructor
            · intro h
              refine ⟨fun ⟨d, hd, hid⟩ => h ⟨d, Or.inl hd, hid⟩, fun hxe => ?_⟩
              exact h ⟨e.entry, Or.inr rfl, hxe.symm⟩
            · rintro ⟨h2, h3⟩ ⟨d, hd | hd, hid⟩
              · exact h2 ⟨d, hd, hid⟩
              · subst hd
                exact h3 hid.symm
          rw [hx]
          cases x.device_id != 0 <;> cases (s.db_.find_device x.device_id).isNone <;>
            cases (x.device_id != e.device_id) <;> rfl
        have := ih (({ s with db_ := (s.db_.add_device e.device_id e.product_type e.name).2 }).emit
          (.publish_light e.device_id e.name (env.has_dimming e.product_type)
            (env.has_color_temp e.product_type) (env.product_name e.product_type))) (added + 1)
        have hdb : (({ s with db_ := (s.db_.add_device e.device_id e.product_type e.name).2 }).emit
          (.publish_light e.device_id e.name (env.has_dimming e.product_type)
            (env.has_color_temp e.product_type) (env.product_name e.product_type))).db_
            = (s.db_.add_device e.device_id e.product_type e.name).2 := rfl
        rw [hdb, hnew, hadd, hadg] at this
        have hcur : import_new_devices s.db_ (e :: rest)
            = e :: (import_new_devices s.db_ rest).filter
                (fun x => x.device_id != e.device_id) := by
          unfold import_new_devices
          rw [List.filter_cons, if_pos hf]
          rfl
        rw [hcur]
        refine ⟨?_, ?_, this.2.2⟩
        · rw [this.1]
          simp
        · rw [this.2.1]
          simp
          omega

theorem find_group_isNone_congr (db1 db2 : DeviceDB)
    (h : db2.groups_.map (fun g => g.group_id) = db1.groups_.map (fun g => g.group_id))
    (a : Nat) : (db2.find_group a).isNone = (db1.find_group a).isNone := by
  rw [Bool.eq_iff_iff]
  simp only [Option.isNone_iff_eq_none, ← Option.not_isSome_iff_eq_none,
    DeviceDB.find_group_isSome_ids, h]

theorem import_new_groups_congr (db1 db2 : DeviceDB)
    (h : db2.groups_.map (fun g => g.group_id) = db1.groups_.map (fun g => g.group_id))
    (grps : List ImportGroup) : import_new_groups db2 grps = import_new_groups db1 grps := by
  unfold import_new_groups
  congr 1
  apply List.filter_congr
  intro x _
  rw [find_group_isNone_congr db1 db2 h]

theorem import_new_groups_added (db : DeviceDB) (e : ImportGroup) (rest : List ImportGroup)
    (db2 : DeviceDB)
    (h : db2.groups_.map (fun g => g.group_id)
      = db.groups_.map (fun g => g.group_id) ++ [e.group_id]) :
    import_new_groups db2 rest
      = (import_new_groups db rest).filter (fun x => x.group_id != e.group_id) := by
  unfold import_new_groups
  rw [← first_by_filter (fun x : ImportGroup => x.group_id)
    (fun x => x.group_id != e.group_id) (fun x y h => by simp only [h]),
    List.filter_filter]
  congr 1
  apply List.filter_congr
  intro x _
  have hx : (db2.find_group x.group_id).isNone
      = ((db.find_group x.group_id).isNone && (x.group_id != e.group_id)) := by
    rw [Bool.eq_iff_iff]
    simp only [Bool.and_eq_true, Option.isNone_iff_eq_none,
      ← Option.not_isSome_iff_eq_none, DeviceDB.find_group_isSome_ids, h,
      List.mem_append, List.mem_singleton, bne_iff_ne, ne_eq, not_or]
  rw [hx]
  cases x.group_id != 0 <;> cases (db.find_group x.group_id).isNone <;>
    cases (x.group_id != e.group_id) <;> rfl

theorem import_groups_spec (grps : List ImportGroup) :
    ∀ (s : AvionMeshHub) (added : Nat),
      List.Forall₂ DevExt s.db_.devices_
        (AvionMeshHub.import_groups (s, added) grps).1.db_.devices_ ∧
      List.Forall₂ GrpExt
        (s.db_.groups_ ++ (import_new_groups s.db_ grps).map ImportGroup.entry)
        (AvionMeshHub.import_groups (s, added) grps).1.db_.groups_ ∧
      (AvionMeshHub.import_groups (s, added) grps).2 =
        added + (import_new_groups s.db_ grps).length := by
  induction grps with
  | nil =>
    intro s added
    simp only [AvionMeshHub.import_groups, import_new_groups, first_by, List.filter_nil,
      List.map_nil, List.append_nil, List.length_nil, Nat.add_zero, and_true]
    exact ⟨forall₂_refl_of DevExt devext_refl _, forall₂_refl_of GrpExt grpext_refl _⟩
  | cons e rest ih =>
    intro s added
    unfold AvionMeshHub.import_groups
    by_cases h0 : (e.group_id == 0) = true
    · rw [if_pos h0]
      have hf : (e.group_id != 0 && (s.db_.find_group e.group_id).isNone) = false := by
        simp [bne, h0]
      have := ih s added
      simpa [import_new_groups, List.filter_cons, hf] using this
    · rw [if_neg h0]
      have hne : (e.group_id != 0) = true := by
        rw [bne, Bool.eq_false_iff.mpr h0]; rfl
      by_cases h1 : (s.db_.find_group e.group_id).isNone = true
      · -- the group is new
        simp only [h1, if_true]
        have hsome : ¬ (s.db_.find_group e.group_id).isSome = true := by
          cases hh : s.db_.find_group e.group_id <;> simp_all
        have hadg : (s.db_.add_group e.group_id e.name).2.groups_
            = s.db_.groups_ ++ [e.entry] := by
          unfold DeviceDB.add_group
          rw [if_neg hsome]
          rfl
        have hadd : (s.db_.add_group e.group_id e.name).2.devices_ = s.db_.devices_ := by
          unfold DeviceDB.add_group
          rw [if_neg hsome]
          rfl
        have hm := ext_import_members e.group_id e.members
          (({ s with db_ := (s.db_.add_group e.group_id e.name).2 }).emit
            (.publish_light e.group_id e.name true true ""))
        have hdb : (({ s with db_ := (s.db_.add_group e.group_id e.name).2 }).emit
            (.publish_light e.group_id e.name true true "")).db_
            = (s.db_.add_group e.group_id e.name).2 := rfl
        rw [hdb, hadd, hadg] at hm
        have hi := ih (AvionMeshHub.import_members e.group_id
          (({ s with db_ := (s.db_.add_group e.group_id e.name).2 }).emit
            (.publish_light e.group_id e.name true true "")) e.members) (added + 1)
        have hids := grpext_ids _ _ hm.2
        rw [List.map_append] at hids
        have hnew := import_new_groups_added s.db_ e rest _ hids
        rw [hnew] at hi
        have hcur : import_new_groups s.db_ (e :: rest)
            = e :: (import_new_groups s.db_ rest).filter
                (fun x => x.group_id != e.group_id) := by
          unfold import_new_groups
          rw [List.filter_cons, if_pos (by rw [hne, h1]; rfl)]
          rfl
        rw [hcur]
        refine ⟨forall₂_trans_of DevExt (fun _ _ _ => devext_trans) _ _ _ hm.1 hi.1, ?_, ?_⟩
        · have h3 := forall₂_append_of GrpExt _ _ _ _ hm.2
            (forall₂_refl_of GrpExt grpext_refl
              (((import_new_groups s.db_ rest).filter
                (fun x => x.group_id != e.group_id)).map ImportGroup.entry))
          have h4 := forall₂_trans_of GrpExt (fun _ _ _ => grpext_trans) _ _ _ h3 hi.2.1
          simpa using h4
        · rw [hi.2.2]
          simp
          omega
      · -- the group is in the registry
        simp only [h1, Bool.false_eq_true, if_false]
        have hm := ext_import_members e.group_id e.members s
        have hi := ih (AvionMeshHub.import_members e.group_id s e.members) added
        have hids := grpext_ids _ _ hm.2
        rw [import_new_groups_congr s.db_ _ hids] at hi
        have hf : (e.group_id != 0 && (s.db_.find_group e.group_id).isNone) = false := by
          rw [Bool.eq_false_iff.mpr h1]; simp
        have hcur : import_new_groups s.db_ (e :: rest) = import_new_groups s.db_ rest := by
          unfold import_new_groups
          rw [List.filter_cons, if_neg (by rw [hf]; simp)]
        rw [hcur]
        refine ⟨forall₂_trans_of DevExt (fun _ _ _ => devext_trans) _ _ _ hm.1 hi.1, ?_, hi.2.2⟩
        have h3 := forall₂_append_of GrpExt _ _ _ _ hm.2
          (forall₂_refl_of GrpExt grpext_refl
            ((import_new_groups s.db_ rest).map ImportGroup.entry))
        exact forall₂_trans_of GrpExt (fun _ _ _ => grpext_trans) _ _ _ h3 hi.2.1

theorem update_mesh_initialized_db (s : AvionMeshHub) :
    (AvionMeshHub.update_mesh_initialized s).db_ = s.db_ := by
  unfold AvionMeshHub.update_mesh_initialized
  dsimp only
  split <;> rfl

theorem init_crypto_db (env : Env) (s : AvionMeshHub) :
    (AvionMeshHub.init_crypto env s).2.db_ = s.db_ := by
  unfold AvionMeshHub.init_crypto
  by_cases h1 : s.db_.passphrase_.isEmpty = true
  · rw [if_pos h1]
  · rw [if_neg h1]
    dsimp only
    by_cases h2 : (!env.csrmesh_init_ok s.db_.passphrase_) = true
    · rw [if_pos h2]
      rfl
    · rw [if_neg h2, update_mesh_initialized_db]
      rfl

theorem import_passphrase_db (env : Env) (s : AvionMeshHub) (p : Option String) :
    (AvionMeshHub.import_passphrase env s p).2.db_.devices_ = s.db_.devices_ ∧
    (AvionMeshHub.import_passphrase env s p).2.db_.groups_ = s.db_.groups_ := by
  cases p with
  | none => exact ⟨rfl, rfl⟩
  | some p =>
    unfold AvionMeshHub.import_passphrase
    rw [init_crypto_db]
    exact ⟨rfl, rfl⟩

theorem import_new_devices_congr (db1 db2 : DeviceDB) (h : db2.devices_ = db1.devices_)
    (devs : List ImportDevice) : import_new_devices db2 devs = import_new_devices db1 devs := by
  unfold import_new_devices DeviceDB.find_device
  rw [h]

theorem import_new_groups_congr_db (db1 db2 : DeviceDB) (h : db2.groups_ = db1.groups_)
    (grps : List ImportGroup) : import_new_groups db2 grps = import_new_groups db1 grps := by
  unfold import_new_groups DeviceDB.find_group
  rw [h]

theorem subscribe_all_commands_db (env : Env) (s : AvionMeshHub) :
    (AvionMeshHub.subscribe_all_commands env s).db_ = s.db_ := by
  unfold AvionMeshHub.subscribe_all_commands
  split <;> rfl

theorem apply_import_db (env : Env) (s : AvionMeshHub) (act : DeferredAction) :
    (AvionMeshHub.apply_import env s act).db_ = (AvionMeshHub.import_body env s act.body).1.db_ := by
  have h : (AvionMeshHub.subscribe_all_commands env
      (AvionMeshHub.publish_all_discovery env
        (AvionMeshHub.import_body env s act.body).1)).db_
      = (AvionMeshHub.import_body env s act.body).1.db_ :=
    (subscribe_all_commands_db env _).trans rfl
  unfold AvionMeshHub.apply_import
  simp only
  split
  · exact h
  · exact h

theorem apply_import_report (env : Env) (s : AvionMeshHub) (act : DeferredAction)
    (hw : (AvionMeshHub.apply_import env s act).web_handler_ = true) :
    (AvionMeshHub.apply_import env s act).out_.reverse.take 2 =
      [Effect.reset_sync,
       Effect.send_event "import_result"
        (import_result_text (AvionMeshHub.import_body env s act.body).2.1
          (AvionMeshHub.import_body env s act.body).2.2)] := by
  unfold AvionMeshHub.apply_import at hw ⊢
  simp only at hw ⊢
  split
  · simp [AvionMeshHub.emit, import_result_text]
  · rename_i hneg
    rw [if_neg hneg] at hw
    exact absurd hw hneg

/-- C19 (the claim as written fails in two ways): first, a payload without reset whose
passphrase is the empty text makes `init_crypto` fail and the handler return early, so
the new device 200 of the payload is not added and both counters are 0; second, a
payload whose group 256 lists the registered device 100 as a member changes the groups
of device 100 from none to 256. -/
theorem import_changes_outside_claim :
    ((AvionMeshHub.import_root env_plain hub_ready
        { reset := false, passphrase := some "",
          devices := [{ device_id := 200, name := "New", product_type := 1 }],
          groups := [] }).1.db_.devices_ = hub_ready.db_.devices_ ∧
      (AvionMeshHub.import_root env_plain hub_ready
        { reset := false, passphrase := some "",
          devices := [{ device_id := 200, name := "New", product_type := 1 }],
          groups := [] }).2 = (0, 0)) ∧
    (hub_ready.db_.devices_.map (fun d => (d.avion_id, d.groups)) = [(100, [])] ∧
      (AvionMeshHub.import_root env_plain hub_ready
        { reset := false, passphrase := none, devices := [],
          groups := [{ group_id := 256, name := "Room", members := [100] }]
        }).1.db_.devices_.map (fun d => (d.avion_id, d.groups)) = [(100, [256])]) := by
  decide

/-- C19 (amended): for every Import payload processed without reset, if the payload has
no passphrase or the crypto session initializes with it, then the device list afterwards
is the list before followed by the payload entries with a non-zero id that was not in the
registry, of entries with the same id the first one, in payload order; every device,
old or new, has the id, product type and name it had or was given, and its group ids are
the ones it had followed by those that the membership lists of the payload add; the
counter `added_devices` is the number of entries added. The same holds for the group
list, the member ids and `added_groups`. If the payload's passphrase does not initialize
the crypto session, no device and no group is added and both counters are 0. The
registry of the Import action is the one described, and with the web handler attached
the last two calls report these counters and reset the sync. -/
theorem import_merges_new_entries (env : Env) (s : AvionMeshHub) (root : ImportRoot)
    (hr : root.reset = false) :
    ((AvionMeshHub.import_passphrase env s root.passphrase).1 = true →
      List.Forall₂ DevExt
        (s.db_.devices_ ++ (import_new_devices s.db_ root.devices).map ImportDevice.entry)
        (AvionMeshHub.import_root env s root).1.db_.devices_ ∧
      (AvionMeshHub.import_root env s root).2.1
        = (import_new_devices s.db_ root.devices).length ∧
      List.Forall₂ GrpExt
        (s.db_.groups_ ++ (import_new_groups s.db_ root.groups).map ImportGroup.entry)
        (AvionMeshHub.import_root env s root).1.db_.groups_ ∧
      (AvionMeshHub.import_root env s root).2.2
        = (import_new_groups s.db_ root.groups).length) ∧
    ((AvionMeshHub.import_passphrase env s root.passphrase).1 = false →
      (AvionMeshHub.import_root env s root).1.db_.devices_ = s.db_.devices_ ∧
      (AvionMeshHub.import_root env s root).1.db_.groups_ = s.db_.groups_ ∧
      (AvionMeshHub.import_root env s root).2 = (0, 0)) ∧
    (∀ act : DeferredAction, env.parse_import act.body = some root →
      (AvionMeshHub.apply_import env s act).db_ = (AvionMeshHub.import_root env s root).1.db_ ∧
      ((AvionMeshHub.apply_import env s act).web_handler_ = true →
        (AvionMeshHub.apply_import env s act).out_.reverse.take 2 =
          [Effect.reset_sync,
           Effect.send_event "import_result"
            (import_result_text (AvionMeshHub.import_root env s root).2.1
              (AvionMeshHub.import_root env s root).2.2)])) := by
  have hreset : AvionMeshHub.import_reset s root.reset = s := by
    unfold AvionMeshHub.import_reset
    rw [hr]
    rfl
  have hpd := import_passphrase_db env s root.passphrase
  refine ⟨?_, ?_, ?_⟩
  · intro hp
    unfold AvionMeshHub.import_root
    simp only [hreset, hp, Bool.not_true, Bool.false_eq_true, if_false]
    have hd := import_devices_spec env root.devices
      (AvionMeshHub.import_passphrase env s root.passphrase).2 0
    have hg := import_groups_spec root.groups
      (AvionMeshHub.import_devices env
        ((AvionMeshHub.import_passphrase env s root.passphrase).2, 0) root.devices).1 0
    rw [import_new_devices_congr s.db_ _ hpd.1, hpd.1, hpd.2] at hd
    rw [import_new_groups_congr_db s.db_ _ hd.2.2, hd.2.2, hd.1] at hg
    refine ⟨hg.1, ?_, hg.2.1, ?_⟩
    · rw [hd.2.1]; simp
    · rw [hg.2.2]; simp
  · intro hp
    unfold AvionMeshHub.import_root
    simp only [hreset, hp, Bool.not_false, if_true]
    exact ⟨hpd.1, hpd.2, trivial⟩
  · intro act hact
    have hb : AvionMeshHub.import_body env s act.body = AvionMeshHub.import_root env s root := by
      unfold AvionMeshHub.import_body
      rw [hact]
    refine ⟨?_, fun hw => ?_⟩
    · rw [apply_import_db, hb]
    · rw [apply_import_report env s act hw, hb]

/-- Witness for C19: the payload `import_mixed` merged into `hub_ready` adds device 200
once and group 256, and the counters are 1 and 1. -/
theorem import_merges_new_entries_witness :
    (AvionMeshHub.import_root env_plain hub_ready import_mixed).2.1 = 1 ∧
    (AvionMeshHub.import_root env_plain hub_ready import_mixed).2.2 = 1 ∧
    List.Forall₂ DevExt
      (hub_ready.db_.devices_ ++
        (import_new_devices hub_ready.db_ import_mixed.devices).map ImportDevice.entry)
      (AvionMeshHub.import_root env_plain hub_ready import_mixed).1.db_.devices_ :=
  ⟨((import_merges_new_entries env_plain hub_ready import_mixed rfl).1 rfl).2.1.trans
      (by decide),
   ((import_merges_new_entries env_plain hub_ready import_mixed rfl).1 rfl).2.2.2.trans
      (by decide),
   ((import_merges_new_entries env_plain hub_ready import_mixed rfl).1 rfl).1⟩

/-! ## Membership requests over MQTT, reconnection time -/

/-- C21 (the code departs from the claim): in state Ready, an `add_to_group` command
without ids sends the mesh command for device 0 and group 0 and answers with status
"ok"; a `remove_from_group` command for device 7 and group 300, which the registry does
not hold, sends its mesh command and answers "ok" as well. The registry is unchanged in
both cases. -/
theorem membership_request_without_ids_is_sent :
    (mesh_commands (hub_ready.on_mqtt_command env_plain 0 none
        (some { action := "add_to_group" })) = [Command.insert_group 0 0] ∧
      responses (hub_ready.on_mqtt_command env_plain 0 none
        (some { action := "add_to_group" }))
        = ["\x7b\"action\":\"add_to_group\",\"avion_id\":0,\"group_id\":0,\"status\":\"ok\"\x7d"] ∧
      (hub_ready.on_mqtt_command env_plain 0 none
        (some { action := "add_to_group" })).db_ = hub_ready.db_) ∧
    (mesh_commands (hub_ready.on_mqtt_command env_plain 0 none
        (some { action := "remove_from_group", avion_id := 7, group_id := 300 }))
        = [Command.delete_group 7 300] ∧
      responses (hub_ready.on_mqtt_command env_plain 0 none
        (some { action := "remove_from_group", avion_id := 7, group_id := 300 }))
        = ["\x7b\"action\":\"remove_from_group\",\"avion_id\":7,\"group_id\":300,\"status\":\"ok\"\x7d"] ∧
      (hub_ready.on_mqtt_command env_plain 0 none
        (some { action := "remove_from_group", avion_id := 7, group_id := 300 })).db_
        = hub_ready.db_) := by
  have h1 : snprintf 128 (json_obj ("\"action\":\"add_to_group\",\"avion_id\":" ++
      toString 0 ++ ",\"group_id\":" ++ toString 0 ++ ",\"status\":\"ok\""))
      = "\x7b\"action\":\"add_to_group\",\"avion_id\":0,\"group_id\":0,\"status\":\"ok\"\x7d" := by
    rw [snprintf_short _ _ (by decide)]
    decide
  have h2 : snprintf 128 (json_obj ("\"action\":\"remove_from_group\",\"avion_id\":" ++
      toString 7 ++ ",\"group_id\":" ++ toString 300 ++ ",\"status\":\"ok\""))
      = "\x7b\"action\":\"remove_from_group\",\"avion_id\":7,\"group_id\":300,\"status\":\"ok\"\x7d" := by
    rw [snprintf_short _ _ (by decide)]
    decide
  refine ⟨⟨by decide, ?_, by decide⟩, ⟨by decide, ?_, by decide⟩⟩
  · exact congrArg (fun t => [t]) h1
  · exact congrArg (fun t => [t]) h2

/-- C23 (the code departs from the claim): the reconnection time is the wrapped sum
`now + 3000` and `loop` compares it with the clock directly. A disconnect 1000 ms before
the clock wraps sets the time to 2000, and the tick 10 ms after the disconnect starts a
scan; a disconnect 4000 ms before the wrap sets the time to 4294966296, and the tick
5000 ms after the disconnect, at clock value 1000, starts no scan. -/
theorem reconnect_time_ignores_wrap :
    ((hub_ready.on_disconnected 4294966296).ble_state_ = BleState.Disconnected ∧
      (hub_ready.on_disconnected 4294966296).reconnect_at_ms_ = 2000 ∧
      sub_u32 4294966306 4294966296 = 10 ∧
      ((hub_ready.on_disconnected 4294966296).loop env_plain 4294966306).ble_state_
        = BleState.Scanning) ∧
    ((hub_ready.on_disconnected 4294963296).reconnect_at_ms_ = 4294966296 ∧
      sub_u32 1000 4294963296 = 5000 ∧
      ((hub_ready.on_disconnected 4294963296).loop env_plain 1000).ble_state_
        = BleState.Disconnected) := by
  decide

/-! ## Published state of a light -/

theorem publish_device_state_calls_none (env : Env) (s : AvionMeshHub) (i : Nat)
    (h : states_find s.device_states_ i = none ∨
      (∃ st, states_find s.device_states_ i = some st ∧ st.brightness_known = false) ∨
      s.db_.find_device i = none) :
    AvionMeshHub.publish_device_state_calls env s i = [] := by
  unfold AvionMeshHub.publish_device_state_calls
  rcases h with h | ⟨st, h, hk⟩ | h
  · rw [h]
  · rw [h]
    simp [hk]
  · cases hs : states_find s.device_states_ i with
    | none => rfl
    | some st =>
      simp only
      split
      · rfl
      · rw [h]

theorem publish_device_state_calls_some (env : Env) (s : AvionMeshHub) (i : Nat)
    (st : DeviceState) (dev : DeviceEntry)
    (h1 : states_find s.device_states_ i = some st) (h2 : st.brightness_known = true)
    (h3 : s.db_.find_device i = some dev) :
    ∃ web : List Effect, (∀ e ∈ web, ∃ d, e = Effect.send_event "state" d) ∧
      AvionMeshHub.publish_device_state_calls env s i =
        [Effect.publish_on_off_state i (decide (st.brightness > 0)),
         Effect.publish_brightness_state i st.brightness] ++
        (if st.color_temp_known && env.has_color_temp dev.product_type then
          [Effect.publish_color_temp_state i st.color_temp] else []) ++ web := by
  unfold AvionMeshHub.publish_device_state_calls
  rw [h1]
  simp only [h2, Bool.not_true, Bool.false_eq_true, if_false, h3]
  refine ⟨_, ?_, rfl⟩
  intro e he
  split at he
  · split at he
    · exact ⟨_, List.mem_singleton.mp he⟩
    · exact ⟨_, List.mem_singleton.mp he⟩
  · cases he

theorem emits_nil (s : AvionMeshHub) : s.emits [] = s := by
  unfold AvionMeshHub.emits
  rw [List.append_nil]

/-- C30: `publish_device_state(id)` publishes the on/off and the brightness state exactly
when `id` has a cached state whose brightness is known and `id` is the id of a registered
device: then its calls are the on/off state with the value `brightness > 0`, the
brightness state, the colour temperature state exactly when the colour temperature is
known and the product type of the device supports it, and after these only `state`
events for the web handler. When `id` has no cached state, or its brightness is unknown,
or `id` is not the id of a registered device (such as an id that is only a group id),
the method makes no call and changes nothing. So `on_switch_command` for an id that is
no registered device sends the mesh command and publishes nothing. -/
theorem publish_device_state_only_for_known_devices (env : Env) (s : AvionMeshHub)
    (id : Nat) :
    (∀ (st : DeviceState) (dev : DeviceEntry),
      states_find s.device_states_ id = some st → st.brightness_known = true →
      s.db_.find_device id = some dev →
      ∃ web : List Effect, (∀ e ∈ web, ∃ d, e = Effect.send_event "state" d) ∧
        (s.publish_device_state env id).out_ = s.out_ ++
          ([Effect.publish_on_off_state id (decide (st.brightness > 0)),
            Effect.publish_brightness_state id st.brightness] ++
           (if st.color_temp_known && env.has_color_temp dev.product_type then
             [Effect.publish_color_temp_state id st.color_temp] else []) ++ web)) ∧
    ((states_find s.device_states_ id = none ∨
        (∃ st, states_find s.device_states_ id = some st ∧ st.brightness_known = false) ∨
        s.db_.find_device id = none) →
      s.publish_device_state env id = s) ∧
    (∀ payload : String, s.db_.find_device id = none →
      (s.on_switch_command env id payload).out_ = s.out_ ++
        [Effect.send_cmd (.brightness id (if payload == "ON" then 255 else 0))]) := by
  refine ⟨?_, ?_, ?_⟩
  · intro st dev h1 h2 h3
    obtain ⟨web, hw, hc⟩ := publish_device_state_calls_some env s id st dev h1 h2 h3
    refine ⟨web, hw, ?_⟩
    unfold AvionMeshHub.publish_device_state AvionMeshHub.emits
    rw [hc]
  · intro h
    unfold AvionMeshHub.publish_device_state
    rw [publish_device_state_calls_none env s id h, emits_nil]
  · intro payload h
    have key : ∀ b : Nat, AvionMeshHub.publish_device_state_calls env
        ((s.emit (.send_cmd (.brightness id b))).cache_brightness id b) id = [] :=
      fun b => publish_device_state_calls_none env _ id (Or.inr (Or.inr h))
    unfold AvionMeshHub.on_switch_command AvionMeshHub.publish_device_state
    dsimp only
    rw [key, emits_nil]
    rfl

/-- Witness for C30: the registered device 100 with a known brightness of 0 is published
as off; the id 256, which is no registered device, is not published. -/
theorem publish_device_state_only_for_known_devices_witness :
    (∃ web : List Effect, (∀ e ∈ web, ∃ d, e = Effect.send_event "state" d) ∧
      (({ hub_ready with device_states_ := [(100, { brightness_known := true })] }
          ).publish_device_state env_plain 100).out_ = hub_ready.out_ ++
        ([Effect.publish_on_off_state 100 (decide ((0 : Nat) > 0)),
          Effect.publish_brightness_state 100 0] ++
         (if false && env_plain.has_color_temp 1 then
           [Effect.publish_color_temp_state 100 0] else []) ++ web)) ∧
    ({ hub_ready with device_states_ := [(256, { brightness_known := true })] }
        ).publish_device_state env_plain 256
      = { hub_ready with device_states_ := [(256, { brightness_known := true })] } :=
  ⟨(publish_device_state_only_for_known_devices env_plain
      { hub_ready with device_states_ := [(100, { brightness_known := true })] } 100).1
      { brightness_known := true }
      { avion_id := 100, product_type := 1, name := "Lamp", groups := [] } rfl rfl rfl,
   (publish_device_state_only_for_known_devices env_plain
      { hub_ready with device_states_ := [(256, { brightness_known := true })] } 256).2.1
      (Or.inr (Or.inr rfl))⟩

theorem command_none_of_not_send_cmd (e : Effect) (h : is_send_cmd e = false) :
    command_of e = none := by
  cases e <;> first | rfl | cases h

theorem filterMap_command_nil (l : List Effect) (h : l.filter is_send_cmd = []) :
    l.filterMap command_of = [] := by
  rw [List.filterMap_eq_nil_iff]
  intro e he
  apply command_none_of_not_send_cmd
  have := (List.filter_eq_nil_iff.mp h) e he
  simpa using this

theorem mired_round_trip (m : Nat) (h1 : 200 ≤ m) (h2 : m ≤ 370) :
    1000000 / (1000000 / m) = m := by
  interval_cases m <;> rfl

theorem color_temp_kelvin_in_range (m : Nat) (h1 : 200 ≤ m) (h2 : m ≤ 370) :
    AvionMeshHub.color_temp_kelvin m = 1000000 / m ∧ 2702 ≤ 1000000 / m ∧
      1000000 / m ≤ 5000 := by
  have hlo : 2702 ≤ 1000000 / m := by
    rw [Nat.le_div_iff_mul_le (by omega)]
    nlinarith
  have hhi : 1000000 / m ≤ 5000 := by
    calc 1000000 / m ≤ 1000000 / 200 := Nat.div_le_div_left h1 (by decide)
      _ = 5000 := by decide
  refine ⟨?_, hlo, hhi⟩
  unfold AvionMeshHub.color_temp_kelvin
  rw [Nat.mod_eq_of_lt (show m < 65536 by omega), if_pos (by omega),
    Nat.mod_eq_of_lt (by omega)]

/-- C27: for every colour temperature command whose payload is a mired value `m` in
200..370, `on_color_temp_command` sends and caches the kelvin value `1000000 / m`
(integer division), which lies in 2702..5000 and so fits in 16 bits, with
`color_temp_known` true; the mired value that `publish_color_temp_state` computes from
the cached kelvin value is `m` again, and the payload it publishes is the decimal text of
`m` in the 8-byte buffer. When the id is the id of a registered device whose brightness is
known and whose product type supports colour temperature, the command publishes this
colour temperature state. -/
theorem color_temp_mireds_round_trip (env : Env) (s : AvionMeshHub) (id m : Nat)
    (h1 : 200 ≤ m) (h2 : m ≤ 370) :
    AvionMeshHub.color_temp_kelvin m = 1000000 / m ∧
    1000000 / m < 65536 ∧
    (states_index (s.on_color_temp_command env id m).device_states_ id).color_temp
      = 1000000 / m ∧
    (states_index (s.on_color_temp_command env id m).device_states_ id).color_temp_known
      = true ∧
    mesh_commands (s.on_color_temp_command env id m)
      = mesh_commands s ++ [Command.color_temp id (1000000 / m)] ∧
    MqttDiscovery.color_temp_mireds (1000000 / m) = m ∧
    MqttDiscovery.color_temp_payload (1000000 / m) = snprintf 8 (toString m) ∧
    (∀ dev : DeviceEntry, s.db_.find_device id = some dev →
      (states_index s.device_states_ id).brightness_known = true →
      env.has_color_temp dev.product_type = true →
      Effect.publish_color_temp_state id (1000000 / m)
        ∈ (s.on_color_temp_command env id m).out_) := by
  obtain ⟨hk, hlo, hhi⟩ := color_temp_kelvin_in_range m h1 h2
  have hmired : MqttDiscovery.color_temp_mireds (1000000 / m) = m := by
    unfold MqttDiscovery.color_temp_mireds
    rw [if_pos (by omega), mired_round_trip m h1 h2, Nat.mod_eq_of_lt (by omega)]
  have hst : (s.on_color_temp_command env id m).device_states_
      = states_set s.device_states_ id
          { states_index s.device_states_ id with
            color_temp := 1000000 / m, color_temp_known := true } := by
    unfold AvionMeshHub.on_color_temp_command
    rw [hk]
    rfl
  refine ⟨hk, by omega, ?_, ?_, ?_, hmired, ?_, ?_⟩
  · rw [hst, states_index_set_same]
  · rw [hst, states_index_set_same]
  · unfold AvionMeshHub.on_color_temp_command AvionMeshHub.publish_device_state
    rw [hk]
    simp only [mesh_commands, AvionMeshHub.emits, AvionMeshHub.emit,
      AvionMeshHub.cache_color_temp, List.filterMap_append]
    rw [filterMap_command_nil _ (publish_device_state_calls_no_cmd env _ id)]
    simp [command_of]
  · unfold MqttDiscovery.color_temp_payload
    rw [hmired]
  · intro dev hd hb hc
    unfold AvionMeshHub.on_color_temp_command AvionMeshHub.publish_device_state
    rw [hk]
    have hfind : states_find
        ((s.emit (.send_cmd (.color_temp id (1000000 / m)))).cache_color_temp id
          (1000000 / m)).device_states_ id
        = some { states_index s.device_states_ id with
            color_temp := 1000000 / m, color_temp_known := true } :=
      states_find_set_same _ _ _
    obtain ⟨web, _, hcalls⟩ := publish_device_state_calls_some env
      ((s.emit (.send_cmd (.color_temp id (1000000 / m)))).cache_color_temp id (1000000 / m))
      id _ dev hfind hb hd
    rw [hcalls]
    simp [AvionMeshHub.emits, hc]

/-- Witness for C27: the payload 370 for the registered device 100 caches 2702 kelvin,
and 2702 kelvin is published as 370 mired. -/
theorem color_temp_mireds_round_trip_witness :
    (states_index (hub_ready.on_color_temp_command env_plain 100 370).device_states_
      100).color_temp = 1000000 / 370 ∧
    MqttDiscovery.color_temp_mireds (1000000 / 370) = 370 :=
  ⟨(color_temp_mireds_round_trip env_plain hub_ready 100 370 (by decide) (by decide)).2.2.1,
   (color_temp_mireds_round_trip env_plain hub_ready 100 370 (by decide)
      (by decide)).2.2.2.2.2.1⟩

/-! ## Rapid dimming -/

theorem stamp_map_replace (i v : Nat) :
    ∀ m : List (Nat × Nat), m.any (fun p => p.1 == i) = true →
      (m.map (fun p => if p.1 == i then (i, v) else p)).find? (fun p => p.1 == i)
        = some (i, v)
  | [], h => by simp at h
  | p :: rest, h => by
    by_cases hp : (p.1 == i) = true
    · simp only [List.map_cons, hp, if_true, List.find?_cons, beq_self_eq_true]
    · have hp2 : (p.1 == i) = false := by simpa using hp
      rw [List.any_cons, hp2, Bool.false_or] at h
      simp only [List.map_cons, hp2, Bool.false_eq_true, if_false, List.find?_cons]
      exact stamp_map_replace i v rest h

theorem stamp_append_new (i v : Nat) :
    ∀ m : List (Nat × Nat), m.any (fun p => p.1 == i) = false →
      (m ++ [(i, v)]).find? (fun p => p.1 == i) = some (i, v)
  | [], _ => by simp
  | p :: rest, h => by
    rw [List.any_cons, Bool.or_eq_false_iff] at h
    simp only [List.cons_append, List.find?_cons, h.1]
    exact stamp_append_new i v rest h.2

theorem stamp_find_set_same (i v : Nat) (m : List (Nat × Nat)) :
    stamp_find (stamp_set m i v) i = some v := by
  unfold stamp_find stamp_set
  by_cases h : m.any (fun p => p.1 == i) = true
  · rw [if_pos h, stamp_map_replace i v m h]; rfl
  · rw [if_neg h, stamp_append_new i v m (Bool.eq_false_iff.mpr h)]; rfl

theorem mesh_commands_publish (env : Env) (s : AvionMeshHub) (i : Nat) :
    mesh_commands (s.publish_device_state env i) = mesh_commands s := by
  unfold AvionMeshHub.publish_device_state mesh_commands AvionMeshHub.emits
  simp only [List.filterMap_append]
  rw [filterMap_command_nil _ (publish_device_state_calls_no_cmd env s i), List.append_nil]

theorem on_brightness_command_effect (env : Env) (s : AvionMeshHub) (now id v : Nat) :
    stamp_find (s.on_brightness_command env now id v).last_brightness_ms_ id = some now ∧
    (states_index (s.on_brightness_command env now id v).device_states_ id).brightness
      = v % 256 ∧
    (states_index (s.on_brightness_command env now id v).device_states_ id).brightness_known
      = true ∧
    mesh_commands (s.on_brightness_command env now id v) =
      mesh_commands s ++
        (if s.brightness_is_rapid now id then [] else [Command.brightness id (v % 256)]) := by
  unfold AvionMeshHub.on_brightness_command
  dsimp only
  by_cases hr : s.brightness_is_rapid now id = true
  · rw [if_pos hr, if_pos hr]
    refine ⟨stamp_find_set_same id now _, ?_, ?_, ?_⟩
    · show (states_index (states_set _ id _) id).brightness = _
      rw [states_index_set_same]
    · show (states_index (states_set _ id _) id).brightness_known = _
      rw [states_index_set_same]
    · rw [mesh_commands_publish, List.append_nil]
      rfl
  · rw [if_neg hr, if_neg hr]
    refine ⟨stamp_find_set_same id now _, ?_, ?_, ?_⟩
    · show (states_index (states_set _ id _) id).brightness = _
      rw [states_index_set_same]
    · show (states_index (states_set _ id _) id).brightness_known = _
      rw [states_index_set_same]
    · rw [mesh_commands_publish]
      simp [mesh_commands, command_of, AvionMeshHub.cache_brightness, AvionMeshHub.emit,
        List.filterMap_append]

theorem brightness_is_rapid_of_stamp (s : AvionMeshHub) (now id last : Nat)
    (h : stamp_find s.last_brightness_ms_ id = some last) :
    s.brightness_is_rapid now id = decide (sub_u32 now last < 750) := by
  unfold AvionMeshHub.brightness_is_rapid
  rw [h]
  rfl

theorem burst_rapid (env : Env) (id : Nat) :
    ∀ (cs : List (Nat × Nat)) (s : AvionMeshHub) (tp vp : Nat),
      stamp_find s.last_brightness_ms_ id = some tp →
      (states_index s.device_states_ id).brightness = vp % 256 →
      (states_index s.device_states_ id).brightness_known = true →
      List.Chain (fun a b => sub_u32 b.1 a.1 < 750) (tp, vp) cs →
      mesh_commands (AvionMeshHub.brightness_burst env s id cs) = mesh_commands s ∧
      stamp_find (AvionMeshHub.brightness_burst env s id cs).last_brightness_ms_ id
        = some (cs.getLastD (tp, vp)).1 ∧
      (states_index (AvionMeshHub.brightness_burst env s id cs).device_states_ id).brightness
        = (cs.getLastD (tp, vp)).2 % 256 ∧
      (states_index
        (AvionMeshHub.brightness_burst env s id cs).device_states_ id).brightness_known
        = true := by
  intro cs
  induction cs with
  | nil => intro s tp vp h1 h2 h3 _; exact ⟨rfl, h1, h2, h3⟩
  | cons c rest ih =>
    intro s tp vp h1 _ _ hc
    rw [List.chain_cons] at hc
    obtain ⟨e1, e2, e3, e4⟩ := on_brightness_command_effect env s c.1 id c.2
    have hr : s.brightness_is_rapid c.1 id = true := by
      rw [brightness_is_rapid_of_stamp s c.1 id tp h1]
      exact decide_eq_true hc.1
    rw [hr] at e4
    simp only [if_true, List.append_nil] at e4
    have := ih (s.on_brightness_command env c.1 id c.2) c.1 c.2 e1 e2 e3 hc.2
    have hb : AvionMeshHub.brightness_burst env s id (c :: rest)
        = AvionMeshHub.brightness_burst env (s.on_brightness_command env c.1 id c.2) id rest :=
      rfl
    have hl : (c :: rest).getLastD (tp, vp) = rest.getLastD (c.1, c.2) := by
      cases rest <;> rfl
    rw [hb, hl, this.1, e4]
    exact ⟨rfl, this.2.1, this.2.2.1, this.2.2.2⟩

/-- C29: let a brightness command for an id arrive that is not taken as rapid (no
earlier command for the id, or the last one 750 ms or more before, the difference taken
modulo 2^32), followed by commands for the same id of which each arrives less than
750 ms after the previous one. Then `on_brightness_command` issues one brightness mesh
command, for the first command, and none for the others; after the sequence the cached
brightness is the value of the last command (as a byte, so unchanged for values up to
255) with `brightness_known` true, which holds after each command because every prefix
is such a sequence. A command that then arrives 750 ms or more after the last one issues
a mesh command again. -/
theorem rapid_dimming_sends_first_only (env : Env) (s : AvionMeshHub) (id t0 v0 : Nat)
    (cs : List (Nat × Nat)) (t v : Nat)
    (hfirst : s.brightness_is_rapid t0 id = false)
    (hchain : List.Chain (fun a b => sub_u32 b.1 a.1 < 750) (t0, v0) cs) :
    mesh_commands (AvionMeshHub.brightness_burst env s id ((t0, v0) :: cs))
      = mesh_commands s ++ [Command.brightness id (v0 % 256)] ∧
    (states_index (AvionMeshHub.brightness_burst env s id
        ((t0, v0) :: cs)).device_states_ id).brightness
      = (cs.getLastD (t0, v0)).2 % 256 ∧
    (states_index (AvionMeshHub.brightness_burst env s id
        ((t0, v0) :: cs)).device_states_ id).brightness_known = true ∧
    (750 ≤ sub_u32 t (cs.getLastD (t0, v0)).1 →
      mesh_commands ((AvionMeshHub.brightness_burst env s id
          ((t0, v0) :: cs)).on_brightness_command env t id v)
        = mesh_commands s ++ [Command.brightness id (v0 % 256)] ++
            [Command.brightness id (v % 256)]) := by
  obtain ⟨e1, e2, e3, e4⟩ := on_brightness_command_effect env s t0 id v0
  rw [hfirst] at e4
  simp only [Bool.false_eq_true, if_false] at e4
  obtain ⟨b1, b2, b3, b4⟩ := burst_rapid env id cs (s.on_brightness_command env t0 id v0)
    t0 v0 e1 e2 e3 hchain
  have hb : AvionMeshHub.brightness_burst env s id ((t0, v0) :: cs)
      = AvionMeshHub.brightness_burst env (s.on_brightness_command env t0 id v0) id cs := rfl
  rw [hb]
  refine ⟨by rw [b1, e4], b3, b4, ?_⟩
  intro hlate
  obtain ⟨_, _, _, f4⟩ := on_brightness_command_effect env
    (AvionMeshHub.brightness_burst env (s.on_brightness_command env t0 id v0) id cs) t id v
  rw [brightness_is_rapid_of_stamp _ t id _ b2,
    decide_eq_false (by omega : ¬ sub_u32 t (cs.getLastD (t0, v0)).1 < 750)] at f4
  rw [f4, b1, e4]
  rfl

/-- Witness for C29: from `hub_ready`, brightness commands at clock values 1000, 1500 and
2100 send one mesh command, and the command at 2900 sends the next. -/
theorem rapid_dimming_sends_first_only_witness :
    mesh_commands (AvionMeshHub.brightness_burst env_plain hub_ready 100
        [(1000, 10), (1500, 20), (2100, 30)]) = [Command.brightness 100 10] ∧
    (states_index (AvionMeshHub.brightness_burst env_plain hub_ready 100
        [(1000, 10), (1500, 20), (2100, 30)]).device_states_ 100).brightness = 30 ∧
    mesh_commands ((AvionMeshHub.brightness_burst env_plain hub_ready 100
        [(1000, 10), (1500, 20), (2100, 30)]).on_brightness_command env_plain 2900 100 40)
      = [Command.brightness 100 10, Command.brightness 100 40] :=
  ⟨(rapid_dimming_sends_first_only env_plain hub_ready 100 1000 10 [(1500, 20), (2100, 30)]
      2900 40 rfl
      (List.Chain.cons (by decide) (List.Chain.cons (by decide) List.Chain.nil))).1,
   (rapid_dimming_sends_first_only env_plain hub_ready 100 1000 10 [(1500, 20), (2100, 30)]
      2900 40 rfl
      (List.Chain.cons (by decide) (List.Chain.cons (by decide) List.Chain.nil))).2.1,
   (rapid_dimming_sends_first_only env_plain hub_ready 100 1000 10 [(1500, 20), (2100, 30)]
      2900 40 rfl
      (List.Chain.cons (by decide) (List.Chain.cons (by decide) List.Chain.nil))).2.2.2 (by decide)⟩

/-! ## Assignment of device and group ids -/

/-- Whether a device id is taken for `next_device_id`: a registered device or an entry of
the discovered set carries it. -/
theorem device_id_taken_iff (s : AvionMeshHub) (id : Nat) :
    ((s.db_.find_device id).isSome || s.discovered_devices_.any (fun d => d.device_id == id))
      = true ↔
    (id ∈ s.db_.devices_.map (fun d => d.avion_id) ∨
      id ∈ s.discovered_devices_.map (fun d => d.device_id)) := by
  rw [Bool.or_eq_true, DeviceDB.find_device_isSome_ids]
  simp [List.mem_map]

theorem next_device_id_loop_spec (db : DeviceDB) (disc : List DiscoveredDevice) :
    ∀ n id : Nat, 0 < id →
      (AvionMeshHub.next_device_id_loop db disc n id = 0 ∧
        ∀ k, id ≤ k → k < id + n →
          ((db.find_device k).isSome || disc.any (fun d => d.device_id == k)) = true) ∨
      (id ≤ AvionMeshHub.next_device_id_loop db disc n id ∧
        AvionMeshHub.next_device_id_loop db disc n id < id + n ∧
        ((db.find_device (AvionMeshHub.next_device_id_loop db disc n id)).isSome ||
          disc.any (fun d => d.device_id == AvionMeshHub.next_device_id_loop db disc n id))
          = false ∧
        ∀ k, id ≤ k → k < AvionMeshHub.next_device_id_loop db disc n id →
          ((db.find_device k).isSome || disc.any (fun d => d.device_id == k)) = true) := by
  intro n
  induction n with
  | zero =>
    intro id _
    left
    exact ⟨rfl, fun k h1 h2 => by omega⟩
  | succ n ih =>
    intro id hid
    have step : ∀ k, id ≤ k → k ≠ id → id + 1 ≤ k := fun k h1 h2 => by omega
    by_cases h1 : (db.find_device id).isSome = true
    · have e : AvionMeshHub.next_device_id_loop db disc (n + 1) id
          = AvionMeshHub.next_device_id_loop db disc n (id + 1) := by
        rw [AvionMeshHub.next_device_id_loop, if_pos h1]
      have ht : ((db.find_device id).isSome || disc.any (fun d => d.device_id == id)) = true := by
        rw [h1]; rfl
      rw [e]
      rcases ih (id + 1) (by omega) with ⟨r0, rall⟩ | ⟨r1, r2, r3, r4⟩
      · left
        refine ⟨r0, fun k hk1 hk2 => ?_⟩
        by_cases hk : k = id
        · rw [hk]; exact ht
        · exact rall k (step k hk1 hk) (by omega)
      · right
        refine ⟨by omega, by omega, r3, fun k hk1 hk2 => ?_⟩
        by_cases hk : k = id
        · rw [hk]; exact ht
        · exact r4 k (step k hk1 hk) hk2
    · by_cases h2 : disc.any (fun d => d.device_id == id) = true
      · have e : AvionMeshHub.next_device_id_loop db disc (n + 1) id
            = AvionMeshHub.next_device_id_loop db disc n (id + 1) := by
          rw [AvionMeshHub.next_device_id_loop, if_neg h1, if_pos h2]
        have ht : ((db.find_device id).isSome || disc.any (fun d => d.device_id == id))
            = true := by
          rw [h2]; exact Bool.or_true _
        rw [e]
        rcases ih (id + 1) (by omega) with ⟨r0, rall⟩ | ⟨r1, r2, r3, r4⟩
        · left
          refine ⟨r0, fun k hk1 hk2 => ?_⟩
          by_cases hk : k = id
          · rw [hk]; exact ht
          · exact rall k (step k hk1 hk) (by omega)
        · right
          refine ⟨by omega, by omega, r3, fun k hk1 hk2 => ?_⟩
          by_cases hk : k = id
          · rw [hk]; exact ht
          · exact r4 k (step k hk1 hk) hk2
      · have e : AvionMeshHub.next_device_id_loop db disc (n + 1) id = id := by
          rw [AvionMeshHub.next_device_id_loop, if_neg h1, if_neg h2]
        rw [e]
        right
        refine ⟨le_refl _, by omega, ?_, fun k hk1 hk2 => by omega⟩
        rw [Bool.eq_false_iff.mpr h1, Bool.eq_false_iff.mpr h2]
        rfl

theorem next_group_id_loop_spec (db : DeviceDB) :
    ∀ n id : Nat, 0 < id →
      (AvionMeshHub.next_group_id_loop db n id = 0 ∧
        ∀ k, id ≤ k → k < id + n → (db.find_group k).isSome = true) ∨
      (id ≤ AvionMeshHub.next_group_id_loop db n id ∧
        AvionMeshHub.next_group_id_loop db n id < id + n ∧
        (db.find_group (AvionMeshHub.next_group_id_loop db n id)).isSome = false ∧
        ∀ k, id ≤ k → k < AvionMeshHub.next_group_id_loop db n id →
          (db.find_group k).isSome = true) := by
  intro n
  induction n with
  | zero =>
    intro id _
    left
    exact ⟨rfl, fun k h1 h2 => by omega⟩
  | succ n ih =>
    intro id hid
    have step : ∀ k, id ≤ k → k ≠ id → id + 1 ≤ k := fun k h1 h2 => by omega
    by_cases h1 : (db.find_group id).isNone = true
    · have e : AvionMeshHub.next_group_id_loop db (n + 1) id = id := by
        rw [AvionMeshHub.next_group_id_loop, if_pos h1]
      rw [e]
      right
      refine ⟨le_refl _, by omega, ?_, fun k hk1 hk2 => by omega⟩
      cases hf : db.find_group id <;> simp_all
    · have e : AvionMeshHub.next_group_id_loop db (n + 1) id
          = AvionMeshHub.next_group_id_loop db n (id + 1) := by
        rw [AvionMeshHub.next_group_id_loop, if_neg h1]
      have ht : (db.find_group id).isSome = true := by
        cases hf : db.find_group id <;> simp_all
      rw [e]
      rcases ih (id + 1) (by omega) with ⟨r0, rall⟩ | ⟨r1, r2, r3, r4⟩
      · left
        refine ⟨r0, fun k hk1 hk2 => ?_⟩
        by_cases hk : k = id
        · rw [hk]; exact ht
        · exact rall k (step k hk1 hk) (by omega)
      · right
        refine ⟨by omega, by omega, r3, fun k hk1 hk2 => ?_⟩
        by_cases hk : k = id
        · rw [hk]; exact ht
        · exact r4 k (step k hk1 hk) hk2

/-- C26: `next_device_id` is a total function whose loop visits the ids 32896..65407 in
order. It returns 0 exactly when every id of that range is the id of a registered device
or of an entry of the discovered set; otherwise it returns an id of the range that is
neither, and every smaller id of the range is taken. Likewise `next_group_id` returns 0
exactly when every id in 256..24575 is a registered group id, and otherwise the least id
of that range that is not. -/
theorem next_id_is_least_free (s : AvionMeshHub) :
    ((s.next_device_id = 0 ↔
        ∀ id, 32896 ≤ id → id ≤ 65407 →
          (id ∈ s.db_.devices_.map (fun d => d.avion_id) ∨
            id ∈ s.discovered_devices_.map (fun d => d.device_id))) ∧
      (s.next_device_id ≠ 0 →
        32896 ≤ s.next_device_id ∧ s.next_device_id ≤ 65407 ∧
        s.next_device_id ∉ s.db_.devices_.map (fun d => d.avion_id) ∧
        s.next_device_id ∉ s.discovered_devices_.map (fun d => d.device_id) ∧
        ∀ id, 32896 ≤ id → id < s.next_device_id →
          (id ∈ s.db_.devices_.map (fun d => d.avion_id) ∨
            id ∈ s.discovered_devices_.map (fun d => d.device_id)))) ∧
    ((s.next_group_id = 0 ↔
        ∀ id, 256 ≤ id → id ≤ 24575 → id ∈ s.db_.groups_.map (fun g => g.group_id)) ∧
      (s.next_group_id ≠ 0 →
        256 ≤ s.next_group_id ∧ s.next_group_id ≤ 24575 ∧
        s.next_group_id ∉ s.db_.groups_.map (fun g => g.group_id) ∧
        ∀ id, 256 ≤ id → id < s.next_group_id →
          id ∈ s.db_.groups_.map (fun g => g.group_id))) := by
  constructor
  · have h := next_device_id_loop_spec s.db_ s.discovered_devices_
      (MAX_DEVICE_ID + 1 - MIN_DEVICE_ID) MIN_DEVICE_ID (by decide)
    have hr : AvionMeshHub.next_device_id_loop s.db_ s.discovered_devices_
        (MAX_DEVICE_ID + 1 - MIN_DEVICE_ID) MIN_DEVICE_ID = s.next_device_id := rfl
    rw [hr] at h
    have hmin : MIN_DEVICE_ID = 32896 := rfl
    have hsum : MIN_DEVICE_ID + (MAX_DEVICE_ID + 1 - MIN_DEVICE_ID) = 65408 := rfl
    rw [hsum, hmin] at h
    rcases h with ⟨r0, rall⟩ | ⟨r1, r2, r3, r4⟩
    · refine ⟨⟨fun _ id h1 h2 => (device_id_taken_iff s id).mp (rall id h1 (by omega)), fun _ => r0⟩,
        fun hne => absurd r0 hne⟩
    · have hfree : ¬ (s.next_device_id ∈ s.db_.devices_.map (fun d => d.avion_id) ∨
          s.next_device_id ∈ s.discovered_devices_.map (fun d => d.device_id)) := by
        rw [← device_id_taken_iff, r3]
        exact Bool.false_ne_true
      refine ⟨⟨fun h0 => by omega, fun hall => ?_⟩, fun _ => ?_⟩
      · exact absurd (hall _ r1 (by omega)) hfree
      · exact ⟨r1, by omega, fun hm => hfree (Or.inl hm), fun hm => hfree (Or.inr hm),
          fun id h1 h2 => (device_id_taken_iff s id).mp (r4 id h1 h2)⟩
  · have h := next_group_id_loop_spec s.db_ (MAX_GROUP_ID + 1 - MIN_GROUP_ID) MIN_GROUP_ID
      (by decide)
    have hr : AvionMeshHub.next_group_id_loop s.db_ (MAX_GROUP_ID + 1 - MIN_GROUP_ID)
        MIN_GROUP_ID = s.next_group_id := rfl
    rw [hr] at h
    have hmin : MIN_GROUP_ID = 256 := rfl
    have hsum : MIN_GROUP_ID + (MAX_GROUP_ID + 1 - MIN_GROUP_ID) = 24576 := rfl
    rw [hsum, hmin] at h
    rcases h with ⟨r0, rall⟩ | ⟨r1, r2, r3, r4⟩
    · refine ⟨⟨fun _ id h1 h2 =>
          (DeviceDB.find_group_isSome_ids s.db_ id).mp (rall id h1 (by omega)), fun _ => r0⟩,
        fun hne => absurd r0 hne⟩
    · have hfree : s.next_group_id ∉ s.db_.groups_.map (fun g => g.group_id) := by
        rw [← DeviceDB.find_group_isSome_ids, r3]
        exact Bool.false_ne_true
      refine ⟨⟨fun h0 => by omega, fun hall => ?_⟩, fun _ => ?_⟩
      · exact absurd (hall _ r1 (by omega)) hfree
      · exact ⟨r1, by omega, hfree,
          fun id h1 h2 => (DeviceDB.find_group_isSome_ids s.db_ id).mp (r4 id h1 h2)⟩

/-- Witness for C26: in `hub_ready`, where only device 100 is registered, both functions
return an id of their range. -/
theorem next_id_is_least_free_witness :
    (32896 ≤ hub_ready.next_device_id ∧ hub_ready.next_device_id ≤ 65407) ∧
    (256 ≤ hub_ready.next_group_id ∧ hub_ready.next_group_id ≤ 24575) :=
  ⟨⟨((next_id_is_least_free hub_ready).1.2 (by decide)).1,
    ((next_id_is_least_free hub_ready).1.2 (by decide)).2.1⟩,
   ⟨((next_id_is_least_free hub_ready).2.2 (by decide)).1,
    ((next_id_is_least_free hub_ready).2.2 (by decide)).2.1⟩⟩

/-! ## Passphrase validation -/

/-- C24 (the code departs from the claim): "QUJDRA==" is well-formed base64 of length 8
with two padding characters, so the claim gives 3 * 8 / 4 - 2 = 4; the scan rejects the
first padding character because it does not stand at the last index, and
`validate_passphrase` returns the length 8. With one padding character or none the
decoded length is returned (5 and 6), and a string of 7 characters yields -1. -/
theorem two_padding_characters_not_base64 :
    validate_passphrase "QUJDRA==" = 8 ∧
    base64_scan 8 "QUJDRA==".data 0 0 = (false, 1) ∧
    validate_passphrase "QUJDRUY=" = 5 ∧
    validate_passphrase "QUJDRUVG" = 6 ∧
    validate_passphrase "QUJDRUV" = -1 := by
  decide

theorem loop_before_association_db (env : Env) (s : AvionMeshHub) (now : Nat)
    (hq : no_pending_requests s) :
    (AvionMeshHub.loop_before_association env s now).db_ = s.db_ := by
  have h1 : ∀ t : AvionMeshHub, (AvionMeshHub.loop_register_web env t).db_ = t.db_ := by
    intro t; unfold AvionMeshHub.loop_register_web; split <;> (try split) <;> rfl
  have h2 : ∀ t : AvionMeshHub, (AvionMeshHub.loop_sse t).db_ = t.db_ := by
    intro t; unfold AvionMeshHub.loop_sse; split <;> rfl
  have h5 : ∀ t : AvionMeshHub, (AvionMeshHub.loop_register_gattc env t).db_ = t.db_ := by
    intro t; unfold AvionMeshHub.loop_register_gattc; split <;> rfl
  have h6 : ∀ t : AvionMeshHub, (AvionMeshHub.loop_reconnect t now).db_ = t.db_ := by
    intro t; unfold AvionMeshHub.loop_reconnect; split <;> rfl
  have h7 : ∀ t : AvionMeshHub,
      (AvionMeshHub.loop_subscribe_management env t).db_ = t.db_ := by
    intro t; unfold AvionMeshHub.loop_subscribe_management; split <;> (try split) <;> rfl
  have h8 : ∀ t : AvionMeshHub, (AvionMeshHub.loop_subscribe_lights env t).db_ = t.db_ := by
    intro t
    unfold AvionMeshHub.loop_subscribe_lights
    split
    · split
      · rw [subscribe_all_commands_db]; rfl
      · rfl
    · rfl
  have h9 : ∀ t : AvionMeshHub, (AvionMeshHub.loop_initial_read t).db_ = t.db_ := by
    intro t; unfold AvionMeshHub.loop_initial_read; split <;> rfl
  have h10 : ∀ t : AvionMeshHub, (AvionMeshHub.loop_time_sync t).db_ = t.db_ := by
    intro t; unfold AvionMeshHub.loop_time_sync; split <;> rfl
  have hw : watch (AvionMeshHub.loop_sse (AvionMeshHub.loop_register_web env s)) = watch s := by
    rw [watch_loop_sse, watch_loop_register_web]
  have hq2 := no_pending_requests_of_watch s _ hw hq
  unfold AvionMeshHub.loop_before_association
  simp only
  rw [loop_pending_requests_idle _ hq2]
  show (AvionMeshHub.loop_time_sync _).db_ = _
  rw [h10, h9, h8, h7, h6, h5]
  unfold AvionMeshHub.process_deferred_actions
  rw [hq2.2.2.2.2]
  show (AvionMeshHub.loop_sse (AvionMeshHub.loop_register_web env s)).db_ = _
  rw [h2, h1]

theorem loop_association_keeps (env : Env) (s : AvionMeshHub) (now : Nat) :
    (AvionMeshHub.loop_association env s now).db_ = s.db_ ∧
    (no_pending_requests s → no_pending_requests (AvionMeshHub.loop_association env s now)) := by
  unfold AvionMeshHub.loop_association
  split
  · split
    · exact ⟨rfl, fun h => h⟩
    · split
      · exact ⟨rfl, fun h => h⟩
      · split
        · exact ⟨rfl, fun h => h⟩
        · exact ⟨rfl, fun h => h⟩
  · exact ⟨rfl, fun h => h⟩

theorem loop_keeps_registry (env : Env) (s : AvionMeshHub) (now : Nat)
    (hq : no_pending_requests s) :
    (s.loop env now).db_ = s.db_ ∧ no_pending_requests (s.loop env now) := by
  have hw := watch_loop_before_association env s now hq
  have hq2 := no_pending_requests_of_watch s _ hw hq
  have hk := loop_association_keeps env (AvionMeshHub.loop_before_association env s now) now
  unfold AvionMeshHub.loop
  exact ⟨hk.1.trans (loop_before_association_db env s now hq), hk.2 hq2⟩

theorem run_loop_keeps_registry :
    ∀ (ticks : List (Env × Nat)) (s : AvionMeshHub), no_pending_requests s →
      (s.run_loop ticks).db_ = s.db_ := by
  intro ticks
  induction ticks with
  | nil => intro s _; rfl
  | cons t rest ih =>
    intro s hq
    obtain ⟨h1, h2⟩ := loop_keeps_registry t.1 s t.2 hq
    show (AvionMeshHub.run_loop (s.loop t.1 t.2) rest).db_ = _
    rw [ih _ h2, h1]

theorem handle_claim_device_accepted (env : Env) (s : AvionMeshHub) (now uuid_hash id : Nat)
    (name : String) (product_type : Nat) (ha : s.associating_ = false)
    (hi : env.protocol_init_ok uuid_hash id = true)
    (hst : env.associate_start_ok uuid_hash id = true) :
    (s.handle_claim_device env now uuid_hash id name product_type).associating_ = true ∧
    (s.handle_claim_device env now uuid_hash id name product_type).db_
      = (s.db_.add_device id product_type name).2 ∧
    (no_pending_requests s →
      no_pending_requests (s.handle_claim_device env now uuid_hash id name product_type)) := by
  unfold AvionMeshHub.handle_claim_device
  rw [if_neg (by simp [ha])]
  dsimp only
  rw [if_neg (by simp [hi]), if_neg (by simp [hst])]
  split
  · simp only [AvionMeshHub.emit, AvionMeshHub.emits]
    refine ⟨trivial, trivial, ?_⟩
    intro h
    exact h
  · simp only [AvionMeshHub.emit]
    refine ⟨trivial, trivial, ?_⟩
    intro h
    exact h

theorem find_device_after_add (db : DeviceDB) (id product_type : Nat) (name : String)
    (hn : db.find_device id = none) :
    (db.add_device id product_type name).2.find_device id
      = some { avion_id := id, product_type := product_type, name := name, groups := [] } := by
  have h1 : ¬ (db.find_device id).isSome = true := by rw [hn]; simp
  unfold DeviceDB.add_device
  rw [if_neg h1]
  unfold DeviceDB.find_device at hn ⊢
  simp only [DeviceDB.save_devices_, List.find?_append, hn, Option.none_or, List.find?_cons,
    beq_self_eq_true]

/-- C22: when `handle_claim_device` is accepted (no association in flight, protocol init
and `associate_start` both succeed) for a device id that the registry does not hold, the
association is in flight and the registry holds the device with the given name and
product type when the call returns; and after every sequence of `loop` ticks, whatever
the protocol reports in them (completion, error, or a timeout by the clock) and as long
as no request from the web handler is waiting, the registry is the same, so the device
is still registered. -/
theorem claimed_device_stays_registered (env : Env) (s : AvionMeshHub)
    (now uuid_hash id : Nat) (name : String) (product_type : Nat)
    (ticks : List (Env × Nat)) (ha : s.associating_ = false)
    (hi : env.protocol_init_ok uuid_hash id = true)
    (hst : env.associate_start_ok uuid_hash id = true)
    (hn : s.db_.find_device id = none) (hq : no_pending_requests s) :
    (s.handle_claim_device env now uuid_hash id name product_type).associating_ = true ∧
    (s.handle_claim_device env now uuid_hash id name product_type).db_.find_device id
      = some { avion_id := id, product_type := product_type, name := name, groups := [] } ∧
    ((s.handle_claim_device env now uuid_hash id name product_type).run_loop ticks).db_
      = (s.handle_claim_device env now uuid_hash id name product_type).db_ ∧
    ((s.handle_claim_device env now uuid_hash id name product_type).run_loop
        ticks).db_.find_device id
      = some { avion_id := id, product_type := product_type, name := name, groups := [] } := by
  obtain ⟨h1, h2, h3⟩ := handle_claim_device_accepted env s now uuid_hash id name product_type
    ha hi hst
  have hf : (s.handle_claim_device env now uuid_hash id name product_type).db_.find_device id
      = some { avion_id := id, product_type := product_type, name := name, groups := [] } := by
    rw [h2]
    exact find_device_after_add s.db_ id product_type name hn
  have hk := run_loop_keeps_registry ticks _ (h3 hq)
  exact ⟨h1, hf, hk, by rw [hk]; exact hf⟩

/-- Witness for C22: `hub_ready` claims device 200; the association then ends in an
error in one run and in a timeout in another, and device 200 is registered after both. -/
theorem claimed_device_stays_registered_witness :
    (((hub_ready.handle_claim_device env_plain 5000 77 200 "New" 1).run_loop
        [({ env_plain with protocol_is_error := true }, 6000)]).associating_ = false ∧
      ((hub_ready.handle_claim_device env_plain 5000 77 200 "New" 1).run_loop
        [({ env_plain with protocol_is_error := true }, 6000)]).db_.find_device 200
        = some { avion_id := 200, product_type := 1, name := "New", groups := [] }) ∧
    (((hub_ready.handle_claim_device env_plain 5000 77 200 "New" 1).run_loop
        [(env_plain, 6000), (env_plain, 35001)]).associating_ = false ∧
      ((hub_ready.handle_claim_device env_plain 5000 77 200 "New" 1).run_loop
        [(env_plain, 6000), (env_plain, 35001)]).db_.find_device 200
        = some { avion_id := 200, product_type := 1, name := "New", groups := [] }) :=
  ⟨⟨by decide,
    (claimed_device_stays_registered env_plain hub_ready 5000 77 200 "New" 1
      [({ env_plain with protocol_is_error := true }, 6000)] rfl rfl rfl (by decide)
      ⟨rfl, rfl, rfl, rfl, rfl⟩).2.2.2⟩,
   ⟨by decide,
    (claimed_device_stays_registered env_plain hub_ready 5000 77 200 "New" 1
      [(env_plain, 6000), (env_plain, 35001)] rfl rfl rfl (by decide)
      ⟨rfl, rfl, rfl, rfl, rfl⟩).2.2.2⟩⟩

/-! ## The advertisement parser -/

theorem byte_at_lt (adv : List Nat) (k : Nat) : byte_at adv k < 256 := by
  unfold byte_at
  exact Nat.mod_lt _ (by decide)

theorem uuid16_walk_spec (adv : List Nat) (base data_len : Nat) (hd : data_len ≤ 255) :
    ∀ fuel i : Nat, data_len ≤ i + 2 * fuel →
      ∃ u, uuid16_walk adv base data_len fuel i = some u ∧
        u.1 = uuid16_loop adv base data_len fuel i ∧
        (∀ k ∈ u.2, k < base + data_len) ∧
        (u.1 = true → ∃ j, i ≤ j ∧ j % 2 = i % 2 ∧ j + 1 < data_len ∧
          byte_at adv (base + j) = 0xF1 ∧ byte_at adv (base + j + 1) = 0xFE) := by
  intro fuel
  induction fuel with
  | zero =>
    intro i hf
    refine ⟨(false, []), ?_, rfl, ?_, ?_⟩
    · unfold uuid16_walk
      rw [if_neg (by omega)]
    · intro k hk; cases hk
    · intro h; cases h
  | succ fuel ih =>
    intro i hf
    by_cases hc : i + 1 < data_len
    · by_cases hm : ((byte_at adv (base + i) + 256 * byte_at adv (base + i + 1)) % 65536
          == CSRMESH_SERVICE_UUID16) = true
      · refine ⟨(true, [base + i, base + i + 1]), ?_, ?_, ?_, ?_⟩
        · unfold uuid16_walk
          rw [if_pos hc, if_pos hm]
        · unfold uuid16_loop
          rw [if_pos hc, if_pos hm]
        · intro k hk
          simp only [List.mem_cons, List.mem_singleton, List.not_mem_nil, or_false] at hk
          omega
        · intro _
          have h0 := byte_at_lt adv (base + i)
          have h1 := byte_at_lt adv (base + i + 1)
          have he : (byte_at adv (base + i) + 256 * byte_at adv (base + i + 1)) % 65536
              = 0xFEF1 := by simpa [CSRMESH_SERVICE_UUID16] using hm
          exact ⟨i, le_refl _, rfl, hc, by omega, by omega⟩
      · have hwrap : (i + 2) % 256 = i + 2 := Nat.mod_eq_of_lt (by omega)
        obtain ⟨u, hu1, hu2, hu3, hu4⟩ := ih (i + 2) (by omega)
        refine ⟨(u.1, [base + i, base + i + 1] ++ u.2), ?_, ?_, ?_, ?_⟩
        · unfold uuid16_walk
          rw [if_pos hc, if_neg hm, hwrap, hu1]
          rfl
        · show u.1 = _
          unfold uuid16_loop
          rw [if_pos hc, if_neg hm, hwrap]
          exact hu2
        · intro k hk
          simp only [List.cons_append, List.nil_append, List.mem_cons] at hk
          rcases hk with hk | hk | hk
          · omega
          · omega
          · exact hu3 k hk
        · intro h
          obtain ⟨j, j1, j2, j3, j4, j5⟩ := hu4 h
          exact ⟨j, by omega, by omega, j3, j4, j5⟩
    · refine ⟨(false, []), ?_, ?_, ?_, ?_⟩
      · unfold uuid16_walk
        rw [if_neg hc]
      · unfold uuid16_loop
        rw [if_neg hc]
      · intro k hk; cases hk
      · intro h; cases h

theorem adv_walk_spec (adv : List Nat) (adv_len : Nat) :
    ∀ fuel offset : Nat, adv_len ≤ offset + fuel →
      ∃ r, adv_walk adv adv_len fuel offset = some r ∧
        r.1 = adv_loop adv adv_len fuel offset ∧
        (∀ k ∈ r.2, k < adv_len) ∧
        (r.1 = true → FieldStart adv adv_len offset →
          ∃ o, FieldStart adv adv_len o ∧ lists_bridge_uuid adv adv_len o) := by
  intro fuel
  induction fuel with
  | zero =>
    intro offset hf
    refine ⟨(false, []), ?_, rfl, ?_, ?_⟩
    · unfold adv_walk
      rw [if_neg (by omega)]
    · intro k hk; cases hk
    · intro h; cases h
  | succ fuel ih =>
    intro offset hf
    by_cases hlt : offset < adv_len
    · by_cases hwf : (byte_at adv offset == 0 || decide (offset + byte_at adv offset ≥ adv_len))
          = true
      · refine ⟨(false, [offset]), ?_, ?_, ?_, ?_⟩
        · unfold adv_walk
          rw [if_pos hlt]
          dsimp only
          rw [if_pos hwf]
        · unfold adv_loop
          rw [if_pos hlt]
          dsimp only
          rw [if_pos hwf]
        · intro k hk
          rw [List.mem_singleton] at hk
          omega
        · intro h; cases h
      · have hb := byte_at_lt adv offset
        have hwf2 : byte_at adv offset ≠ 0 ∧ offset + byte_at adv offset < adv_len := by
          simp only [Bool.or_eq_true, beq_iff_eq, decide_eq_true_eq, not_or, not_le] at hwf
          exact hwf
        have hdl : (byte_at adv offset - 1) % 256 = byte_at adv offset - 1 :=
          Nat.mod_eq_of_lt (by omega)
        obtain ⟨r, hr1, hr2, hr3, hr4⟩ := ih (offset + byte_at adv offset + 1) (by omega)
        by_cases hty : ((byte_at adv (offset + 1) == 0x02 || byte_at adv (offset + 1) == 0x03)
            && decide ((byte_at adv offset - 1) % 256 ≥ 2)) = true
        · obtain ⟨u, hu1, hu2, hu3, hu4⟩ := uuid16_walk_spec adv (offset + 2)
            ((byte_at adv offset - 1) % 256) (by omega) ((byte_at adv offset - 1) % 256) 0
            (by omega)
          by_cases hfound : u.1 = true
          · refine ⟨(true, [offset, offset + 1] ++ u.2), ?_, ?_, ?_, ?_⟩
            · unfold adv_walk
              rw [if_pos hlt]
              dsimp only
              rw [if_neg hwf, if_pos hty, hu1]
              dsimp only
              rw [if_pos hfound]
            · unfold adv_loop
              rw [if_pos hlt]
              dsimp only
              rw [if_neg hwf, ← hu2, hfound, hty]
              rfl
            · intro k hk
              simp only [List.cons_append, List.nil_append, List.mem_cons] at hk
              rcases hk with hk | hk | hk
              · omega
              · omega
              · have := hu3 k hk
                omega
            · intro _ hstart
              obtain ⟨j, _, j2, j3, j4, j5⟩ := hu4 hfound
              refine ⟨offset, hstart, hlt, hwf2.1, hwf2.2, ?_, j / 2, ?_, ?_, ?_⟩
              · simp only [Bool.and_eq_true, Bool.or_eq_true, beq_iff_eq] at hty
                exact hty.1
              · omega
              · rw [show offset + 2 + 2 * (j / 2) = offset + 2 + j by omega]; exact j4
              · rw [show offset + 2 + 2 * (j / 2) + 1 = offset + 2 + j + 1 by omega]; exact j5
          · have hfound2 : u.1 = false := Bool.eq_false_iff.mpr hfound
            refine ⟨(r.1, [offset, offset + 1] ++ u.2 ++ r.2), ?_, ?_, ?_, ?_⟩
            · unfold adv_walk
              rw [if_pos hlt]
              dsimp only
              rw [if_neg hwf, if_pos hty, hu1]
              dsimp only
              rw [if_neg hfound, hr1]
              rfl
            · show r.1 = _
              unfold adv_loop
              rw [if_pos hlt]
              dsimp only
              rw [if_neg hwf, ← hu2, hfound2, Bool.and_false, if_neg Bool.false_ne_true]
              exact hr2
            · intro k hk
              simp only [List.cons_append, List.nil_append, List.mem_cons, List.mem_append]
                at hk
              rcases hk with hk | hk | hk | hk
              · omega
              · omega
              · have := hu3 k hk
                omega
              · exact hr3 k hk
            · intro h hstart
              exact hr4 h (FieldStart.next offset hstart hlt hwf2.1 hwf2.2)
        · refine ⟨(r.1, [offset, offset + 1] ++ r.2), ?_, ?_, ?_, ?_⟩
          · unfold adv_walk
            rw [if_pos hlt]
            dsimp only
            rw [if_neg hwf, if_neg hty, hr1]
            rfl
          · show r.1 = _
            unfold adv_loop
            rw [if_pos hlt]
            dsimp only
            rw [if_neg hwf, Bool.eq_false_iff.mpr hty, Bool.false_and,
              if_neg Bool.false_ne_true]
            exact hr2
          · intro k hk
            simp only [List.cons_append, List.nil_append, List.mem_cons] at hk
            rcases hk with hk | hk | hk
            · omega
            · omega
            · exact hr3 k hk
          · intro h hstart
            exact hr4 h (FieldStart.next offset hstart hlt hwf2.1 hwf2.2)
    · refine ⟨(false, []), ?_, ?_, ?_, ?_⟩
      · unfold adv_walk
        rw [if_neg hlt]
      · unfold adv_loop
        rw [if_neg hlt]
      · intro k hk; cases hk
      · intro h; cases h

theorem scan_result_changes_candidate (s : AvionMeshHub) (now : Nat) (result : BLEScanResult)
    (h : (s.gap_scan_event_handler now result).best_rssi_ ≠ s.best_rssi_ ∨
      (s.gap_scan_event_handler now result).bridge_bda_ ≠ s.bridge_bda_) :
    s.ble_state_ = BleState.Scanning ∧ carries_bridge_uuid result = true := by
  unfold AvionMeshHub.gap_scan_event_handler at h
  split at h
  · exfalso
    unfold AvionMeshHub.stop_scan_and_connect AvionMeshHub.connect_to_best at h
    split at h
    · rcases h with h | h <;> exact h rfl
    · split at h
      · rcases h with h | h <;> exact h rfl
      · rcases h with h | h <;> exact h rfl
  · split at h
    · rcases h with h | h <;> exact absurd rfl h
    · split at h
      · rcases h with h | h <;> exact absurd rfl h
      · rename_i hstate
        split at h
        · rename_i hc
          refine ⟨?_, hc⟩
          simpa using hstate
        · rcases h with h | h <;> exact absurd rfl h

/-- C28: for every advertisement buffer and every total length `adv_len`, the parsing
loop of `gap_scan_event_handler` ends within `adv_len` rounds, with the result that
the handler uses; every index it reads (length byte, type byte, UUID bytes) is smaller
than `adv_len`; and when it finds the bridge UUID, one of the well-formed AD structures
of the record has type 0x02 or 0x03 and holds the bytes 0xF1, 0xFE at an even offset of
its data. A record changes the best candidate (`best_rssi_`, `bridge_bda_`) only while
`ble_state_` is Scanning and only if its buffer holds such a structure. -/
theorem adv_parser_reads_in_bounds (adv : List Nat) (adv_len : Nat) :
    (∃ r, adv_walk adv adv_len adv_len 0 = some r ∧
      r.1 = adv_loop adv adv_len adv_len 0 ∧
      (∀ k ∈ r.2, k < adv_len) ∧
      (r.1 = true → ∃ o, FieldStart adv adv_len o ∧ lists_bridge_uuid adv adv_len o)) ∧
    (∀ (s : AvionMeshHub) (now : Nat) (result : BLEScanResult),
      result.ble_adv = adv → (result.adv_data_len + result.scan_rsp_len) % 256 = adv_len →
      ((s.gap_scan_event_handler now result).best_rssi_ ≠ s.best_rssi_ ∨
        (s.gap_scan_event_handler now result).bridge_bda_ ≠ s.bridge_bda_) →
      s.ble_state_ = BleState.Scanning ∧
      ∃ o, FieldStart adv adv_len o ∧ lists_bridge_uuid adv adv_len o) := by
  obtain ⟨r, h1, h2, h3, h4⟩ := adv_walk_spec adv adv_len adv_len 0 (by omega)
  refine ⟨⟨r, h1, h2, h3, fun h => h4 h FieldStart.first⟩, ?_⟩
  intro s now result ha hl hch
  obtain ⟨hs, hc⟩ := scan_result_changes_candidate s now result hch
  refine ⟨hs, h4 ?_ FieldStart.first⟩
  rw [h2, ← ha, ← hl]
  exact hc


/-- Witness for C28: during a scan, the record `adv_bridge` with RSSI -60 becomes the
best candidate, and its buffer holds the bridge UUID in a well-formed structure. -/
theorem adv_parser_reads_in_bounds_witness :
    (hub_ready.start_scan 0).ble_state_ = BleState.Scanning ∧
    ∃ o, FieldStart [2, 1, 6, 3, 3, 0xF1, 0xFE] 7 o ∧
      lists_bridge_uuid [2, 1, 6, 3, 3, 0xF1, 0xFE] 7 o :=
  (adv_parser_reads_in_bounds [2, 1, 6, 3, 3, 0xF1, 0xFE] 7).2 (hub_ready.start_scan 0) 0
    (adv_bridge [1, 2, 3, 4, 5, 6] (-60)) rfl rfl (Or.inl (by decide))

end avionmesh
